import Mathlib

/-!
Request authentication and authorization of b33s (cmd/auth-handler.go)

A shallow embedding of `cmd/auth-handler.go`.

* Go strings are Lean strings, byte slices are lists of naturals below 256;
  where a string is converted to bytes or back, a character stands for the
  byte of its code.
* `map[string][]string` (`url.Values`, `http.Header`, condition values) is an
  association list read at the first entry of a key; the nil map is `[]`.
* Code of other packages (signature verifiers, credential lookup, policy
  stores, the query parser of `net/url`, ...) and the constants declared in
  files that are not part of `src/` are fields of `Env`: every theorem holds
  for all of them.
* Calls of verifiers, credential extraction and policy stores are recorded in
  a list of `Call`s that each function returns next to its result, so that
  "is not consulted" is a statement about that list.
* Functions that assign to fields of `*http.Request` return the request they
  leave behind.
* Logging calls (`logger.LogIf`) have no result and are left out.
-/

namespace B33s

/-! ## Go strings and maps -/

/-- Go's `strings.HasPrefix`. -/
def HasPrefix (s pre : String) : Bool := pre.data.isPrefixOf s.data

/-- Substring test on character lists. -/
def containsChars (sub : List Char) : List Char → Bool
  | [] => sub.isPrefixOf []
  | c :: cs => sub.isPrefixOf (c :: cs) || containsChars sub cs

/-- Go's `strings.Contains`. -/
def Contains (s substr : String) : Bool := containsChars substr.data s.data

/-- Go's `map[string][]string`: `url.Values`, `http.Header`, condition values. -/
abbrev Values := List (String × List String)

/-- The two-result map read `v, ok := m[key]`, as an option. -/
def Values.lookup (m : Values) (key : String) : Option (List String) := List.lookup key m

/-- The `ok` of `_, ok := m[key]`. -/
def Values.has (m : Values) (key : String) : Bool := (m.lookup key).isSome

/-- `Values.Get` and `Header.Get`: the first value of the key, or the empty
string. Every header name used below is in canonical MIME form, on which the
key canonicalisation of `Header.Get` is the identity. -/
def Values.Get (m : Values) (key : String) : String :=
  match m.lookup key with
  | some (v :: _) => v
  | _ => ""

/-- The map assignment `m[key] = vs`. -/
def Values.set (m : Values) (key : String) (vs : List String) : Values :=
  (key, vs) :: m.filter (fun kv => kv.1 != key)

/-- Go's `http.Header`. -/
abbrev Header := Values

/-- Go's `http.MethodPut`. -/
def MethodPut : String := "PUT"

/-- Go's `http.MethodPost`. -/
def MethodPost : String := "POST"

/-! ## Time -/

/-- An instant, in nanoseconds: an integer. -/
abbrev Time := Int

/-- Largest `time.Duration`, a signed 64-bit count of nanoseconds. -/
def maxDuration : Int := 2 ^ 63 - 1

/-- Smallest `time.Duration`. -/
def minDuration : Int := -(2 ^ 63)

/-- Go's `Time.Sub`: the difference `t - u`, replaced by the largest or
smallest duration when it does not fit. -/
def Time.Sub (t u : Int) : Int :=
  if t - u > maxDuration then maxDuration
  else if t - u < minDuration then minDuration
  else t - u

/-- Go's `time.Minute`. -/
def Minute : Int := 60 * 1000000000

/-- Modelled from the spec: `globalMaxSkewTime` of cmd/globals.go, which is
not among the sources; the spec gives the window as 15 minutes. -/
def globalMaxSkewTime : Int := 15 * Minute

/-! ## Data model -/

/-- The value of a claim (`interface{}`): a string, or anything else. -/
inductive ClaimValue
  | str (s : String)
  | other (json : String)
  deriving DecidableEq, Repr

/-- Go's `map[string]interface{}` of claims; the nil map is `[]`. -/
abbrev Claims := List (String × ClaimValue)

/-- `MapClaims.Lookup`: the value of the key when it is a string. -/
def Claims.Lookup (c : Claims) (key : String) : String × Bool :=
  match List.lookup key c with
  | some (ClaimValue.str s) => (s, true)
  | _ => ("", false)

/-- The map assignment `claims.MapClaims[key] = v`. -/
def Claims.set (c : Claims) (key : String) (v : ClaimValue) : Claims :=
  (key, v) :: c.filter (fun kv => kv.1 != key)

/-- Modelled from the spec: `auth.Credentials` of internal/auth, which is not
among the sources. The results of its methods `IsTemp()` and
`IsServiceAccount()` are the flags the spec's data model gives a credential. -/
structure Credentials where
  AccessKey : String
  SecretKey : String
  SessionToken : String
  Groups : List String
  Claims : Claims
  IsTemp : Bool
  IsServiceAccount : Bool
  deriving DecidableEq, Repr

/-- The zero value `var cred auth.Credentials`. -/
def Credentials.zero : Credentials :=
  { AccessKey := "", SecretKey := "", SessionToken := "", Groups := [], Claims := [],
    IsTemp := false, IsServiceAccount := false }

/-- The codes of `APIErrorCode` that auth-handler.go names; every other code
of the enumeration is `ErrOther n`. -/
inductive APIErrorCode
  | ErrNone
  | ErrAccessDenied
  | ErrNoAccessKey
  | ErrInvalidToken
  | ErrSignatureVersionNotSupported
  | ErrMalformedXML
  | ErrInvalidDigest
  | ErrContentSHA256Mismatch
  | ErrRequestTimeTooSkewed
  | ErrOther (n : Nat)
  deriving DecidableEq, Repr

/-- Go `error` values: the package variable `errAuthentication`, or another. -/
inductive GoError
  | errAuthentication
  | other (msg : String)
  deriving DecidableEq, Repr

/-- Authorization type. -/
inductive authType
  | authTypeUnknown
  | authTypeAnonymous
  | authTypePresigned
  | authTypePresignedV2
  | authTypePostPolicy
  | authTypeStreamingSigned
  | authTypeSigned
  | authTypeSignedV2
  | authTypeJWT
  | authTypeSTS
  deriving DecidableEq, Repr

/-- The body of a request: a reader over bytes, or a `hash.Reader` wrapped
around another body with the size and digests it was created with. -/
inductive Body
  | reader (data : List Nat)
  | hashReader (src : Body) (size : Int) (md5Hex sha256Hex : String) (actualSize : Int)
  deriving DecidableEq, Repr

/-- Go's `url.URL`, of which only the raw query is read. -/
structure URL where
  RawQuery : String
  deriving DecidableEq, Repr

/-- Go's `http.Request`: the fields auth-handler.go reads or assigns. -/
structure Request where
  Method : String
  URL : Option URL
  Header : Header
  Form : Values
  Body : Body
  deriving DecidableEq, Repr

/-- Policy actions (`policy.Action`, `iampolicy.Action`, `iampolicy.AdminAction`)
are strings. -/
abbrev Action := String

/-- The action `policy.ListAllMyBucketsAction` of minio/pkg. -/
def ListAllMyBucketsAction : Action := "s3:ListAllMyBuckets"

/-- The action `policy.ListBucketAction` of minio/pkg. -/
def ListBucketAction : Action := "s3:ListBucket"

/-- The action `policy.ListBucketVersionsAction` of minio/pkg. -/
def ListBucketVersionsAction : Action := "s3:ListBucketVersions"

/-- The action `policy.GetBucketLocationAction` of minio/pkg. -/
def GetBucketLocationAction : Action := "s3:GetBucketLocation"

/-- The action `policy.CreateBucketAction` of minio/pkg. -/
def CreateBucketAction : Action := "s3:CreateBucket"

/-- The action `iampolicy.PutObjectRetentionAction` of minio/pkg. -/
def PutObjectRetentionAction : Action := "s3:PutObjectRetention"

/-- The action `iampolicy.BypassGovernanceRetentionAction` of minio/pkg. -/
def BypassGovernanceRetentionAction : Action := "s3:BypassGovernanceRetention"

/-- The arguments of a bucket-policy evaluation, `policy.Args`. -/
structure policy.Args where
  AccountName : String
  Groups : List String
  Action : Action
  BucketName : String
  ConditionValues : Values
  IsOwner : Bool
  ObjectName : String
  deriving DecidableEq, Repr

/-- The arguments of an identity-policy evaluation, `iampolicy.Args`. -/
structure iampolicy.Args where
  AccountName : String
  Groups : List String
  Action : Action
  BucketName : String
  ConditionValues : Values
  IsOwner : Bool
  ObjectName : String
  Claims : Claims
  deriving DecidableEq, Repr

/-- The retention mode `objectlock.RetMode`, a string. -/
abbrev RetMode := String

/-- The service a V4 signature is scoped to, `serviceType`, a string. -/
abbrev serviceType := String

/-- The request-scoped record `logger.ReqInfo`: the fields the pipeline
assigns and reads. -/
structure ReqInfo where
  Cred : Credentials
  Owner : Bool
  Region : String
  BucketName : String
  ObjectName : String
  deriving DecidableEq, Repr

/-- A call of a signature verifier, of credential extraction, of token
verification or of a policy store. -/
inductive Call
  | getReqAccessKeyV4 (r : Request) (region : String) (stype : serviceType)
  | getReqAccessKeyV2 (r : Request)
  | doesSignatureMatch (sha256sum : String) (r : Request) (region : String) (stype : serviceType)
  | doesPresignedSignatureMatch (sha256sum : String) (r : Request) (region : String)
      (stype : serviceType)
  | doesSignV2Match (r : Request)
  | doesPresignV2SignatureMatch (r : Request)
  | ExtractClaims (token secret : String)
  | globalPolicySysIsAllowed (args : policy.Args)
  | globalIAMSysIsAllowed (args : iampolicy.Args)
  deriving DecidableEq, Repr

/-! ## Library functions -/

/-- Go's `subtle.ConstantTimeCompare` on the bytes of two strings: 1 when they
are equal, 0 otherwise. -/
def ConstantTimeCompare (x y : String) : Nat := if x = y then 1 else 0

/-- The value of a hexadecimal digit (`fromHexChar` of encoding/hex). -/
def fromHexChar (c : Char) : Option Nat :=
  if '0'.toNat ≤ c.toNat ∧ c.toNat ≤ '9'.toNat then some (c.toNat - '0'.toNat)
  else if 'a'.toNat ≤ c.toNat ∧ c.toNat ≤ 'f'.toNat then some (c.toNat - 'a'.toNat + 10)
  else if 'A'.toNat ≤ c.toNat ∧ c.toNat ≤ 'F'.toNat then some (c.toNat - 'A'.toNat + 10)
  else none

/-- Decoding of a list of hexadecimal digits, two for a byte. -/
def hexDecodeChars : List Char → Option (List Nat)
  | [] => some []
  | [_] => none
  | a :: b :: rest =>
    match fromHexChar a, fromHexChar b, hexDecodeChars rest with
    | some x, some y, some bs => some ((x * 16 + y) :: bs)
    | _, _, _ => none

/-- Go's `hex.DecodeString`; `none` stands for a returned error. -/
def hexDecodeString (s : String) : Option (List Nat) := hexDecodeChars s.data

/-- A hexadecimal digit of `hex.EncodeToString`. -/
def hexDigit (n : Nat) : Char := "0123456789abcdef".data.getD n '0'

/-- Go's `hex.EncodeToString`. -/
def hexEncodeToString (bs : List Nat) : String :=
  String.mk (bs.flatMap (fun b => [hexDigit (b / 16 % 16), hexDigit (b % 16)]))

/-- The key `iampolicy.SessionPolicyName` of minio/pkg. -/
def SessionPolicyName : String := "sessionPolicy"

/-- The mode `objectlock.RetGovernance`. -/
def RetGovernance : RetMode := "GOVERNANCE"

/-- The mode `objectlock.RetCompliance`. -/
def RetCompliance : RetMode := "COMPLIANCE"

/-! ## The environment of the handlers -/

/-- What auth-handler.go takes from elsewhere: constants of files that are not
among the sources, the process-wide state it reads, and the functions of other
files and packages it calls. -/
structure Env where
  /-- Header and query names of internal/http, in canonical form. -/
  Authorization : String
  AmzContentSha256 : String
  AmzCredential : String
  AmzAccessKeyID : String
  ContentType : String
  ActionKey : String
  AmzSecurityToken : String
  AmzObjectLockMode : String
  AmzObjectLockRetainUntilDate : String
  /-- Constants of package cmd. -/
  signV4Algorithm : String
  signV2Algorithm : String
  jwtAlgorithm : String
  streamingContentSHA256 : String
  serviceS3 : serviceType
  sessionPolicyNameExtracted : String
  /-- Process-wide state. -/
  globalActiveCred : Credentials
  authZPluginSet : Bool
  /-- Go's `url.ParseQuery`: the values read, and the first error if any. -/
  ParseQuery : String → Values × Option GoError
  /-- Credential extraction and signature verifiers. -/
  getReqAccessKeyV4 : Request → String → serviceType → Credentials × Bool × APIErrorCode
  getReqAccessKeyV2 : Request → Credentials × Bool × APIErrorCode
  doesSignatureMatch : String → Request → String → serviceType → APIErrorCode
  doesPresignedSignatureMatch : String → Request → String → serviceType → APIErrorCode
  doesSignV2Match : Request → APIErrorCode
  doesPresignV2SignatureMatch : Request → APIErrorCode
  getContentSha256Cksum : Request → serviceType → String
  skipContentSha256Cksum : Request → Bool
  /-- The functions `etag.FromContentMD5`, `ETag.String` and `hash.NewReader`. -/
  FromContentMD5 : Header → Except GoError (List Nat)
  ETagString : List Nat → String
  NewReader : Body → Int → String → String → Int → Except GoError Body
  /-- Token verification `auth.ExtractClaims` and `base64.StdEncoding.DecodeString`. -/
  ExtractClaims : String → String → Except GoError Claims
  base64DecodeString : String → Except GoError String
  toAPIErrorCode : GoError → APIErrorCode
  /-- Condition values and the two policy stores. -/
  getConditionValues : Request → String → String → Claims → Values
  globalPolicySysIsAllowed : policy.Args → Bool
  globalIAMSysIsAllowed : iampolicy.Args → Bool
  /-- Date header parsing and `Time.UTC().Format(time.RFC3339)`. -/
  parseAmzDateHeader : Request → Time × APIErrorCode
  formatRFC3339 : Time → String
  /-- The region `globalSite.Region`, the bound `maxLocationConstraintSize`,
  `parseLocationConstraint`, and reading at most so many bytes of a
  `hash.Reader` to its end. -/
  globalSiteRegion : String
  maxLocationConstraintSize : Nat
  parseLocationConstraint : Request → String × APIErrorCode
  readHashReader : Body → Nat → Except GoError (List Nat)

/-! ## Classification of a request -/

open authType APIErrorCode

/-- Verify if request has JWT. -/
def isRequestJWT (env : Env) (r : Request) : Bool :=
  HasPrefix (r.Header.Get env.Authorization) env.jwtAlgorithm

/-- Verify if request has AWS Signature Version 4. -/
def isRequestSignatureV4 (env : Env) (r : Request) : Bool :=
  HasPrefix (r.Header.Get env.Authorization) env.signV4Algorithm

/-- Verify if request has AWS Signature Version 2. -/
def isRequestSignatureV2 (env : Env) (r : Request) : Bool :=
  !HasPrefix (r.Header.Get env.Authorization) env.signV4Algorithm &&
    HasPrefix (r.Header.Get env.Authorization) env.signV2Algorithm

/-- Verify if request has AWS PreSign Version 4. -/
def isRequestPresignedSignatureV4 (env : Env) (r : Request) : Bool :=
  r.Form.has env.AmzCredential

/-- Verify request has AWS PreSign Version 2. -/
def isRequestPresignedSignatureV2 (env : Env) (r : Request) : Bool :=
  r.Form.has env.AmzAccessKeyID

/-- Verify if request has AWS Post policy Signature Version 4. -/
def isRequestPostPolicySignatureV4 (env : Env) (r : Request) : Bool :=
  Contains (r.Header.Get env.ContentType) "multipart/form-data" && r.Method == MethodPost

/-- Verify if the request has AWS Streaming Signature Version 4. -/
def isRequestSignStreamingV4 (env : Env) (r : Request) : Bool :=
  r.Header.Get env.AmzContentSha256 == env.streamingContentSHA256 && r.Method == MethodPut

/-- Get request authentication type. The second component is the request left
behind: its `Form` is assigned the parsed query whenever the URL is not nil. -/
def getRequestAuthType (env : Env) (r : Request) : authType × Request :=
  let parsed : Request × Bool :=
    match r.URL with
    | some u => ({ r with Form := (env.ParseQuery u.RawQuery).1 },
                 (env.ParseQuery u.RawQuery).2.isSome)
    | none => (r, false)
  let r := parsed.1
  if parsed.2 then (authTypeUnknown, r)
  else if isRequestSignatureV2 env r then (authTypeSignedV2, r)
  else if isRequestPresignedSignatureV2 env r then (authTypePresignedV2, r)
  else if isRequestSignStreamingV4 env r then (authTypeStreamingSigned, r)
  else if isRequestSignatureV4 env r then (authTypeSigned, r)
  else if isRequestPresignedSignatureV4 env r then (authTypePresigned, r)
  else if isRequestJWT env r then (authTypeJWT, r)
  else if isRequestPostPolicySignatureV4 env r then (authTypePostPolicy, r)
  else if r.Form.has env.ActionKey then (authTypeSTS, r)
  else if !r.Header.has env.Authorization then (authTypeAnonymous, r)
  else (authTypeUnknown, r)

/-! ## Signature V4 verification and the body-integrity reader -/

/-- The function `reqSignatureV4Verify`. -/
def reqSignatureV4Verify (env : Env) (r : Request) (region : String) (stype : serviceType) :
    APIErrorCode × List Call :=
  let sha256sum := env.getContentSha256Cksum r stype
  if isRequestSignatureV4 env r then
    (env.doesSignatureMatch sha256sum r region stype,
      [Call.doesSignatureMatch sha256sum r region stype])
  else if isRequestPresignedSignatureV4 env r then
    (env.doesPresignedSignatureMatch sha256sum r region stype,
      [Call.doesPresignedSignatureMatch sha256sum r region stype])
  else (ErrAccessDenied, [])

/-- Verify if request has valid AWS Signature Version 4. The declared digest
is `none` where the source returns `ErrContentSHA256Mismatch`. -/
def isReqAuthenticated (env : Env) (r : Request) (region : String) (stype : serviceType) :
    (APIErrorCode × Request) × List Call :=
  let v := reqSignatureV4Verify env r region stype
  if v.1 ≠ ErrNone then ((v.1, r), v.2)
  else
    match env.FromContentMD5 r.Header with
    | .error _ => ((ErrInvalidDigest, r), v.2)
    | .ok clientETag =>
      let skipSHA256 := env.skipContentSha256Cksum r
      let contentSHA256 : Option (List Nat) :=
        if !skipSHA256 && isRequestPresignedSignatureV4 env r then
          match r.Form.lookup env.AmzContentSha256 with
          | some (sha256Sum :: _) => hexDecodeString sha256Sum
          | _ => some []
        else if !skipSHA256 && r.Header.has env.AmzContentSha256 then
          match hexDecodeString (r.Header.Get env.AmzContentSha256) with
          | some bs => if bs.length = 0 then none else some bs
          | none => none
        else some []
      match contentSHA256 with
      | none => ((ErrContentSHA256Mismatch, r), v.2)
      | some sum =>
        match env.NewReader r.Body (-1) (env.ETagString clientETag) (hexEncodeToString sum) (-1) with
        | .error err => ((env.toAPIErrorCode err, r), v.2)
        | .ok reader => ((ErrNone, { r with Body := reader }), v.2)

/-! ## Admin requests -/

/-- The function `validateAdminSignature`: credential, claims, owner flag,
error code and the request left behind. -/
def validateAdminSignature (env : Env) (r : Request) (region : String) :
    (Credentials × Claims × Bool × APIErrorCode × Request) × List Call :=
  if r.Header.has env.AmzContentSha256 then
    let a := getRequestAuthType env r
    if a.1 = authTypeSigned then
      -- We only support admin credentials to access admin APIs.
      let k := env.getReqAccessKeyV4 a.2 region env.serviceS3
      let kc := Call.getReqAccessKeyV4 a.2 region env.serviceS3
      if k.2.2 ≠ ErrNone then ((k.1, [], k.2.1, k.2.2, a.2), [kc])
      else
        -- we only support V4 (no presign) with auth body
        let q := isReqAuthenticated env a.2 region env.serviceS3
        if q.1.1 ≠ ErrNone then ((k.1, [], k.2.1, q.1.1, q.1.2), kc :: q.2)
        else ((k.1, k.1.Claims, k.2.1, ErrNone, q.1.2), kc :: q.2)
    else ((Credentials.zero, [], false, ErrAccessDenied, a.2), [])
  else ((Credentials.zero, [], false, ErrAccessDenied, r), [])

/-- The function `checkAdminRequestAuth` checks for authentication and
authorization for the incoming request. -/
def checkAdminRequestAuth (env : Env) (r : Request) (action : Action) (region : String) :
    (Credentials × APIErrorCode × Request) × List Call :=
  let v := validateAdminSignature env r region
  let cred := v.1.1
  let claims := v.1.2.1
  let owner := v.1.2.2.1
  let s3Err := v.1.2.2.2.1
  let r := v.1.2.2.2.2
  if s3Err ≠ ErrNone then ((cred, s3Err, r), v.2)
  else
    let args : iampolicy.Args :=
      { AccountName := cred.AccessKey
        Groups := cred.Groups
        Action := action
        BucketName := ""
        ConditionValues := env.getConditionValues r "" cred.AccessKey claims
        IsOwner := owner
        ObjectName := ""
        Claims := claims }
    if env.globalIAMSysIsAllowed args then
      ((cred, ErrNone, r), v.2 ++ [Call.globalIAMSysIsAllowed args])
    else ((cred, ErrAccessDenied, r), v.2 ++ [Call.globalIAMSysIsAllowed args])

/-! ## Session tokens and claims -/

/-- Fetch the security token set by the client. -/
def getSessionToken (env : Env) (r : Request) : String :=
  let token := r.Header.Get env.AmzSecurityToken
  if token ≠ "" then token else r.Form.Get env.AmzSecurityToken

/-- The function `getClaimsFromTokenWithSecret`. -/
def getClaimsFromTokenWithSecret (env : Env) (token secret : String) :
    Except GoError Claims × List Call :=
  let c1 := Call.ExtractClaims token secret
  let c2 := Call.ExtractClaims token env.globalActiveCred.SecretKey
  let verified : Option Claims × List Call :=
    match env.ExtractClaims token secret with
    | .ok claims => (some claims, [c1])
    | .error _ =>
      if ConstantTimeCompare secret env.globalActiveCred.SecretKey = 1 then (none, [c1])
      else
        match env.ExtractClaims token env.globalActiveCred.SecretKey with
        | .ok claims => (some claims, [c1, c2])
        | .error _ => (none, [c1, c2])
  match verified.1 with
  | none => (.error GoError.errAuthentication, verified.2)
  | some claims =>
    -- If AuthZPlugin is set, return without any further checks.
    if env.authZPluginSet then (.ok claims, verified.2)
    else
      -- Check if a session policy is set. If so, decode it here.
      let sp := claims.Lookup SessionPolicyName
      if sp.2 then
        match env.base64DecodeString sp.1 with
        | .error _ => (.error GoError.errAuthentication, verified.2)
        | .ok spBytes =>
          (.ok (claims.set env.sessionPolicyNameExtracted (ClaimValue.str spBytes)), verified.2)
      else (.ok claims, verified.2)

/-- Fetch claims in the security token returned by the client and validate
the token. -/
def checkClaimsFromToken (env : Env) (r : Request) (cred : Credentials) :
    (Claims × APIErrorCode) × List Call :=
  let token := getSessionToken env r
  if token ≠ "" ∧ cred.AccessKey = "" then
    -- x-amz-security-token is not allowed for anonymous access.
    (([], ErrNoAccessKey), [])
  else if token = "" ∧ cred.IsTemp = true then
    -- Temporary credentials should always have x-amz-security-token
    (([], ErrInvalidToken), [])
  else if token ≠ "" ∧ cred.IsTemp = false then
    -- x-amz-security-token should not present for static credentials.
    (([], ErrInvalidToken), [])
  else if cred.IsTemp = true ∧ ConstantTimeCompare token cred.SessionToken ≠ 1 then
    -- validate token for temporary credentials only.
    (([], ErrInvalidToken), [])
  else
    let token := if cred.IsServiceAccount then cred.SessionToken else token
    let secret := if cred.IsServiceAccount then cred.SecretKey else env.globalActiveCred.SecretKey
    if token ≠ "" then
      let g := getClaimsFromTokenWithSecret env token secret
      match g.1 with
      | .error err => (([], env.toAPIErrorCode err), g.2)
      | .ok claims => ((claims, ErrNone), g.2)
    else (([], ErrNone), [])

/-! ## Authorization -/

/-- The function `authorizeRequest`; `reqInfo` is `logger.GetReqInfo(ctx)`. -/
def authorizeRequest (env : Env) (reqInfo : Option ReqInfo) (r : Request) (action : Action) :
    APIErrorCode × List Call :=
  match reqInfo with
  | none => (ErrAccessDenied, [])
  | some reqInfo =>
    let cred := reqInfo.Cred
    let owner := reqInfo.Owner
    let region := reqInfo.Region
    let bucket := reqInfo.BucketName
    let object := reqInfo.ObjectName
    if action ≠ ListAllMyBucketsAction ∧ cred.AccessKey = "" then
      -- Anonymous checks are not meant for ListAllBuckets action
      let args : policy.Args :=
        { AccountName := cred.AccessKey
          Groups := []
          Action := action
          BucketName := bucket
          ConditionValues := env.getConditionValues r region "" []
          IsOwner := false
          ObjectName := object }
      if env.globalPolicySysIsAllowed args then (ErrNone, [Call.globalPolicySysIsAllowed args])
      else if action = ListBucketVersionsAction then
        -- In AWS S3 s3:ListBucket permission is same as s3:ListBucketVersions permission
        -- verify as a fallback.
        let args2 : policy.Args := { args with Action := ListBucketAction }
        if env.globalPolicySysIsAllowed args2 then
          (ErrNone, [Call.globalPolicySysIsAllowed args, Call.globalPolicySysIsAllowed args2])
        else (ErrAccessDenied, [Call.globalPolicySysIsAllowed args, Call.globalPolicySysIsAllowed args2])
      else (ErrAccessDenied, [Call.globalPolicySysIsAllowed args])
    else
      let args : iampolicy.Args :=
        { AccountName := cred.AccessKey
          Groups := cred.Groups
          Action := action
          BucketName := bucket
          ConditionValues := env.getConditionValues r "" cred.AccessKey cred.Claims
          IsOwner := owner
          ObjectName := object
          Claims := cred.Claims }
      if env.globalIAMSysIsAllowed args then (ErrNone, [Call.globalIAMSysIsAllowed args])
      else if action = ListBucketVersionsAction then
        -- In AWS S3 s3:ListBucket permission is same as s3:ListBucketVersions permission
        -- verify as a fallback.
        let args2 : iampolicy.Args := { args with Action := ListBucketAction }
        if env.globalIAMSysIsAllowed args2 then
          (ErrNone, [Call.globalIAMSysIsAllowed args, Call.globalIAMSysIsAllowed args2])
        else (ErrAccessDenied, [Call.globalIAMSysIsAllowed args, Call.globalIAMSysIsAllowed args2])
      else (ErrAccessDenied, [Call.globalIAMSysIsAllowed args])

/-! ## Authentication of a request -/

/-- Verify if request has valid AWS Signature Version 2. -/
def isReqAuthenticatedV2 (env : Env) (r : Request) : APIErrorCode × List Call :=
  if isRequestSignatureV2 env r then (env.doesSignV2Match r, [Call.doesSignV2Match r])
  else (env.doesPresignV2SignatureMatch r, [Call.doesPresignV2SignatureMatch r])

/-- The read `io.ReadAll(io.LimitReader(body, n))`: the first `n` bytes of a
reader over bytes; a `hash.Reader` is read by internal/hash. -/
def readAllLimit (env : Env) (body : Body) (n : Nat) : Except GoError (List Nat) :=
  match body with
  | Body.reader data => .ok (data.take n)
  | Body.hashReader src size md5Hex sha256Hex actualSize =>
    env.readHashReader (Body.hashReader src size md5Hex sha256Hex actualSize) n

/-- The bytes a body holds: those of the reader, or of the body a
`hash.Reader` is wrapped around. -/
def Body.data : Body → List Nat
  | Body.reader data => data
  | Body.hashReader src _ _ _ _ => src.data

/-- The function `authenticateRequest`; `reqInfo` is `logger.GetReqInfo(ctx)`.
It returns the error code, the request record and the request it leaves
behind. The value `sw` is the state after the `switch`: credential, owner flag
and code, the request and the calls made; a `return` inside the switch is the
same as the `return s3Err` that follows it, both leaving the record untouched.
On an error path the request keeps the body it had when the error arose. -/
def authenticateRequest (env : Env) (reqInfo : Option ReqInfo) (r : Request) (action : Action) :
    (APIErrorCode × Option ReqInfo × Request) × List Call :=
  match reqInfo with
  | none => ((ErrAccessDenied, none, r), [])
  | some info =>
    let a := getRequestAuthType env r
    let r := a.2
    let sw : (Credentials × Bool × APIErrorCode) × Request × List Call :=
      if a.1 = authTypeUnknown ∨ a.1 = authTypeStreamingSigned then
        ((Credentials.zero, false, ErrSignatureVersionNotSupported), r, [])
      else if a.1 = authTypePresignedV2 ∨ a.1 = authTypeSignedV2 then
        let v := isReqAuthenticatedV2 env r
        if v.1 ≠ ErrNone then ((Credentials.zero, false, v.1), r, v.2)
        else (env.getReqAccessKeyV2 r, r, v.2 ++ [Call.getReqAccessKeyV2 r])
      else if a.1 = authTypeSigned ∨ a.1 = authTypePresigned then
        let region :=
          if action = GetBucketLocationAction ∨ action = ListAllMyBucketsAction then ""
          else env.globalSiteRegion
        let q := isReqAuthenticated env r region env.serviceS3
        if q.1.1 ≠ ErrNone then ((Credentials.zero, false, q.1.1), q.1.2, q.2)
        else
          (env.getReqAccessKeyV4 q.1.2 region env.serviceS3, q.1.2,
            q.2 ++ [Call.getReqAccessKeyV4 q.1.2 region env.serviceS3])
      else ((Credentials.zero, false, ErrNone), r, [])
    let cred := sw.1.1
    let owner := sw.1.2.1
    let s3Err := sw.1.2.2
    let r := sw.2.1
    if s3Err ≠ ErrNone then ((s3Err, some info, r), sw.2.2)
    else
      let info := { info with Cred := cred, Owner := owner }
      -- region is valid only for CreateBucketAction.
      if action = CreateBucketAction then
        -- To extract region from XML in request body, get copy of request body.
        match readAllLimit env r.Body env.maxLocationConstraintSize with
        | .error _ => ((ErrMalformedXML, some info, r), sw.2.2)
        | .ok payload =>
          -- Populate payload to extract location constraint.
          let r := { r with Body := Body.reader payload }
          let loc := env.parseLocationConstraint r
          if loc.2 ≠ ErrNone then ((loc.2, some info, r), sw.2.2)
          else
            -- Populate payload again to handle it in HTTP handler.
            ((ErrNone, some { info with Region := loc.1 }, r), sw.2.2)
      else ((ErrNone, some { info with Region := "" }, r), sw.2.2)

/-- The function `checkRequestAuthTypeCredential`: credential, owner flag and
error code, then the request record and the request left behind. -/
def checkRequestAuthTypeCredential (env : Env) (reqInfo : Option ReqInfo) (r : Request)
    (action : Action) :
    ((Credentials × Bool × APIErrorCode) × Option ReqInfo × Request) × List Call :=
  let au := authenticateRequest env reqInfo r action
  let s3Err := au.1.1
  let r := au.1.2.2
  match au.1.2.1 with
  | none => (((Credentials.zero, false, ErrAccessDenied), none, r), au.2)
  | some info =>
    if s3Err ≠ ErrNone then (((info.Cred, info.Owner, s3Err), some info, r), au.2)
    else
      let z := authorizeRequest env (some info) r action
      (((info.Cred, info.Owner, z.1), some info, r), au.2 ++ z.2)

/-- The call is an evaluation of the bucket policy or of the identity policy. -/
def Call.isPolicy : Call → Bool
  | Call.globalPolicySysIsAllowed _ => true
  | Call.globalIAMSysIsAllowed _ => true
  | _ => false

/-- The call extracts the access key of the request. -/
def Call.isKeyExtraction : Call → Bool
  | Call.getReqAccessKeyV4 _ _ _ => true
  | Call.getReqAccessKeyV2 _ => true
  | _ => false

/-! ## The authorization-header handler -/

/-- Validate if the authType is valid and supported: membership in the table
`supportedS3AuthTypes`. -/
def isSupportedS3AuthType (aType : authType) : Bool :=
  match aType with
  | authTypeAnonymous => true
  | authTypePresigned => true
  | authTypePresignedV2 => true
  | authTypeSigned => true
  | authTypeSignedV2 => true
  | authTypePostPolicy => true
  | authTypeStreamingSigned => true
  | _ => false

/-- The trace context of a request: the fields the handler assigns
(`LogErrBody` is `tc.ResponseRecorder.LogErrBody`). -/
structure TraceCtxt where
  FuncName : String
  LogErrBody : Bool
  deriving DecidableEq, Repr

/-- The rejection counters of `globalHTTPStats`, unsigned 64-bit. -/
structure HTTPStats where
  rejectedRequestsTime : Nat
  rejectedRequestsAuth : Nat
  deriving DecidableEq, Repr

/-- Go's `atomic.AddUint64` on the value of the counter. -/
def atomicAddUint64 (c delta : Nat) : Nat := (c + delta) % 2 ^ 64

/-- What the handler does with the response writer and the wrapped handler. -/
inductive HandlerStep
  | ServeHTTP (r : Request)
  | writeErrorResponse (code : APIErrorCode)
  deriving DecidableEq, Repr

/-- The state the handler of `setAuthHandler` works on: the trace context of
the request if there is one, the counters, and the steps taken so far. -/
structure HandlerState where
  tc : Option TraceCtxt
  globalHTTPStats : HTTPStats
  steps : List HandlerStep
  deriving DecidableEq, Repr

/-- The assignments `tc.FuncName = "handler.Auth"` and
`tc.ResponseRecorder.LogErrBody = true`, made when the context holds a trace. -/
def markTrace (tc : Option TraceCtxt) : Option TraceCtxt :=
  tc.map (fun _ => { FuncName := "handler.Auth", LogErrBody := true })

/-- The handler returned by `setAuthHandler`, run on request `r` at server
time `curTime` (the value of `UTCNow()`). -/
def setAuthHandler (env : Env) (curTime : Time) (s : HandlerState) (r : Request) :
    HandlerState :=
  let a := getRequestAuthType env r
  let aType := a.1
  let r := a.2
  let afterDate : HandlerState :=
    if isSupportedS3AuthType aType || aType == authTypeJWT || aType == authTypeSTS then
      { s with steps := s.steps ++ [HandlerStep.ServeHTTP r] }
    else
      { tc := markTrace s.tc
        globalHTTPStats :=
          { s.globalHTTPStats with
            rejectedRequestsAuth := atomicAddUint64 s.globalHTTPStats.rejectedRequestsAuth 1 }
        steps := s.steps ++ [HandlerStep.writeErrorResponse ErrSignatureVersionNotSupported] }
  if aType = authTypeSigned ∨ aType = authTypeSignedV2 ∨ aType = authTypeStreamingSigned then
    -- Verify if date headers are set, if not reject the request
    let amzDate := (env.parseAmzDateHeader r).1
    let errCode := (env.parseAmzDateHeader r).2
    if errCode ≠ ErrNone then
      { tc := markTrace s.tc
        globalHTTPStats :=
          { s.globalHTTPStats with
            rejectedRequestsTime := atomicAddUint64 s.globalHTTPStats.rejectedRequestsTime 1 }
        steps := s.steps ++ [HandlerStep.writeErrorResponse errCode] }
    else if Time.Sub curTime amzDate > globalMaxSkewTime ∨
        Time.Sub amzDate curTime > globalMaxSkewTime then
      { tc := markTrace s.tc
        globalHTTPStats :=
          { s.globalHTTPStats with
            rejectedRequestsTime := atomicAddUint64 s.globalHTTPStats.rejectedRequestsTime 1 }
        steps := s.steps ++ [HandlerStep.writeErrorResponse ErrRequestTimeTooSkewed] }
    else afterDate
  else afterDate

/-! ## Object-lock retention -/

/-- The function `isPutRetentionAllowed`. -/
def isPutRetentionAllowed (env : Env) (bucketName objectName : String) (retDays : Int)
    (retDate : Time) (retMode : RetMode) (byPassSet : Bool) (r : Request)
    (cred : Credentials) (owner : Bool) : APIErrorCode × List Call :=
  if cred.AccessKey = "" then (ErrAccessDenied, [])
  else
    let conditions := env.getConditionValues r "" cred.AccessKey cred.Claims
    let conditions := conditions.set "object-lock-mode" [retMode]
    let conditions := conditions.set "object-lock-retain-until-date" [env.formatRFC3339 retDate]
    let conditions :=
      if retDays > 0 then
        conditions.set "object-lock-remaining-retention-days" [toString retDays]
      else conditions
    let bypassArgs : iampolicy.Args :=
      { AccountName := cred.AccessKey
        Groups := cred.Groups
        Action := BypassGovernanceRetentionAction
        BucketName := bucketName
        ConditionValues := conditions
        IsOwner := owner
        ObjectName := objectName
        Claims := cred.Claims }
    let bypass : Bool × List Call :=
      if retMode = RetGovernance ∧ byPassSet = true then
        (env.globalIAMSysIsAllowed bypassArgs, [Call.globalIAMSysIsAllowed bypassArgs])
      else (byPassSet, [])
    let byPassSet := bypass.1
    let retArgs : iampolicy.Args := { bypassArgs with Action := PutObjectRetentionAction }
    let retSet := env.globalIAMSysIsAllowed retArgs
    if byPassSet || retSet then (ErrNone, bypass.2 ++ [Call.globalIAMSysIsAllowed retArgs])
    else (ErrAccessDenied, bypass.2 ++ [Call.globalIAMSysIsAllowed retArgs])

/-! ## Signature validation and PUT actions -/

/-- The function `validateSignature`: credential, owner flag and error code,
then the request left behind. -/
def validateSignature (env : Env) (atype : authType) (r : Request) :
    ((Credentials × Bool × APIErrorCode) × Request) × List Call :=
  if atype = authTypeUnknown ∨ atype = authTypeStreamingSigned then
    (((Credentials.zero, false, ErrSignatureVersionNotSupported), r), [])
  else if atype = authTypeSignedV2 ∨ atype = authTypePresignedV2 then
    let v := isReqAuthenticatedV2 env r
    if v.1 ≠ ErrNone then (((Credentials.zero, false, v.1), r), v.2)
    else ((env.getReqAccessKeyV2 r, r), v.2 ++ [Call.getReqAccessKeyV2 r])
  else if atype = authTypePresigned ∨ atype = authTypeSigned then
    let region := env.globalSiteRegion
    let q := isReqAuthenticated env r region env.serviceS3
    if q.1.1 ≠ ErrNone then (((Credentials.zero, false, q.1.1), q.1.2), q.2)
    else
      ((env.getReqAccessKeyV4 q.1.2 region env.serviceS3, q.1.2),
        q.2 ++ [Call.getReqAccessKeyV4 q.1.2 region env.serviceS3])
  else (((Credentials.zero, false, ErrNone), r), [])

/-- The function `isPutActionAllowed` checks if a PUT operation is allowed on
the resource. `reqInfo` is the record `logger.GetReqInfo(ctx)`, whose fields
the function assigns without testing it for nil: it is taken to exist. The
result is the error code and the record left behind. -/
def isPutActionAllowed (env : Env) (reqInfo : ReqInfo) (atype : authType)
    (bucketName objectName : String) (r : Request) (action : Action) :
    (APIErrorCode × ReqInfo) × List Call :=
  let region := env.globalSiteRegion
  if atype = authTypeUnknown then ((ErrSignatureVersionNotSupported, reqInfo), [])
  else
    let sw : (Credentials × Bool × APIErrorCode) × List Call :=
      if atype = authTypeSignedV2 ∨ atype = authTypePresignedV2 then
        (env.getReqAccessKeyV2 r, [Call.getReqAccessKeyV2 r])
      else if atype = authTypeStreamingSigned ∨ atype = authTypePresigned ∨
          atype = authTypeSigned then
        (env.getReqAccessKeyV4 r region env.serviceS3,
          [Call.getReqAccessKeyV4 r region env.serviceS3])
      else ((Credentials.zero, false, ErrNone), [])
    let cred := sw.1.1
    let owner := sw.1.2.1
    let s3Err := sw.1.2.2
    if s3Err ≠ ErrNone then ((s3Err, reqInfo), sw.2)
    else
      let reqInfo := { reqInfo with Cred := cred, Owner := owner, Region := region }
      -- Do not check for PutObjectRetentionAction permission,
      -- if mode and retain until date are not set.
      -- Can happen when bucket has default lock config set
      if action = PutObjectRetentionAction ∧ r.Header.Get env.AmzObjectLockMode = "" ∧
          r.Header.Get env.AmzObjectLockRetainUntilDate = "" then
        ((ErrNone, reqInfo), sw.2)
      else if cred.AccessKey = "" then
        let args : policy.Args :=
          { AccountName := cred.AccessKey
            Groups := cred.Groups
            Action := action
            BucketName := bucketName
            ConditionValues := env.getConditionValues r "" "" []
            IsOwner := false
            ObjectName := objectName }
        if env.globalPolicySysIsAllowed args then
          ((ErrNone, reqInfo), sw.2 ++ [Call.globalPolicySysIsAllowed args])
        else ((ErrAccessDenied, reqInfo), sw.2 ++ [Call.globalPolicySysIsAllowed args])
      else
        let args : iampolicy.Args :=
          { AccountName := cred.AccessKey
            Groups := cred.Groups
            Action := action
            BucketName := bucketName
            ConditionValues := env.getConditionValues r "" cred.AccessKey cred.Claims
            IsOwner := owner
            ObjectName := objectName
            Claims := cred.Claims }
        if env.globalIAMSysIsAllowed args then
          ((ErrNone, reqInfo), sw.2 ++ [Call.globalIAMSysIsAllowed args])
        else ((ErrAccessDenied, reqInfo), sw.2 ++ [Call.globalIAMSysIsAllowed args])

/-- The call is a call of a signature verifier. -/
def Call.isVerifier : Call → Bool
  | Call.doesSignatureMatch _ _ _ _ => true
  | Call.doesPresignedSignatureMatch _ _ _ _ => true
  | Call.doesSignV2Match _ => true
  | Call.doesPresignV2SignatureMatch _ => true
  | _ => false

/-! ## Site replication -/

/-- The fields of `madmin.PeerInfo` that the test of `getMissingSiteNames`
sets. -/
structure PeerInfo where
  Endpoint : String
  Name : String
  DeploymentID : String
  deriving DecidableEq, Repr

/-- Modelled from the spec: `getMissingSiteNames` of cmd/site-replication.go,
which is not among the sources, and on which the spec is silent; the model
follows the cases of `TestGetMissingSiteNames`. A `set.StringSet` is a list of
its members. The difference of the old and the new deployment IDs is taken,
and the name of each current site whose deployment ID is in it is appended to
the result. -/
def getMissingSiteNames (oldDeps newDeps : List String) (currSites : List PeerInfo) :
    List String :=
  let diff := oldDeps.filter (fun d => !newDeps.contains d)
  currSites.foldl (fun diffSlc v => if diff.contains v.DeploymentID then diffSlc ++ [v.Name]
    else diffSlc) []

/-! ## Standard base64

Go's `base64.StdEncoding` on strings. Where a string is converted to bytes or
back, a character stands for the byte of its code. -/

/-- The alphabet of `base64.StdEncoding`. -/
def base64Alphabet : List Char :=
  "ABCDEFGHIJKLMNOPQRSTUVWXYZabcdefghijklmnopqrstuvwxyz0123456789+/".data

/-- The character of a six-bit value. -/
def base64Char (v : Nat) : Char := base64Alphabet.getD v 'A'

/-- The six-bit value of a character of the alphabet. -/
def base64Index (c : Char) : Option Nat :=
  if base64Alphabet.indexOf c < 64 then some (base64Alphabet.indexOf c) else none

/-- The encoding of bytes: four characters for three bytes, padded with `=`. -/
def base64EncodeBytes : List Nat → List Char
  | [] => []
  | [a] => [base64Char (a / 4), base64Char (a % 4 * 16), '=', '=']
  | [a, b] =>
    [base64Char (a / 4), base64Char (a % 4 * 16 + b / 16), base64Char (b % 16 * 4), '=']
  | a :: b :: c :: rest =>
    base64Char (a / 4) :: base64Char (a % 4 * 16 + b / 16) ::
      base64Char (b % 16 * 4 + c / 64) :: base64Char (c % 64) :: base64EncodeBytes rest

/-- The decoding of characters, four at a time; padding is accepted in the
last group only, and `none` stands for a corrupt input. -/
def base64DecodeQuanta : List Char → Option (List Nat)
  | [] => some []
  | a :: b :: c :: d :: rest =>
    match base64Index a, base64Index b with
    | some x0, some x1 =>
      if c = '=' then
        if d = '=' ∧ rest = [] then some [x0 * 4 + x1 / 16] else none
      else
        match base64Index c with
        | none => none
        | some x2 =>
          if d = '=' then
            if rest = [] then some [x0 * 4 + x1 / 16, x1 % 16 * 16 + x2 / 4] else none
          else
            match base64Index d with
            | none => none
            | some x3 =>
              (base64DecodeQuanta rest).map (fun bs =>
                (x0 * 4 + x1 / 16) :: (x1 % 16 * 16 + x2 / 4) :: (x2 % 4 * 64 + x3) :: bs)
    | _, _ => none
  | _ => none

/-- The conversion `[]byte(s)`. -/
def stringBytes (s : String) : List Nat := s.data.map Char.toNat

/-- The conversion `string(bs)`. -/
def bytesString (bs : List Nat) : String := String.mk (bs.map Char.ofNat)

/-- Go's `base64.StdEncoding.EncodeToString([]byte(s))`. -/
def base64EncodeToString (s : String) : String := String.mk (base64EncodeBytes (stringBytes s))

/-- Go's `base64.StdEncoding.DecodeString` followed by `string(...)`: line
breaks are skipped, then the groups are decoded. -/
def base64DecodeString (s : String) : Except GoError String :=
  match base64DecodeQuanta (s.data.filter (fun c => c != '\r' && c != '\n')) with
  | some bs => .ok (bytesString bs)
  | none => .error (GoError.other "illegal base64 data")

/-! ## A concrete environment

Used to run the definitions on concrete requests. -/

/-- The pieces of a query between `&`. -/
def splitAmp : List Char → List (List Char)
  | [] => [[]]
  | c :: cs =>
    if c = '&' then [] :: splitAmp cs
    else
      match splitAmp cs with
      | [] => [[c]]
      | p :: ps => (c :: p) :: ps

/-- Go's `url.QueryUnescape` on characters: `%XX` is the character of that
code, `+` a blank; `none` stands for an escape error. -/
def queryUnescape : List Char → Option (List Char)
  | [] => some []
  | '%' :: a :: b :: rest =>
    match fromHexChar a, fromHexChar b, queryUnescape rest with
    | some x, some y, some cs => some (Char.ofNat (x * 16 + y) :: cs)
    | _, _, _ => none
  | '%' :: _ => none
  | '+' :: rest => (queryUnescape rest).map (fun cs => ' ' :: cs)
  | c :: rest => (queryUnescape rest).map (fun cs => c :: cs)

/-- The assignment `m[key] = append(m[key], value)`. -/
def Values.add (m : Values) (key value : String) : Values :=
  match m.lookup key with
  | some vs => (key, vs ++ [value]) :: m.filter (fun kv => kv.1 != key)
  | none => m ++ [(key, [value])]

/-- One round of the loop of `url.ParseQuery` on the piece `kv`. -/
def parseQueryStep (acc : Values × Option GoError) (kv : List Char) : Values × Option GoError :=
  if kv.contains ';' then (acc.1, some (GoError.other "invalid semicolon separator in query"))
  else if kv = [] then acc
  else
    let key := kv.takeWhile (fun c => c != '=')
    let value := (kv.dropWhile (fun c => c != '=')).drop 1
    match queryUnescape key with
    | none => (acc.1, acc.2.orElse (fun _ => some (GoError.other "invalid URL escape")))
    | some key1 =>
      match queryUnescape value with
      | none => (acc.1, acc.2.orElse (fun _ => some (GoError.other "invalid URL escape")))
      | some value1 => (acc.1.add (String.mk key1) (String.mk value1), acc.2)

/-- Go's `url.ParseQuery`, for queries of ASCII characters. -/
def ParseQuery (query : String) : Values × Option GoError :=
  (splitAmp query.data).foldl parseQueryStep ([], none)

/-- A concrete environment: the header and query names of the S3 API, the
scheme prefixes of AWS signatures, `url.ParseQuery`, a root credential, and
verifiers, token verification and policy stores that refuse everything. -/
def sampleEnv : Env :=
  { Authorization := "Authorization"
    AmzContentSha256 := "X-Amz-Content-Sha256"
    AmzCredential := "X-Amz-Credential"
    AmzAccessKeyID := "AWSAccessKeyId"
    ContentType := "Content-Type"
    ActionKey := "Action"
    AmzSecurityToken := "X-Amz-Security-Token"
    AmzObjectLockMode := "X-Amz-Object-Lock-Mode"
    AmzObjectLockRetainUntilDate := "X-Amz-Object-Lock-Retain-Until-Date"
    signV4Algorithm := "AWS4-HMAC-SHA256"
    signV2Algorithm := "AWS"
    jwtAlgorithm := "Bearer"
    streamingContentSHA256 := "STREAMING-AWS4-HMAC-SHA256-PAYLOAD"
    serviceS3 := "s3"
    sessionPolicyNameExtracted := "sessionPolicy-extracted"
    globalActiveCred :=
      { Credentials.zero with AccessKey := "rootuser", SecretKey := "rootsecret" }
    authZPluginSet := false
    ParseQuery := ParseQuery
    getReqAccessKeyV4 := fun _ _ _ => (Credentials.zero, false, ErrOther 0)
    getReqAccessKeyV2 := fun _ => (Credentials.zero, false, ErrOther 0)
    doesSignatureMatch := fun _ _ _ _ => ErrOther 1
    doesPresignedSignatureMatch := fun _ _ _ _ => ErrOther 1
    doesSignV2Match := fun _ => ErrOther 1
    doesPresignV2SignatureMatch := fun _ => ErrOther 1
    getContentSha256Cksum := fun r _ => r.Header.Get "X-Amz-Content-Sha256"
    skipContentSha256Cksum := fun _ => false
    FromContentMD5 := fun _ => .ok []
    ETagString := hexEncodeToString
    NewReader := fun src size md5Hex sha256Hex actualSize =>
      .ok (Body.hashReader src size md5Hex sha256Hex actualSize)
    ExtractClaims := fun _ _ => .error (GoError.other "invalid token")
    base64DecodeString := B33s.base64DecodeString
    toAPIErrorCode := fun _ => ErrAccessDenied
    getConditionValues := fun _ _ _ _ => []
    globalPolicySysIsAllowed := fun _ => false
    globalIAMSysIsAllowed := fun _ => false
    parseAmzDateHeader := fun _ => (0, ErrOther 2)
    formatRFC3339 := fun _ => "1970-01-01T00:00:00Z"
    globalSiteRegion := "us-east-1"
    maxLocationConstraintSize := 3145728
    parseLocationConstraint := fun _ => ("us-east-1", ErrNone)
    readHashReader := fun b n => .ok (b.data.take n) }

/-- An unsigned GET request without query, headers or body. -/
def plainRequest : Request :=
  { Method := "GET", URL := some { RawQuery := "" }, Header := [], Form := [],
    Body := Body.reader [] }

/-- The verification step of `getClaimsFromTokenWithSecret` yields `claims`:
the token verifies under `secret`, or it does not, `secret` is not the root
secret, and the token verifies under the root secret. -/
def verifiesTo (env : Env) (token secret : String) (claims : Claims) : Prop :=
  env.ExtractClaims token secret = .ok claims ∨
    ((∃ e, env.ExtractClaims token secret = .error e) ∧
      secret ≠ env.globalActiveCred.SecretKey ∧
      env.ExtractClaims token env.globalActiveCred.SecretKey = .ok claims)

/-- The `switch` of `authenticateRequest` on its own, for the proofs: the
credential, owner flag and code it leaves, the request and the calls made. -/
def authenticateSwitch (env : Env) (r : Request) (action : Action) :
    (Credentials × Bool × APIErrorCode) × Request × List Call :=
  let a := getRequestAuthType env r
  let r := a.2
  if a.1 = authTypeUnknown ∨ a.1 = authTypeStreamingSigned then
    ((Credentials.zero, false, ErrSignatureVersionNotSupported), r, [])
  else if a.1 = authTypePresignedV2 ∨ a.1 = authTypeSignedV2 then
    let v := isReqAuthenticatedV2 env r
    if v.1 ≠ ErrNone then ((Credentials.zero, false, v.1), r, v.2)
    else (env.getReqAccessKeyV2 r, r, v.2 ++ [Call.getReqAccessKeyV2 r])
  else if a.1 = authTypeSigned ∨ a.1 = authTypePresigned then
    let region :=
      if action = GetBucketLocationAction ∨ action = ListAllMyBucketsAction then ""
      else env.globalSiteRegion
    let q := isReqAuthenticated env r region env.serviceS3
    if q.1.1 ≠ ErrNone then ((Credentials.zero, false, q.1.1), q.1.2, q.2)
    else
      (env.getReqAccessKeyV4 q.1.2 region env.serviceS3, q.1.2,
        q.2 ++ [Call.getReqAccessKeyV4 q.1.2 region env.serviceS3])
  else ((Credentials.zero, false, ErrNone), r, [])

/-- The `switch` of `isPutActionAllowed` on its own, for the proofs: the
credential, owner flag and code of the key extraction of the auth type, and
the call made. -/
def putActionSwitch (env : Env) (atype : authType) (r : Request) :
    (Credentials × Bool × APIErrorCode) × List Call :=
  if atype = authTypeSignedV2 ∨ atype = authTypePresignedV2 then
    (env.getReqAccessKeyV2 r, [Call.getReqAccessKeyV2 r])
  else if atype = authTypeStreamingSigned ∨ atype = authTypePresigned ∨
      atype = authTypeSigned then
    (env.getReqAccessKeyV4 r env.globalSiteRegion env.serviceS3,
      [Call.getReqAccessKeyV4 r env.globalSiteRegion env.serviceS3])
  else ((Credentials.zero, false, ErrNone), [])

/-! ## Legacy object metadata

The method `unmarshalV` of `xlMetaV2Version` in cmd/xl-storage-format-v2-legacy.go.
The types, constants and the generated decoder it uses are declared in files
that are not among the sources; they are parameters. -/

/-- The fields of `xlMetaV2Object` that `unmarshalV` reads or assigns. A slice
is `none` when nil. -/
structure xlMetaV2Object where
  PartETags : Option (List String)
  PartIndices : Option (List (List Nat))
  deriving DecidableEq, Repr

/-- The field of `xlMetaV2DeleteMarker` that `unmarshalV` reads or assigns; a
nil map reads as the empty one. -/
structure xlMetaV2DeleteMarker where
  MetaSys : List (String × List Nat)
  deriving DecidableEq, Repr

/-- The fields of `xlMetaV2Version` that `unmarshalV` reads or assigns; the
field `Type`, a `VersionType`, is `Type_` here. A pointer is `none` when
nil. -/
structure xlMetaV2Version where
  Type_ : Nat
  ObjectV2 : Option xlMetaV2Object
  DeleteMarker : Option xlMetaV2DeleteMarker
  deriving DecidableEq, Repr

/-- What `unmarshalV` takes from the rest of package cmd and from the
libraries. -/
structure MetaEnv where
  /-- The constants `xlMetaVersion` and `DeleteType`. -/
  xlMetaVersion : Nat
  DeleteType : Nat
  /-- The constants `ReservedMetadataPrefixLower`, `ReplicationTimestamp` and
  `ReplicaTimestamp`. -/
  ReservedMetadataPrefixLower : String
  ReplicationTimestamp : String
  ReplicaTimestamp : String
  /-- The generated method `UnmarshalMsg`: the receiver it leaves, the bytes
  left over and the error. -/
  UnmarshalMsg : xlMetaV2Version → List Nat → xlMetaV2Version × List Nat × Option GoError
  /-- The call `time.Parse(time.RFC3339Nano, s)`, an instant or an error, and
  `tm.UTC().Format(time.RFC3339Nano)` of an instant. -/
  timeParseRFC3339Nano : String → Except GoError Int
  formatUTCRFC3339Nano : Int → String

/-- The map read `val, ok := m[key]`. -/
def metaSysLookup (m : List (String × List Nat)) (key : String) : Option (List Nat) :=
  List.lookup key m

/-- The map assignment `m[key] = val`. -/
def metaSysSet (m : List (String × List Nat)) (key : String) (val : List Nat) :
    List (String × List Nat) :=
  (key, val) :: m.filter (fun kv => kv.1 != key)

/-- The statement that clears the omitempty field `PartIndices`:
`PartIndices[:0]` is the empty slice, not nil. -/
def clearPartIndices (j : xlMetaV2Version) : xlMetaV2Version :=
  match j.ObjectV2 with
  | some obj =>
    match obj.PartIndices with
    | some idx =>
      if idx.length > 0 then { j with ObjectV2 := some { obj with PartIndices := some [] } }
      else j
    | none => j
  | none => j

/-- One of the two conversions of a replication timestamp to UTC: the value
of the key, when present and parsed, is replaced by its UTC form. -/
def fixTimestamp (env : MetaEnv) (m : List (String × List Nat)) (key : String) :
    List (String × List Nat) :=
  match metaSysLookup m key with
  | some val =>
    match env.timeParseRFC3339Nano (bytesString val) with
    | .ok tm => metaSysSet m key (stringBytes (env.formatUTCRFC3339Nano tm))
    | .error _ => m
  | none => m

/-- The loop over `PartETags`: no tag has a length other than zero. -/
def allEmpty : List String → Bool
  | [] => true
  | tag :: rest => if tag.length ≠ 0 then false else allEmpty rest

/-- The clean-up of `PartETags`: a list of empty tags, like an empty or nil
list, becomes nil. -/
def cleanPartETags (j : xlMetaV2Version) : xlMetaV2Version :=
  match j.ObjectV2 with
  | some obj =>
    if allEmpty (obj.PartETags.getD []) then
      { j with ObjectV2 := some { obj with PartETags := none } }
    else j
  | none => j

/-- The method `unmarshalV` of `xlMetaV2Version`, which unmarshals with a
specific metadata version `v`, a `uint8`. The result is the receiver left
behind, the bytes returned and the error; it is `none` when the method does
not return because `j.DeleteMarker.MetaSys` is evaluated on a nil
`j.DeleteMarker`. -/
def xlMetaV2Version.unmarshalV (env : MetaEnv) (j : xlMetaV2Version) (v : Nat)
    (bts : List Nat) : Option (xlMetaV2Version × List Nat × Option GoError) :=
  if v > env.xlMetaVersion then
    some (j, bts, some (GoError.other ("unknown xlMetaVersion: " ++ toString v)))
  else
    -- Clear omitempty fields:
    let j := clearPartIndices j
    let u := env.UnmarshalMsg j bts
    let j := u.1
    let o := u.2.1
    let err := u.2.2
    -- Fix inconsistent x-minio-internal-replication-timestamp by converting to UTC.
    -- Fixed in version 2 or later
    let fixed : Option xlMetaV2Version :=
      if err = none ∧ j.Type_ = env.DeleteType ∧ v < 2 then
        match j.DeleteMarker with
        | none => none
        | some dm =>
          let m := fixTimestamp env dm.MetaSys
            (env.ReservedMetadataPrefixLower ++ env.ReplicationTimestamp)
          let m := fixTimestamp env m (env.ReservedMetadataPrefixLower ++ env.ReplicaTimestamp)
          some { j with DeleteMarker := some { dm with MetaSys := m } }
      else some j
    match fixed with
    | none => none
    | some j =>
      -- Clean up PartEtags on v1
      some (cleanPartETags j, o, err)

/-- A concrete environment of `unmarshalV`: a decoder that fills the receiver
from the first byte of the input (1 for an object with two empty part tags,
2 for a delete marker without its record) and fails on any other input. -/
def sampleMetaEnv : MetaEnv :=
  { xlMetaVersion := 2
    DeleteType := 2
    ReservedMetadataPrefixLower := "x-minio-internal-"
    ReplicationTimestamp := "replication-timestamp"
    ReplicaTimestamp := "replica-timestamp"
    UnmarshalMsg := fun j bts =>
      match bts with
      | 1 :: rest =>
        ({ j with Type_ := 1, ObjectV2 := some { PartETags := some ["", ""], PartIndices := none } },
          rest, none)
      | 2 :: rest => ({ j with Type_ := 2, DeleteMarker := none }, rest, none)
      | _ =>
        ({ j with ObjectV2 := some { PartETags := some [], PartIndices := none } }, bts,
          some (GoError.other "msgp: too few bytes left to read object"))
    timeParseRFC3339Nano := fun _ => .error (GoError.other "parsing time")
    formatUTCRFC3339Nano := fun _ => "" }

/-! ## Disk usage

The function `GetInfo` of internal/disk/stat_freebsd.go. A `uint64` is a
natural number below 2 ^ 64 and an `int64` an integer. -/

/-- The fields of FreeBSD's `syscall.Statfs_t` that `GetInfo` reads: `Bavail`
and `Ffree` are `int64`, `Fstypename` is an array of `int8`, the others are
`uint64`. -/
structure Statfs_t where
  Bsize : Nat
  Blocks : Nat
  Bfree : Nat
  Bavail : Int
  Files : Nat
  Ffree : Int
  Fstypename : List Int
  deriving DecidableEq, Repr

/-- The fields of `disk.Info` that `GetInfo` sets. -/
structure Info where
  Total : Nat
  Free : Nat
  Used : Nat
  Files : Nat
  Ffree : Nat
  FSType : String
  deriving DecidableEq, Repr

/-- The zero `Info{}`. -/
def Info.zero : Info :=
  { Total := 0, Free := 0, Used := 0, Files := 0, Ffree := 0, FSType := "" }

/-- What `GetInfo` takes from the system and from the rest of package disk:
`syscall.Statfs` and `getFSType`. -/
structure DiskEnv where
  Statfs : String → Except GoError Statfs_t
  getFSType : List Int → String

/-- The conversion `uint64(x)` of an `int64`. -/
def toUint64 (x : Int) : Nat := (x % 2 ^ 64).toNat

/-- The difference of two `uint64`, which wraps around. -/
def subUint64 (a b : Nat) : Nat := (a + 2 ^ 64 - b % 2 ^ 64) % 2 ^ 64

/-- The product of two `uint64`, which wraps around. -/
def mulUint64 (a b : Nat) : Nat := (a * b) % 2 ^ 64

/-- The function `GetInfo` returns total and free bytes available in a
directory: the `Info` and the error. -/
def GetInfo (env : DiskEnv) (path : String) : Info × Option GoError :=
  match env.Statfs path with
  | .error err => (Info.zero, some err)
  | .ok s =>
    let reservedBlocks := subUint64 s.Bfree (toUint64 s.Bavail)
    let info : Info :=
      { Total := mulUint64 s.Bsize (subUint64 s.Blocks reservedBlocks)
        Free := mulUint64 s.Bsize (toUint64 s.Bavail)
        Used := 0
        Files := s.Files
        Ffree := toUint64 s.Ffree
        FSType := env.getFSType s.Fstypename }
    if info.Free > info.Total then
      (info,
        some (GoError.other
          ("detected free space (" ++ toString info.Free ++ ") > total drive space (" ++
            toString info.Total ++ "), fs corruption at (" ++ path ++
            "). please run 'fsck'")))
    else ({ info with Used := subUint64 info.Total info.Free }, none)

/-- A concrete environment of `GetInfo`: the result of `statfs` is read off
the path; under `/corrupt` the count of available blocks is negative. -/
def sampleDiskEnv : DiskEnv :=
  { Statfs := fun path =>
      if path = "/" then
        .ok { Bsize := 4096, Blocks := 1000, Bfree := 400, Bavail := 300, Files := 50,
              Ffree := 20, Fstypename := [117, 102, 115] }
      else if path = "/corrupt" then
        .ok { Bsize := 4096, Blocks := 1000, Bfree := 5, Bavail := -10, Files := 50,
              Ffree := 20, Fstypename := [117, 102, 115] }
      else .error (GoError.other "no such file or directory")
    getFSType := fun _ => "ufs" }

/-! ## Theorems -/

/-- C1: for a request whose query string parses, `getRequestAuthType` returns
the type of the first matching rule among SignedV2 (Authorization begins with
the V2 prefix and not with the V4 prefix), PresignedV2 (AWSAccessKeyId query
parameter present), StreamingSigned (x-amz-content-sha256 equals the streaming
sentinel and the method is PUT), Signed (Authorization begins with the V4
prefix), Presigned (X-Amz-Credential query parameter present) and JWT
(Authorization begins with the JWT prefix); an earlier rule wins over every
later one. -/
theorem getRequestAuthType_first_rule (env : Env) (r : Request) (u : URL) (form : Values)
    (hu : r.URL = some u) (hq : env.ParseQuery u.RawQuery = (form, none)) :
    let auth := r.Header.Get env.Authorization
    let v2 := HasPrefix auth env.signV2Algorithm = true ∧ HasPrefix auth env.signV4Algorithm = false
    let pre2 := form.has env.AmzAccessKeyID = true
    let streaming :=
      r.Header.Get env.AmzContentSha256 = env.streamingContentSHA256 ∧ r.Method = "PUT"
    let v4 := HasPrefix auth env.signV4Algorithm = true
    let pre4 := form.has env.AmzCredential = true
    let jwt := HasPrefix auth env.jwtAlgorithm = true
    let t := (getRequestAuthType env r).1
    (v2 → t = authTypeSignedV2) ∧
    (¬v2 → pre2 → t = authTypePresignedV2) ∧
    (¬v2 → ¬pre2 → streaming → t = authTypeStreamingSigned) ∧
    (¬v2 → ¬pre2 → ¬streaming → v4 → t = authTypeSigned) ∧
    (¬v2 → ¬pre2 → ¬streaming → ¬v4 → pre4 → t = authTypePresigned) ∧
    (¬v2 → ¬pre2 → ¬streaming → ¬v4 → ¬pre4 → jwt → t = authTypeJWT) := by
  simp only [getRequestAuthType, hu, hq, isRequestSignatureV2, isRequestPresignedSignatureV2,
    isRequestSignStreamingV4, isRequestSignatureV4, isRequestPresignedSignatureV4, isRequestJWT,
    MethodPut]
  refine ⟨?_, ?_, ?_, ?_, ?_, ?_⟩ <;> intros <;> simp_all <;> split_ifs <;> simp_all

/-- Witness of C1: a V4 Authorization header together with an AWSAccessKeyId
query parameter is classified PresignedV2. -/
theorem getRequestAuthType_first_rule_witness :
    sampleEnv.ParseQuery "AWSAccessKeyId=k" = ([("AWSAccessKeyId", ["k"])], none) ∧
    HasPrefix "AWS4-HMAC-SHA256 Credential=k" sampleEnv.signV4Algorithm = true ∧
    (getRequestAuthType sampleEnv
      { plainRequest with
        URL := some { RawQuery := "AWSAccessKeyId=k" }
        Header := [("Authorization", ["AWS4-HMAC-SHA256 Credential=k"])] }).1
      = authTypePresignedV2 :=
  ⟨by decide, by decide,
    (getRequestAuthType_first_rule sampleEnv
      { plainRequest with
        URL := some { RawQuery := "AWSAccessKeyId=k" }
        Header := [("Authorization", ["AWS4-HMAC-SHA256 Credential=k"])] }
      { RawQuery := "AWSAccessKeyId=k" } [("AWSAccessKeyId", ["k"])] rfl (by decide)).2.1
      (by decide) (by decide)⟩

/-- C9, as stated, fails: a POST request whose Content-Type holds
`multipart/form-data` without beginning with it matches none of the six
earlier rules and is classified PostPolicy. -/
theorem getRequestAuthType_postPolicy_counterexample :
    sampleEnv.ParseQuery "" = ([], none) ∧
    isRequestSignatureV2 sampleEnv
      { plainRequest with
        Method := "POST", Header := [("Content-Type", ["text/plain; x=multipart/form-data"])] }
      = false ∧
    isRequestSignStreamingV4 sampleEnv
      { plainRequest with
        Method := "POST", Header := [("Content-Type", ["text/plain; x=multipart/form-data"])] }
      = false ∧
    isRequestSignatureV4 sampleEnv
      { plainRequest with
        Method := "POST", Header := [("Content-Type", ["text/plain; x=multipart/form-data"])] }
      = false ∧
    isRequestJWT sampleEnv
      { plainRequest with
        Method := "POST", Header := [("Content-Type", ["text/plain; x=multipart/form-data"])] }
      = false ∧
    Values.has [] sampleEnv.AmzAccessKeyID = false ∧
    Values.has [] sampleEnv.AmzCredential = false ∧
    (getRequestAuthType sampleEnv
      { plainRequest with
        Method := "POST", Header := [("Content-Type", ["text/plain; x=multipart/form-data"])] }).1
      = authTypePostPolicy ∧
    HasPrefix "text/plain; x=multipart/form-data" "multipart/form-data" = false := by
  decide

/-- C9, amended: for a request whose query string parses and that matches
none of the SignedV2, PresignedV2, StreamingSigned, Signed, Presigned and JWT
rules, `getRequestAuthType` returns PostPolicy exactly when the method is POST
and the Content-Type header contains `multipart/form-data`. -/
theorem getRequestAuthType_postPolicy_iff (env : Env) (r : Request) (u : URL) (form : Values)
    (hu : r.URL = some u) (hq : env.ParseQuery u.RawQuery = (form, none))
    (hv2 : isRequestSignatureV2 env r = false)
    (hpre2 : form.has env.AmzAccessKeyID = false)
    (hstream : isRequestSignStreamingV4 env r = false)
    (hv4 : isRequestSignatureV4 env r = false)
    (hpre4 : form.has env.AmzCredential = false)
    (hjwt : isRequestJWT env r = false) :
    (getRequestAuthType env r).1 = authTypePostPolicy ↔
      (r.Method = "POST" ∧ Contains (r.Header.Get env.ContentType) "multipart/form-data" = true) := by
  simp only [isRequestSignatureV2, isRequestSignStreamingV4, isRequestSignatureV4,
    isRequestJWT] at hv2 hstream hv4 hjwt
  simp only [hv4, Bool.not_false, Bool.true_and] at hv2
  simp only [getRequestAuthType, hu, hq, isRequestSignatureV2, isRequestPresignedSignatureV2,
    isRequestSignStreamingV4, isRequestSignatureV4, isRequestPresignedSignatureV4, isRequestJWT,
    isRequestPostPolicySignatureV4, MethodPost, hv2, hpre2, hstream, hv4, hpre4, hjwt]
  by_cases hc : Contains (r.Header.Get env.ContentType) "multipart/form-data" = true <;>
    by_cases hm : r.Method = "POST" <;> simp [hc, hm] <;> split_ifs <;> simp

/-- Witness of C9 (amended): a POST request with Content-Type
`multipart/form-data; boundary=x` and no signature is classified PostPolicy. -/
theorem getRequestAuthType_postPolicy_iff_witness :
    sampleEnv.ParseQuery "" = ([], none) ∧
    (getRequestAuthType sampleEnv
      { plainRequest with
        Method := "POST", Header := [("Content-Type", ["multipart/form-data; boundary=x"])] }).1
      = authTypePostPolicy :=
  ⟨by decide,
    (getRequestAuthType_postPolicy_iff sampleEnv
      { plainRequest with
        Method := "POST", Header := [("Content-Type", ["multipart/form-data; boundary=x"])] }
      { RawQuery := "" } [] rfl (by decide) (by decide) (by decide) (by decide) (by decide)
      (by decide) (by decide)).2 (by decide)⟩

/-- C10: for a request whose query string parses and that matches none of the
seven signature, JWT and PostPolicy rules, `getRequestAuthType` returns STS if
an Action query parameter is present, otherwise Anonymous if the request has
no Authorization header at all, otherwise Unknown. -/
theorem getRequestAuthType_fallthrough (env : Env) (r : Request) (u : URL) (form : Values)
    (hu : r.URL = some u) (hq : env.ParseQuery u.RawQuery = (form, none))
    (hv2 : isRequestSignatureV2 env r = false)
    (hpre2 : form.has env.AmzAccessKeyID = false)
    (hstream : isRequestSignStreamingV4 env r = false)
    (hv4 : isRequestSignatureV4 env r = false)
    (hpre4 : form.has env.AmzCredential = false)
    (hjwt : isRequestJWT env r = false)
    (hpost : isRequestPostPolicySignatureV4 env r = false) :
    (getRequestAuthType env r).1 =
      if form.has env.ActionKey = true then authTypeSTS
      else if r.Header.has env.Authorization = false then authTypeAnonymous
      else authTypeUnknown := by
  simp only [isRequestSignatureV2, isRequestSignStreamingV4, isRequestSignatureV4,
    isRequestJWT, isRequestPostPolicySignatureV4] at hv2 hstream hv4 hjwt hpost
  simp only [hv4, Bool.not_false, Bool.true_and] at hv2
  simp only [getRequestAuthType, hu, hq, isRequestSignatureV2, isRequestPresignedSignatureV2,
    isRequestSignStreamingV4, isRequestSignatureV4, isRequestPresignedSignatureV4, isRequestJWT,
    isRequestPostPolicySignatureV4, hv2, hpre2, hstream, hv4, hpre4, hjwt, hpost]
  by_cases ha : form.has env.ActionKey = true <;>
    by_cases hh : r.Header.has env.Authorization = true <;> simp [ha, hh]

/-- Witness of C10: a request whose Authorization header is present but empty
is Unknown, not Anonymous. -/
theorem getRequestAuthType_fallthrough_witness :
    sampleEnv.ParseQuery "" = ([], none) ∧
    Values.has [("Authorization", [""])] sampleEnv.Authorization = true ∧
    (getRequestAuthType sampleEnv
      { plainRequest with Header := [("Authorization", [""])] }).1 = authTypeUnknown :=
  ⟨by decide, by decide,
    (getRequestAuthType_fallthrough sampleEnv
      { plainRequest with Header := [("Authorization", [""])] }
      { RawQuery := "" } [] rfl (by decide) (by decide) (by decide) (by decide) (by decide)
      (by decide) (by decide) (by decide)).trans (by decide)⟩

/-- Every error of `getClaimsFromTokenWithSecret` is `errAuthentication`. -/
theorem getClaimsFromTokenWithSecret_error (env : Env) (token secret : String) (err : GoError)
    (h : (getClaimsFromTokenWithSecret env token secret).1 = .error err) :
    err = GoError.errAuthentication := by
  unfold getClaimsFromTokenWithSecret at h
  simp only [] at h
  split at h
  · simp at h; exact h.symm
  · split at h
    · simp at h
    · split at h
      · split at h
        · simp at h; exact h.symm
        · simp at h
      · simp at h

/-- The decoding step of `checkClaimsFromToken` does not yield InvalidToken
when `toAPIErrorCode` does not give it for `errAuthentication`. -/
theorem checkClaimsFromToken_decode (env : Env) (token secret : String)
    (hcode : env.toAPIErrorCode GoError.errAuthentication ≠ ErrInvalidToken) :
    ¬ (match (getClaimsFromTokenWithSecret env token secret).1 with
        | .error err =>
          ((([] : Claims), env.toAPIErrorCode err), (getClaimsFromTokenWithSecret env token secret).2)
        | .ok claims =>
          ((claims, ErrNone), (getClaimsFromTokenWithSecret env token secret).2)).1.2
      = ErrInvalidToken := by
  rcases hgo : (getClaimsFromTokenWithSecret env token secret).1 with err | claims
  · have := getClaimsFromTokenWithSecret_error env _ _ err hgo
    subst this
    simpa using hcode
  · simp

/-- C2, as stated, fails: a service-account credential that is not temporary
and presents a session token is rejected with InvalidToken, although none of
the three conditions of the claim holds. -/
theorem checkClaimsFromToken_serviceAccount_counterexample :
    getSessionToken sampleEnv
      { plainRequest with Header := [("X-Amz-Security-Token", ["tok"])] } = "tok" ∧
    (checkClaimsFromToken sampleEnv
      { plainRequest with Header := [("X-Amz-Security-Token", ["tok"])] }
      { Credentials.zero with
        AccessKey := "svc", SecretKey := "svcsecret", SessionToken := "tok",
        IsServiceAccount := true }).1.2 = ErrInvalidToken ∧
    ¬(("tok" = "" ∧ false = true) ∨ ("tok" ≠ "" ∧ false = false ∧ true = false) ∨
      (false = true ∧ "tok" ≠ "tok")) := by
  decide

/-- C2, amended: for every request and every credential with a non-empty
access key, `checkClaimsFromToken` returns InvalidToken exactly when (the
session token is absent and the credential is temporary) or (the token is
present and the credential is not temporary, a service account included) or
(the credential is temporary and the token differs from the credential's stored
session token); `toAPIErrorCode` is taken not to report a failed token
verification as InvalidToken. -/
theorem checkClaimsFromToken_invalidToken_iff (env : Env) (r : Request) (cred : Credentials)
    (hkey : cred.AccessKey ≠ "")
    (hcode : env.toAPIErrorCode GoError.errAuthentication ≠ ErrInvalidToken) :
    (checkClaimsFromToken env r cred).1.2 = ErrInvalidToken ↔
      ((getSessionToken env r = "" ∧ cred.IsTemp = true) ∨
       (getSessionToken env r ≠ "" ∧ cred.IsTemp = false) ∨
       (cred.IsTemp = true ∧ getSessionToken env r ≠ cred.SessionToken)) := by
  unfold checkClaimsFromToken
  simp only [hkey, and_false, if_false, ConstantTimeCompare]
  by_cases h1 : getSessionToken env r = "" ∧ cred.IsTemp = true
  · simp [h1]
  · by_cases h2 : getSessionToken env r ≠ "" ∧ cred.IsTemp = false
    · simp [h1, h2]
    · by_cases h3 : cred.IsTemp = true ∧ getSessionToken env r ≠ cred.SessionToken
      · have h3' : cred.IsTemp = true ∧ ¬(if getSessionToken env r = cred.SessionToken
            then 1 else 0) = 1 := ⟨h3.1, by simp [h3.2]⟩
        simp [h1, h2, h3, h3']
      · have h3' : ¬(cred.IsTemp = true ∧ ¬(if getSessionToken env r = cred.SessionToken
            then 1 else 0) = 1) := by
          intro h
          apply h3
          refine ⟨h.1, ?_⟩
          intro heq
          exact h.2 (by simp [heq])
        rw [if_neg h1, if_neg h2, if_neg h3']
        simp only [h1, h2, h3, or_self, iff_false]
        split_ifs <;> first | (simp; done) | exact checkClaimsFromToken_decode env _ _ hcode

/-- Witness of C2 (amended): a temporary credential whose request carries a
token other than the stored one is rejected with InvalidToken. -/
theorem checkClaimsFromToken_invalidToken_iff_witness :
    (checkClaimsFromToken sampleEnv
      { plainRequest with Header := [("X-Amz-Security-Token", ["other"])] }
      { Credentials.zero with
        AccessKey := "tmp", SessionToken := "tok", IsTemp := true }).1.2 = ErrInvalidToken :=
  (checkClaimsFromToken_invalidToken_iff sampleEnv
    { plainRequest with Header := [("X-Amz-Security-Token", ["other"])] }
    { Credentials.zero with AccessKey := "tmp", SessionToken := "tok", IsTemp := true }
    (by decide) (by decide)).2 (by decide)

/-- What `isPutRetentionAllowed` decides for a non-empty access key: the
request is permitted exactly when the identity policy allows
PutObjectRetention, or the bypass flag is set and, if the mode is Governance,
the identity policy allows BypassGovernanceRetention. -/
theorem isPutRetentionAllowed_decision (env : Env) (bucketName objectName : String)
    (retDays : Int) (retDate : Time) (retMode : RetMode) (byPassSet : Bool) (r : Request)
    (cred : Credentials) (owner : Bool) (hkey : cred.AccessKey ≠ "") :
    let c0 := ((env.getConditionValues r "" cred.AccessKey cred.Claims).set
      "object-lock-mode" [retMode]).set "object-lock-retain-until-date" [env.formatRFC3339 retDate]
    let conditions :=
      if retDays > 0 then c0.set "object-lock-remaining-retention-days" [toString retDays]
      else c0
    let args : Action → iampolicy.Args := fun a =>
      { AccountName := cred.AccessKey, Groups := cred.Groups, Action := a,
        BucketName := bucketName, ConditionValues := conditions, IsOwner := owner,
        ObjectName := objectName, Claims := cred.Claims }
    ((isPutRetentionAllowed env bucketName objectName retDays retDate retMode byPassSet r
        cred owner).1 = ErrNone ↔
      (env.globalIAMSysIsAllowed (args PutObjectRetentionAction) = true ∨
        (byPassSet = true ∧
          (retMode = RetGovernance →
            env.globalIAMSysIsAllowed (args BypassGovernanceRetentionAction) = true)))) := by
  unfold isPutRetentionAllowed
  simp only [hkey, if_false]
  by_cases hm : retMode = RetGovernance <;> cases byPassSet <;> simp [hm] <;>
    split_ifs <;> simp_all <;> tauto

/-- C3: the code at the failing input. With retention mode Compliance and
the bypass flag set, `isPutRetentionAllowed` returns ErrNone although the
identity policy allows neither PutObjectRetention nor
BypassGovernanceRetention: the one policy evaluation it makes is refused. -/
theorem isPutRetentionAllowed_bypass_without_governance :
    isPutRetentionAllowed sampleEnv "bucket" "object" 0 0 RetCompliance true plainRequest
        { Credentials.zero with AccessKey := "user" } false
      = (ErrNone,
          [Call.globalIAMSysIsAllowed
            { AccountName := "user", Groups := [], Action := PutObjectRetentionAction,
              BucketName := "bucket",
              ConditionValues :=
                [("object-lock-retain-until-date", ["1970-01-01T00:00:00Z"]),
                 ("object-lock-mode", ["COMPLIANCE"])],
              IsOwner := false, ObjectName := "object", Claims := [] }]) ∧
    sampleEnv.globalIAMSysIsAllowed
        { AccountName := "user", Groups := [], Action := PutObjectRetentionAction,
          BucketName := "bucket",
          ConditionValues :=
            [("object-lock-retain-until-date", ["1970-01-01T00:00:00Z"]),
             ("object-lock-mode", ["COMPLIANCE"])],
          IsOwner := false, ObjectName := "object", Claims := [] } = false := by
  decide

/-- C4: unless the request carries an x-amz-content-sha256 header and is
classified Signed, `validateAdminSignature` and `checkAdminRequestAuth` return
AccessDenied with the zero credential, and no credential extraction, signature
verifier or policy evaluation is called. -/
theorem validateAdminSignature_rejects_unless_signed (env : Env) (r : Request)
    (action : Action) (region : String)
    (h : ¬(r.Header.has env.AmzContentSha256 = true ∧
          (getRequestAuthType env r).1 = authTypeSigned)) :
    (validateAdminSignature env r region).1.1 = Credentials.zero ∧
    (validateAdminSignature env r region).1.2.2.2.1 = ErrAccessDenied ∧
    (validateAdminSignature env r region).2 = [] ∧
    (checkAdminRequestAuth env r action region).1.1 = Credentials.zero ∧
    (checkAdminRequestAuth env r action region).1.2.1 = ErrAccessDenied ∧
    (checkAdminRequestAuth env r action region).2 = [] := by
  have hv : validateAdminSignature env r region =
      ((Credentials.zero, [], false, ErrAccessDenied,
        if r.Header.has env.AmzContentSha256 = true then (getRequestAuthType env r).2 else r),
        []) := by
    unfold validateAdminSignature
    by_cases hh : r.Header.has env.AmzContentSha256 = true
    · have ht : ¬(getRequestAuthType env r).1 = authTypeSigned := fun ht => h ⟨hh, ht⟩
      simp [hh, ht]
    · simp [hh]
  unfold checkAdminRequestAuth
  simp [hv]

/-- Witness of C4: a presigned V4 request that carries an
x-amz-content-sha256 header is rejected by the admin check without any call. -/
theorem validateAdminSignature_rejects_unless_signed_witness :
    (getRequestAuthType sampleEnv
      { plainRequest with
        URL := some { RawQuery := "X-Amz-Credential=k" }
        Header := [("X-Amz-Content-Sha256", ["UNSIGNED-PAYLOAD"])] }).1 = authTypePresigned ∧
    (checkAdminRequestAuth sampleEnv
      { plainRequest with
        URL := some { RawQuery := "X-Amz-Credential=k" }
        Header := [("X-Amz-Content-Sha256", ["UNSIGNED-PAYLOAD"])] }
      "admin:ServerInfo" "us-east-1").1.2.1 = ErrAccessDenied ∧
    (checkAdminRequestAuth sampleEnv
      { plainRequest with
        URL := some { RawQuery := "X-Amz-Credential=k" }
        Header := [("X-Amz-Content-Sha256", ["UNSIGNED-PAYLOAD"])] }
      "admin:ServerInfo" "us-east-1").2 = [] :=
  ⟨by decide,
    (validateAdminSignature_rejects_unless_signed sampleEnv
      { plainRequest with
        URL := some { RawQuery := "X-Amz-Credential=k" }
        Header := [("X-Amz-Content-Sha256", ["UNSIGNED-PAYLOAD"])] }
      "admin:ServerInfo" "us-east-1" (by decide)).2.2.2.2⟩

/-- C5: for a resolved credential with an empty access key and an action
other than ListAllMyBuckets, `authorizeRequest` returns ErrNone exactly when
the bucket policy allows the action, or the action is ListBucketVersions and
the bucket policy allows ListBucket; otherwise it returns AccessDenied. Every
call it makes is a bucket-policy evaluation with IsOwner = false, so the
identity policy is never consulted. -/
theorem authorizeRequest_anonymous (env : Env) (reqInfo : ReqInfo) (r : Request)
    (action : Action) (hkey : reqInfo.Cred.AccessKey = "")
    (haction : action ≠ ListAllMyBucketsAction) :
    let args : Action → policy.Args := fun a =>
      { AccountName := "", Groups := [], Action := a, BucketName := reqInfo.BucketName,
        ConditionValues := env.getConditionValues r reqInfo.Region "" [], IsOwner := false,
        ObjectName := reqInfo.ObjectName }
    let res := authorizeRequest env (some reqInfo) r action
    (res.1 = ErrNone ↔
      (env.globalPolicySysIsAllowed (args action) = true ∨
        (action = ListBucketVersionsAction ∧
          env.globalPolicySysIsAllowed (args ListBucketAction) = true))) ∧
    (res.1 ≠ ErrNone → res.1 = ErrAccessDenied) ∧
    (∀ c ∈ res.2, ∃ a : policy.Args, c = Call.globalPolicySysIsAllowed a ∧ a.IsOwner = false) := by
  unfold authorizeRequest
  simp only [hkey, haction, ne_eq, not_false_eq_true, and_self, if_true]
  by_cases h1 : env.globalPolicySysIsAllowed
      { AccountName := "", Groups := [], Action := action, BucketName := reqInfo.BucketName,
        ConditionValues := env.getConditionValues r reqInfo.Region "" [], IsOwner := false,
        ObjectName := reqInfo.ObjectName } = true
  · simp [h1]
  · by_cases h2 : action = ListBucketVersionsAction
    · subst h2
      by_cases h3 : env.globalPolicySysIsAllowed
          { AccountName := "", Groups := [], Action := ListBucketAction,
            BucketName := reqInfo.BucketName,
            ConditionValues := env.getConditionValues r reqInfo.Region "" [], IsOwner := false,
            ObjectName := reqInfo.ObjectName } = true
      · simp [h1, h3]
      · simp [h1, h3]
    · simp [h1, h2]

/-- Witness of C5: an anonymous ListBucketVersions request is admitted by a
bucket policy that grants ListBucket only. -/
theorem authorizeRequest_anonymous_witness :
    (authorizeRequest
      { sampleEnv with globalPolicySysIsAllowed := fun a => a.Action == ListBucketAction }
      (some { Cred := Credentials.zero, Owner := false, Region := "", BucketName := "bucket",
              ObjectName := "" })
      plainRequest ListBucketVersionsAction).1 = ErrNone :=
  (authorizeRequest_anonymous
    { sampleEnv with globalPolicySysIsAllowed := fun a => a.Action == ListBucketAction }
    { Cred := Credentials.zero, Owner := false, Region := "", BucketName := "bucket",
      ObjectName := "" }
    plainRequest ListBucketVersionsAction rfl (by decide)).1.2 (Or.inr ⟨rfl, by decide⟩)

/-- C6: for a resolved credential with a non-empty access key,
`authorizeRequest` returns ErrNone exactly when the identity policy allows the
action for that access key, groups, owner flag and claims, or the action is
ListBucketVersions and the identity policy allows ListBucket with the same
arguments; otherwise it returns AccessDenied. For any other action the one
evaluation made is that of the action itself, and no call is a bucket-policy
evaluation. -/
theorem authorizeRequest_identity (env : Env) (reqInfo : ReqInfo) (r : Request)
    (action : Action) (hkey : reqInfo.Cred.AccessKey ≠ "") :
    let args : Action → iampolicy.Args := fun a =>
      { AccountName := reqInfo.Cred.AccessKey, Groups := reqInfo.Cred.Groups, Action := a,
        BucketName := reqInfo.BucketName,
        ConditionValues :=
          env.getConditionValues r "" reqInfo.Cred.AccessKey reqInfo.Cred.Claims,
        IsOwner := reqInfo.Owner, ObjectName := reqInfo.ObjectName,
        Claims := reqInfo.Cred.Claims }
    let res := authorizeRequest env (some reqInfo) r action
    (res.1 = ErrNone ↔
      (env.globalIAMSysIsAllowed (args action) = true ∨
        (action = ListBucketVersionsAction ∧
          env.globalIAMSysIsAllowed (args ListBucketAction) = true))) ∧
    (res.1 ≠ ErrNone → res.1 = ErrAccessDenied) ∧
    (action ≠ ListBucketVersionsAction →
      res.2 = [Call.globalIAMSysIsAllowed (args action)]) ∧
    (∀ c ∈ res.2, ∃ a : iampolicy.Args, c = Call.globalIAMSysIsAllowed a) := by
  unfold authorizeRequest
  simp only [hkey, and_false, if_false]
  by_cases h1 : env.globalIAMSysIsAllowed
      { AccountName := reqInfo.Cred.AccessKey, Groups := reqInfo.Cred.Groups, Action := action,
        BucketName := reqInfo.BucketName,
        ConditionValues :=
          env.getConditionValues r "" reqInfo.Cred.AccessKey reqInfo.Cred.Claims,
        IsOwner := reqInfo.Owner, ObjectName := reqInfo.ObjectName,
        Claims := reqInfo.Cred.Claims } = true
  · simp [h1]
  · by_cases h2 : action = ListBucketVersionsAction
    · subst h2
      by_cases h3 : env.globalIAMSysIsAllowed
          { AccountName := reqInfo.Cred.AccessKey, Groups := reqInfo.Cred.Groups,
            Action := ListBucketAction, BucketName := reqInfo.BucketName,
            ConditionValues :=
              env.getConditionValues r "" reqInfo.Cred.AccessKey reqInfo.Cred.Claims,
            IsOwner := reqInfo.Owner, ObjectName := reqInfo.ObjectName,
            Claims := reqInfo.Cred.Claims } = true
      · simp [h1, h3]
      · simp [h1, h3]
    · simp [h1, h2]

/-- Witness of C6: an identity whose policy grants ListBucketVersions only is
refused ListBucket, there being no fallback in that direction. -/
theorem authorizeRequest_identity_witness :
    (authorizeRequest
      { sampleEnv with globalIAMSysIsAllowed := fun a => a.Action == ListBucketVersionsAction }
      (some { Cred := { Credentials.zero with AccessKey := "user" }, Owner := false,
              Region := "", BucketName := "bucket", ObjectName := "" })
      plainRequest ListBucketAction).1 = ErrAccessDenied :=
  (authorizeRequest_identity
    { sampleEnv with globalIAMSysIsAllowed := fun a => a.Action == ListBucketVersionsAction }
    { Cred := { Credentials.zero with AccessKey := "user" }, Owner := false, Region := "",
      BucketName := "bucket", ObjectName := "" }
    plainRequest ListBucketAction (by decide)).2.1 (by decide)

/-- The skew test on `Time.Sub` is the test on the exact difference: the
window is below the largest duration. -/
theorem Time.Sub_gt_maxSkew (t u : Int) :
    Time.Sub t u > globalMaxSkewTime ↔ t - u > globalMaxSkewTime := by
  unfold Time.Sub globalMaxSkewTime Minute maxDuration minDuration
  split_ifs <;> constructor <;> intro h <;> omega

/-- The two skew tests of the handler together are the test of the absolute
difference. -/
theorem skew_iff_abs (curTime amzDate : Int) :
    (Time.Sub curTime amzDate > globalMaxSkewTime ∨
      Time.Sub amzDate curTime > globalMaxSkewTime) ↔
      |curTime - amzDate| > globalMaxSkewTime := by
  rw [Time.Sub_gt_maxSkew, Time.Sub_gt_maxSkew, gt_iff_lt, gt_iff_lt, gt_iff_lt, lt_abs]
  constructor <;> rintro (h | h)
  · exact Or.inl h
  · exact Or.inr (by omega)
  · exact Or.inl h
  · exact Or.inr (by omega)

/-- C7: for a request classified Signed, SignedV2 or StreamingSigned whose
date header parses to a time t, the handler of `setAuthHandler` rejects it
with RequestTimeTooSkewed exactly when |now - t| > MaxSkew. -/
theorem setAuthHandler_skew (env : Env) (curTime : Int) (s : HandlerState) (r : Request)
    (t : Int)
    (htype : (getRequestAuthType env r).1 = authTypeSigned ∨
      (getRequestAuthType env r).1 = authTypeSignedV2 ∨
      (getRequestAuthType env r).1 = authTypeStreamingSigned)
    (hdate : env.parseAmzDateHeader (getRequestAuthType env r).2 = (t, ErrNone)) :
    (setAuthHandler env curTime s r).steps =
        s.steps ++ [HandlerStep.writeErrorResponse ErrRequestTimeTooSkewed] ↔
      |curTime - t| > globalMaxSkewTime := by
  rw [← skew_iff_abs]
  unfold setAuthHandler
  simp only [htype, hdate, if_true, ne_eq, not_true_eq_false, if_false]
  by_cases hs : Time.Sub curTime t > globalMaxSkewTime ∨ Time.Sub t curTime > globalMaxSkewTime
  · simp [hs]
  · rw [if_neg hs]
    simp only [hs, iff_false]
    rcases htype with h | h | h <;> simp [h, isSupportedS3AuthType]

/-- Witness of C7: a V4-signed request dated exactly MaxSkew before server
time is not rejected for skew, one dated a nanosecond earlier is. -/
theorem setAuthHandler_skew_witness :
    ((setAuthHandler
        { sampleEnv with parseAmzDateHeader := fun _ => (0, ErrNone) }
        900000000000 { tc := none, globalHTTPStats := ⟨0, 0⟩, steps := [] }
        { plainRequest with Header := [("Authorization", ["AWS4-HMAC-SHA256 Credential=k"])] }).steps
      = [] ++ [HandlerStep.writeErrorResponse ErrRequestTimeTooSkewed]
      ↔ |(900000000000 : Int) - 0| > globalMaxSkewTime) ∧
    ¬ (|(900000000000 : Int) - 0| > globalMaxSkewTime) ∧
    |(900000000001 : Int) - 0| > globalMaxSkewTime :=
  ⟨setAuthHandler_skew
      { sampleEnv with parseAmzDateHeader := fun _ => (0, ErrNone) }
      900000000000 { tc := none, globalHTTPStats := ⟨0, 0⟩, steps := [] }
      { plainRequest with Header := [("Authorization", ["AWS4-HMAC-SHA256 Credential=k"])] }
      0 (Or.inl (by decide)) rfl,
    by decide, by decide⟩

/-- C8: the handler of `setAuthHandler` takes exactly one step. It calls the
wrapped handler, once and with no counter changed, exactly when the auth type
is not Unknown and, if the type is Signed, SignedV2 or StreamingSigned, the
date header parses and lies within MaxSkew; for every other type the date is
not looked at. Otherwise it writes an error response instead: on a date
rejection the time counter is incremented and the auth counter is unchanged,
on an unsupported type the auth counter is incremented and the time counter is
unchanged. -/
theorem setAuthHandler_forward_or_reject (env : Env) (curTime : Int) (s : HandlerState)
    (r : Request) :
    let a := getRequestAuthType env r
    let dated :=
      a.1 = authTypeSigned ∨ a.1 = authTypeSignedV2 ∨ a.1 = authTypeStreamingSigned
    let dateOk :=
      (env.parseAmzDateHeader a.2).2 = ErrNone ∧
        |curTime - (env.parseAmzDateHeader a.2).1| ≤ globalMaxSkewTime
    let s' := setAuthHandler env curTime s r
    (s'.steps = s.steps ++ [HandlerStep.ServeHTTP a.2] ↔
      (a.1 ≠ authTypeUnknown ∧ (dated → dateOk))) ∧
    (s'.steps = s.steps ++ [HandlerStep.ServeHTTP a.2] →
      s'.globalHTTPStats = s.globalHTTPStats) ∧
    (dated ∧ ¬dateOk →
      (∃ code, s'.steps = s.steps ++ [HandlerStep.writeErrorResponse code]) ∧
      s'.globalHTTPStats =
        { rejectedRequestsTime := atomicAddUint64 s.globalHTTPStats.rejectedRequestsTime 1
          rejectedRequestsAuth := s.globalHTTPStats.rejectedRequestsAuth }) ∧
    (a.1 = authTypeUnknown →
      s'.steps = s.steps ++ [HandlerStep.writeErrorResponse ErrSignatureVersionNotSupported] ∧
      s'.globalHTTPStats =
        { rejectedRequestsTime := s.globalHTTPStats.rejectedRequestsTime
          rejectedRequestsAuth := atomicAddUint64 s.globalHTTPStats.rejectedRequestsAuth 1 }) := by
  have hskew : ∀ t : Int, (Time.Sub curTime t > globalMaxSkewTime ∨
      Time.Sub t curTime > globalMaxSkewTime) ↔ ¬ |curTime - t| ≤ globalMaxSkewTime := by
    intro t
    rw [skew_iff_abs, not_le]
  unfold setAuthHandler
  dsimp only
  generalize getRequestAuthType env r = a
  obtain ⟨aType, r'⟩ := a
  generalize env.parseAmzDateHeader r' = d
  obtain ⟨amzDate, errCode⟩ := d
  dsimp only
  by_cases he : errCode = ErrNone <;>
    by_cases hk : |curTime - amzDate| ≤ globalMaxSkewTime <;>
    cases aType <;>
    simp [isSupportedS3AuthType, hskew, he, hk]

/-- Witness of C8: a presigned request is forwarded whatever its date
headers are, and a request with an unknown Authorization scheme grows the auth
counter by one without reaching the wrapped handler. -/
theorem setAuthHandler_forward_or_reject_witness :
    (setAuthHandler sampleEnv 0 { tc := none, globalHTTPStats := ⟨3, 5⟩, steps := [] }
      { plainRequest with URL := some { RawQuery := "X-Amz-Credential=k" } })
      = { tc := none, globalHTTPStats := ⟨3, 5⟩,
          steps := [HandlerStep.ServeHTTP
            { plainRequest with
              URL := some { RawQuery := "X-Amz-Credential=k" }
              Form := [("X-Amz-Credential", ["k"])] }] } ∧
    (setAuthHandler sampleEnv 0 { tc := none, globalHTTPStats := ⟨3, 5⟩, steps := [] }
      { plainRequest with Header := [("Authorization", ["Basic abc"])] }).globalHTTPStats
      = { rejectedRequestsTime := 3, rejectedRequestsAuth := atomicAddUint64 5 1 } :=
  ⟨by decide,
    ((setAuthHandler_forward_or_reject sampleEnv 0
      { tc := none, globalHTTPStats := ⟨3, 5⟩, steps := [] }
      { plainRequest with Header := [("Authorization", ["Basic abc"])] }).2.2.2
        (by decide)).2⟩

/-- C11: for a request with a URL whose raw query fails to parse,
`getRequestAuthType` returns Unknown whatever the headers and the method are. -/
theorem getRequestAuthType_malformed_query (env : Env) (r : Request) (u : URL) (err : GoError)
    (hu : r.URL = some u) (hq : (env.ParseQuery u.RawQuery).2 = some err) :
    (getRequestAuthType env r).1 = authTypeUnknown := by
  simp [getRequestAuthType, hu, hq]

/-- Witness of C11: a request with a well-formed V4 Authorization header and
the query `a=%zz` is Unknown. -/
theorem getRequestAuthType_malformed_query_witness :
    (ParseQuery "a=%zz").2 = some (GoError.other "invalid URL escape") ∧
    isRequestSignatureV4 sampleEnv
      { plainRequest with
        URL := some { RawQuery := "a=%zz" }
        Header := [("Authorization", ["AWS4-HMAC-SHA256 Credential=k"])] } = true ∧
    (getRequestAuthType sampleEnv
      { plainRequest with
        URL := some { RawQuery := "a=%zz" }
        Header := [("Authorization", ["AWS4-HMAC-SHA256 Credential=k"])] }).1
      = authTypeUnknown :=
  ⟨by decide, by decide,
    getRequestAuthType_malformed_query sampleEnv
      { plainRequest with
        URL := some { RawQuery := "a=%zz" }
        Header := [("Authorization", ["AWS4-HMAC-SHA256 Credential=k"])] }
      { RawQuery := "a=%zz" } (GoError.other "invalid URL escape") rfl (by decide)⟩

/-- C12: for a request carrying a non-empty session token (the
x-amz-security-token header, or the query parameter when the header is empty)
and a credential whose access key is empty, `checkClaimsFromToken` returns no
claims and NoAccessKey, whatever the flags of the credential are, and verifies
no token. -/
theorem checkClaimsFromToken_noAccessKey (env : Env) (r : Request) (cred : Credentials)
    (htoken : r.Header.Get env.AmzSecurityToken ≠ "" ∨
      (r.Header.Get env.AmzSecurityToken = "" ∧ r.Form.Get env.AmzSecurityToken ≠ ""))
    (hkey : cred.AccessKey = "") :
    checkClaimsFromToken env r cred = (([], ErrNoAccessKey), []) := by
  have ht : getSessionToken env r ≠ "" := by
    unfold getSessionToken
    rcases htoken with h | ⟨h1, h2⟩
    · simp [h]
    · simp [h1, h2]
  simp [checkClaimsFromToken, ht, hkey]

/-- Witness of C12: a token in the query parameter, the header being absent,
with an empty access key and a credential flagged temporary. -/
theorem checkClaimsFromToken_noAccessKey_witness :
    checkClaimsFromToken sampleEnv
      { plainRequest with Form := [("X-Amz-Security-Token", ["tok"])] }
      { Credentials.zero with IsTemp := true, SessionToken := "tok" }
      = (([], ErrNoAccessKey), []) :=
  checkClaimsFromToken_noAccessKey sampleEnv
    { plainRequest with Form := [("X-Amz-Security-Token", ["tok"])] }
    { Credentials.zero with IsTemp := true, SessionToken := "tok" }
    (Or.inr ⟨by decide, by decide⟩) rfl

/-- C13: for a temporary credential with a non-empty access key and a request
whose session token differs from the credential's stored session token (an
absent token included), `checkClaimsFromToken` returns InvalidToken and makes
no attempt to verify or decode the token. -/
theorem checkClaimsFromToken_temp_mismatch (env : Env) (r : Request) (cred : Credentials)
    (hkey : cred.AccessKey ≠ "") (htemp : cred.IsTemp = true)
    (hne : getSessionToken env r ≠ cred.SessionToken) :
    checkClaimsFromToken env r cred = (([], ErrInvalidToken), []) := by
  unfold checkClaimsFromToken
  by_cases ht : getSessionToken env r = ""
  · simp [ht, htemp]
  · simp [ht, hkey, htemp, ConstantTimeCompare, hne]

/-- Witness of C13: a temporary credential whose stored token is `tok`, and a
request whose x-amz-security-token header holds other bytes. -/
theorem checkClaimsFromToken_temp_mismatch_witness :
    checkClaimsFromToken sampleEnv
      { plainRequest with Header := [("X-Amz-Security-Token", ["forged"])] }
      { Credentials.zero with AccessKey := "tmp", SessionToken := "tok", IsTemp := true }
      = (([], ErrInvalidToken), []) :=
  checkClaimsFromToken_temp_mismatch sampleEnv
    { plainRequest with Header := [("X-Amz-Security-Token", ["forged"])] }
    { Credentials.zero with AccessKey := "tmp", SessionToken := "tok", IsTemp := true }
    (by decide) rfl (by decide)

/-- C14: for a credential that is neither temporary nor a service account and
has a non-empty access key, and a request carrying a non-empty session token,
`checkClaimsFromToken` returns InvalidToken. -/
theorem checkClaimsFromToken_static_with_token (env : Env) (r : Request) (cred : Credentials)
    (hkey : cred.AccessKey ≠ "") (htemp : cred.IsTemp = false)
    (hsa : cred.IsServiceAccount = false) (htoken : getSessionToken env r ≠ "") :
    checkClaimsFromToken env r cred = (([], ErrInvalidToken), []) := by
  have _ := hsa
  simp [checkClaimsFromToken, hkey, htemp, htoken]

/-- Witness of C14: a static credential and a request with a token header. -/
theorem checkClaimsFromToken_static_with_token_witness :
    checkClaimsFromToken sampleEnv
      { plainRequest with Header := [("X-Amz-Security-Token", ["tok"])] }
      { Credentials.zero with AccessKey := "user", SecretKey := "secret" }
      = (([], ErrInvalidToken), []) :=
  checkClaimsFromToken_static_with_token sampleEnv
    { plainRequest with Header := [("X-Amz-Security-Token", ["tok"])] }
    { Credentials.zero with AccessKey := "user", SecretKey := "secret" }
    (by decide) rfl rfl (by decide)

/-- C15: if `checkClaimsFromToken` returns ErrNone together with a non-empty
claims map, the credential is temporary or a service account; for a credential
that is neither, a successful result is the empty claims map, reached without
any token verification. -/
theorem checkClaimsFromToken_claims_only_temp_or_service (env : Env) (r : Request)
    (cred : Credentials) :
    (((checkClaimsFromToken env r cred).1.2 = ErrNone ∧
        (checkClaimsFromToken env r cred).1.1 ≠ []) →
      (cred.IsTemp = true ∨ cred.IsServiceAccount = true)) ∧
    ((cred.IsTemp = false ∧ cred.IsServiceAccount = false ∧
        (checkClaimsFromToken env r cred).1.2 = ErrNone) →
      checkClaimsFromToken env r cred = (([], ErrNone), [])) := by
  have key : cred.IsTemp = false → cred.IsServiceAccount = false →
      (checkClaimsFromToken env r cred).1.2 = ErrNone →
      checkClaimsFromToken env r cred = (([], ErrNone), []) := by
    intro htemp hsa
    unfold checkClaimsFromToken
    by_cases ht : getSessionToken env r = ""
    · simp [ht, htemp, hsa]
    · by_cases hk : cred.AccessKey = "" <;> simp [ht, htemp, hk]
  refine ⟨?_, fun h => key h.1 h.2.1 h.2.2⟩
  rintro ⟨hnone, hclaims⟩
  by_contra hcon
  have htemp : cred.IsTemp = false := by
    cases h : cred.IsTemp
    · rfl
    · exact absurd (Or.inl h) hcon
  have hsa : cred.IsServiceAccount = false := by
    cases h : cred.IsServiceAccount
    · rfl
    · exact absurd (Or.inr h) hcon
  rw [key htemp hsa hnone] at hclaims
  exact hclaims rfl

/-- Witness of C15: a static credential without a token succeeds with the
empty claims map. -/
theorem checkClaimsFromToken_claims_only_temp_or_service_witness :
    (checkClaimsFromToken sampleEnv plainRequest
      { Credentials.zero with AccessKey := "user" }).1.2 = ErrNone ∧
    checkClaimsFromToken sampleEnv plainRequest
      { Credentials.zero with AccessKey := "user" } = (([], ErrNone), []) :=
  ⟨by decide,
    (checkClaimsFromToken_claims_only_temp_or_service sampleEnv plainRequest
      { Credentials.zero with AccessKey := "user" }).2 ⟨rfl, rfl, by decide⟩⟩

/-- Once the verification step has yielded `claims`, the result of
`getClaimsFromTokenWithSecret` is the session-policy step applied to them. -/
theorem getClaimsFromTokenWithSecret_of_verified (env : Env) (token secret : String)
    (claims : Claims) (h : verifiesTo env token secret claims) :
    (getClaimsFromTokenWithSecret env token secret).1 =
      if env.authZPluginSet = true then .ok claims
      else if (claims.Lookup SessionPolicyName).2 = true then
        match env.base64DecodeString (claims.Lookup SessionPolicyName).1 with
        | .error _ => .error GoError.errAuthentication
        | .ok spBytes => .ok (claims.set env.sessionPolicyNameExtracted (ClaimValue.str spBytes))
      else .ok claims := by
  unfold getClaimsFromTokenWithSecret
  rcases h with h | ⟨⟨e, he⟩, hne, h⟩
  · simp only [h]
    split_ifs <;> first | rfl | (split <;> simp_all)
  · have hc : ¬ ConstantTimeCompare secret env.globalActiveCred.SecretKey = 1 := by
      simp [ConstantTimeCompare, hne]
    simp only [he, h, hc, if_false]
    split_ifs <;> first | rfl | (split <;> simp_all)

/-- C16: `getClaimsFromTokenWithSecret` first verifies the token under the
given secret. If that fails and the secret equals the root secret it fails
with errAuthentication after that one attempt. If it fails and the secret
differs from the root secret it makes a second attempt under the root secret
and fails with errAuthentication when that fails too; when the second attempt
succeeds the only failure left is that of the session-policy step. Every error
the function returns is errAuthentication. -/
theorem getClaimsFromTokenWithSecret_attempts (env : Env) (token secret : String) :
    let root := env.globalActiveCred.SecretKey
    let res := getClaimsFromTokenWithSecret env token secret
    let c1 := Call.ExtractClaims token secret
    let c2 := Call.ExtractClaims token root
    (∀ claims, env.ExtractClaims token secret = .ok claims → res.2 = [c1]) ∧
    (∀ e, env.ExtractClaims token secret = .error e → secret = root →
      res = (.error GoError.errAuthentication, [c1])) ∧
    (∀ e, env.ExtractClaims token secret = .error e → secret ≠ root →
      res.2 = [c1, c2] ∧
      (∀ e2, env.ExtractClaims token root = .error e2 →
        res.1 = .error GoError.errAuthentication) ∧
      (∀ claims, env.ExtractClaims token root = .ok claims →
        ((∃ err, res.1 = .error err) ↔
          (env.authZPluginSet = false ∧ (claims.Lookup SessionPolicyName).2 = true ∧
            ∃ e3, env.base64DecodeString (claims.Lookup SessionPolicyName).1 = .error e3)))) ∧
    (∀ err, res.1 = .error err → err = GoError.errAuthentication) := by
  dsimp only
  refine ⟨?_, ?_, ?_, ?_⟩
  · intro claims h
    unfold getClaimsFromTokenWithSecret
    simp only [h]
    split_ifs <;> first | rfl | (split <;> rfl)
  · intro e h heq
    unfold getClaimsFromTokenWithSecret
    simp [h, ← heq, ConstantTimeCompare]
  · intro e h hne
    have hc : ¬ ConstantTimeCompare secret env.globalActiveCred.SecretKey = 1 := by
      simp [ConstantTimeCompare]
      exact hne
    refine ⟨?_, ?_, ?_⟩
    · unfold getClaimsFromTokenWithSecret
      simp only [h, hc, if_false]
      rcases h2 : env.ExtractClaims token env.globalActiveCred.SecretKey with e2 | claims
      · rfl
      · simp only []
        split_ifs <;> first | rfl | (split <;> rfl)
    · intro e2 h2
      unfold getClaimsFromTokenWithSecret
      simp [h, hc, h2]
    · intro claims h2
      have hv : verifiesTo env token secret claims := Or.inr ⟨⟨e, h⟩, hne, h2⟩
      rw [getClaimsFromTokenWithSecret_of_verified env token secret claims hv]
      by_cases hp : env.authZPluginSet = true
      · simp [hp]
      · by_cases hs : (claims.Lookup SessionPolicyName).2 = true
        · rcases hd : env.base64DecodeString (claims.Lookup SessionPolicyName).1 with e3 | p
          · simp [hp, hs]
          · simp [hp, hs]
        · simp [hp, hs]
  · intro err h
    exact getClaimsFromTokenWithSecret_error env token secret err h

/-- Witness of C16: with a verifier that refuses every token, a secret other
than the root secret leads to two attempts, the root secret to one. -/
theorem getClaimsFromTokenWithSecret_attempts_witness :
    getClaimsFromTokenWithSecret sampleEnv "tok" "svcsecret"
      = (.error GoError.errAuthentication,
          [Call.ExtractClaims "tok" "svcsecret", Call.ExtractClaims "tok" "rootsecret"]) ∧
    getClaimsFromTokenWithSecret sampleEnv "tok" "rootsecret"
      = (.error GoError.errAuthentication, [Call.ExtractClaims "tok" "rootsecret"]) :=
  ⟨by rfl,
    (getClaimsFromTokenWithSecret_attempts sampleEnv "tok" "rootsecret").2.1
      (GoError.other "invalid token") rfl rfl⟩

/-- Every six-bit value is read back from its character. -/
theorem base64Index_base64Char (v : Nat) (h : v < 64) : base64Index (base64Char v) = some v := by
  interval_cases v <;> rfl

/-- No character of the alphabet is the padding character or a line break. -/
theorem base64Char_plain (v : Nat) (h : v < 64) :
    base64Char v ≠ '=' ∧ base64Char v ≠ '\r' ∧ base64Char v ≠ '\n' := by
  interval_cases v <;> decide

/-- Decoding the encoding of bytes gives the bytes back. -/
theorem base64DecodeQuanta_encode (bs : List Nat) (h : ∀ b ∈ bs, b < 256) :
    base64DecodeQuanta (base64EncodeBytes bs) = some bs := by
  induction bs using base64EncodeBytes.induct with
  | case1 => rfl
  | case2 a =>
    have ha : a < 256 := h a (by simp)
    have h0 := base64Index_base64Char (a / 4) (by omega)
    have h1 := base64Index_base64Char (a % 4 * 16) (by omega)
    simp only [base64EncodeBytes, base64DecodeQuanta, h0, h1]
    simp
    omega
  | case3 a b =>
    have ha : a < 256 := h a (by simp)
    have hb : b < 256 := h b (by simp)
    have h0 := base64Index_base64Char (a / 4) (by omega)
    have h1 := base64Index_base64Char (a % 4 * 16 + b / 16) (by omega)
    have h2 := base64Index_base64Char (b % 16 * 4) (by omega)
    have p2 := (base64Char_plain (b % 16 * 4) (by omega)).1
    simp only [base64EncodeBytes, base64DecodeQuanta, h0, h1, h2, p2, if_false]
    simp
    omega
  | case4 a b c rest ih =>
    have ha : a < 256 := h a (by simp)
    have hb : b < 256 := h b (by simp)
    have hc : c < 256 := h c (by simp)
    have hrest : ∀ x ∈ rest, x < 256 := fun x hx => h x (by simp [hx])
    have h0 := base64Index_base64Char (a / 4) (by omega)
    have h1 := base64Index_base64Char (a % 4 * 16 + b / 16) (by omega)
    have h2 := base64Index_base64Char (b % 16 * 4 + c / 64) (by omega)
    have h3 := base64Index_base64Char (c % 64) (by omega)
    have p2 := (base64Char_plain (b % 16 * 4 + c / 64) (by omega)).1
    have p3 := (base64Char_plain (c % 64) (by omega)).1
    simp only [base64EncodeBytes, base64DecodeQuanta, h0, h1, h2, h3, p2, p3, if_false,
      ih hrest, Option.map_some']
    simp
    omega

/-- A character of the alphabet passes the line-break filter of the decoder. -/
theorem base64Char_kept (v : Nat) (h : v < 64) :
    (base64Char v != '\r' && base64Char v != '\n') = true := by
  interval_cases v <;> decide

/-- The encoding of bytes holds no line break. -/
theorem base64EncodeBytes_no_break (bs : List Nat) (h : ∀ b ∈ bs, b < 256) :
    (base64EncodeBytes bs).filter (fun c => c != '\r' && c != '\n') = base64EncodeBytes bs := by
  have hpad : ('=' != '\r' && '=' != '\n') = true := by decide
  induction bs using base64EncodeBytes.induct with
  | case1 => rfl
  | case2 a =>
    have ha : a < 256 := h a (by simp)
    have q0 := base64Char_kept (a / 4) (by omega)
    have q1 := base64Char_kept (a % 4 * 16) (by omega)
    simp only [base64EncodeBytes, List.filter_cons, q0, q1, hpad, if_true, List.filter_nil]
  | case3 a b =>
    have ha : a < 256 := h a (by simp)
    have hb : b < 256 := h b (by simp)
    have q0 := base64Char_kept (a / 4) (by omega)
    have q1 := base64Char_kept (a % 4 * 16 + b / 16) (by omega)
    have q2 := base64Char_kept (b % 16 * 4) (by omega)
    simp only [base64EncodeBytes, List.filter_cons, q0, q1, q2, hpad, if_true, List.filter_nil]
  | case4 a b c rest ih =>
    have ha : a < 256 := h a (by simp)
    have hb : b < 256 := h b (by simp)
    have hc : c < 256 := h c (by simp)
    have hrest : ∀ x ∈ rest, x < 256 := fun x hx => h x (by simp [hx])
    have q0 := base64Char_kept (a / 4) (by omega)
    have q1 := base64Char_kept (a % 4 * 16 + b / 16) (by omega)
    have q2 := base64Char_kept (b % 16 * 4 + c / 64) (by omega)
    have q3 := base64Char_kept (c % 64) (by omega)
    simp only [base64EncodeBytes, List.filter_cons, q0, q1, q2, q3, if_true, ih hrest]

/-- Standard base64 round trip on strings of bytes: decoding the encoding of
`p` gives `p`. -/
theorem base64DecodeString_encode (p : String) (h : ∀ c ∈ p.data, c.toNat < 256) :
    base64DecodeString (base64EncodeToString p) = .ok p := by
  have hb : ∀ b ∈ stringBytes p, b < 256 := by
    intro b hb
    simp only [stringBytes, List.mem_map] at hb
    obtain ⟨c, hc, rfl⟩ := hb
    exact h c hc
  unfold base64DecodeString base64EncodeToString
  simp only [base64EncodeBytes_no_break _ hb, base64DecodeQuanta_encode _ hb]
  have hid : List.map (Char.ofNat ∘ Char.toNat) p.data = p.data := by
    have : (Char.ofNat ∘ Char.toNat) = id := by
      funext c
      simp
    rw [this, List.map_id]
  simp [bytesString, stringBytes, hid]

/-- Reading the key just assigned in a claims map. -/
theorem Claims.lookup_set_self (c : Claims) (key : String) (v : ClaimValue) :
    List.lookup key (c.set key v) = some v := by
  simp [Claims.set, List.lookup]

/-- Reading another key than the one just assigned in a claims map. -/
theorem Claims.lookup_set_ne (c : Claims) (key k : String) (v : ClaimValue) (h : k ≠ key) :
    List.lookup k (c.set key v) = List.lookup k c := by
  have hk : (k == key) = false := by simpa using h
  simp only [Claims.set, List.lookup, hk]
  induction c with
  | nil => rfl
  | cons kv rest ih =>
    by_cases hkv : kv.1 = key
    · have hne : (k == kv.1) = false := by simpa [hkv] using h
      obtain ⟨k1, v1⟩ := kv
      simp only at hkv hne
      simp [List.filter, hkv, List.lookup, ih, hk]
    · obtain ⟨k1, v1⟩ := kv
      simp only at hkv
      have : (k1 != key) = true := by simpa using hkv
      simp only [List.filter, this, List.lookup]
      cases hk1 : (k == k1) <;> simp [ih]

/-- C17: for every policy string p (of bytes) and every verified token whose
claims hold the standard base64 encoding of p under the session-policy key,
when no authorization plugin is configured `getClaimsFromTokenWithSecret`
returns claims that hold p itself under the reserved extracted key, every
other claim of the token being unchanged. -/
theorem getClaimsFromTokenWithSecret_sessionPolicy_roundtrip (env : Env)
    (token secret : String) (claims : Claims) (p : String)
    (hdec : env.base64DecodeString = base64DecodeString)
    (hbytes : ∀ c ∈ p.data, c.toNat < 256)
    (hplugin : env.authZPluginSet = false)
    (hver : verifiesTo env token secret claims)
    (hsp : List.lookup SessionPolicyName claims
      = some (ClaimValue.str (base64EncodeToString p))) :
    ∃ out, (getClaimsFromTokenWithSecret env token secret).1 = .ok out ∧
      List.lookup env.sessionPolicyNameExtracted out = some (ClaimValue.str p) ∧
      ∀ k, k ≠ env.sessionPolicyNameExtracted → List.lookup k out = List.lookup k claims := by
  have hl : claims.Lookup SessionPolicyName = (base64EncodeToString p, true) := by
    simp [Claims.Lookup, hsp]
  refine ⟨claims.set env.sessionPolicyNameExtracted (ClaimValue.str p), ?_,
    Claims.lookup_set_self _ _ _, fun k hk => Claims.lookup_set_ne _ _ _ _ hk⟩
  rw [getClaimsFromTokenWithSecret_of_verified env token secret claims hver]
  simp [hplugin, hl, hdec, base64DecodeString_encode p hbytes]

/-- Witness of C17: the policy `{}` is carried as `e30=` and comes back under
the extracted key. -/
theorem getClaimsFromTokenWithSecret_sessionPolicy_roundtrip_witness :
    base64EncodeToString "{}" = "e30=" ∧
    ∃ out,
      (getClaimsFromTokenWithSecret
        { sampleEnv with
          ExtractClaims := fun _ _ =>
            .ok [("sessionPolicy", ClaimValue.str "e30="), ("sub", ClaimValue.str "user")] }
        "tok" "rootsecret").1 = .ok out ∧
      List.lookup "sessionPolicy-extracted" out = some (ClaimValue.str "{}") ∧
      ∀ k, k ≠ "sessionPolicy-extracted" →
        List.lookup k out
          = List.lookup k
              [("sessionPolicy", ClaimValue.str "e30="), ("sub", ClaimValue.str "user")] :=
  ⟨by decide,
    getClaimsFromTokenWithSecret_sessionPolicy_roundtrip
      { sampleEnv with
        ExtractClaims := fun _ _ =>
          .ok [("sessionPolicy", ClaimValue.str "e30="), ("sub", ClaimValue.str "user")] }
      "tok" "rootsecret"
      [("sessionPolicy", ClaimValue.str "e30="), ("sub", ClaimValue.str "user")] "{}"
      rfl (by decide) rfl (Or.inl rfl) (by decide)⟩

/-- C18: the session-policy step of `getClaimsFromTokenWithSecret` runs
exactly when no authorization plugin is configured. With a plugin the verified
claims are returned unmodified, whatever they hold under the session-policy
key. Without a plugin a session-policy value that does not decode makes the
function fail with errAuthentication, one that decodes is added under the
extracted key, and claims without a session policy are returned unmodified. -/
theorem getClaimsFromTokenWithSecret_plugin (env : Env) (token secret : String)
    (claims : Claims) (hver : verifiesTo env token secret claims) :
    (env.authZPluginSet = true →
      (getClaimsFromTokenWithSecret env token secret).1 = .ok claims) ∧
    (env.authZPluginSet = false → ∀ sp, claims.Lookup SessionPolicyName = (sp, true) →
      (∀ e, env.base64DecodeString sp = .error e →
        (getClaimsFromTokenWithSecret env token secret).1 = .error GoError.errAuthentication) ∧
      (∀ p, env.base64DecodeString sp = .ok p →
        (getClaimsFromTokenWithSecret env token secret).1
          = .ok (claims.set env.sessionPolicyNameExtracted (ClaimValue.str p)))) ∧
    (env.authZPluginSet = false → (claims.Lookup SessionPolicyName).2 = false →
      (getClaimsFromTokenWithSecret env token secret).1 = .ok claims) := by
  rw [getClaimsFromTokenWithSecret_of_verified env token secret claims hver]
  refine ⟨fun hp => by simp [hp], fun hp sp hl => ⟨fun e he => ?_, fun p hd => ?_⟩,
    fun hp hl => by simp [hp, hl]⟩
  · simp [hp, hl, he]
  · simp [hp, hl, hd]

/-- Witness of C18: a verified token whose session-policy claim is not base64
is returned as it is with a plugin and refused without one. -/
theorem getClaimsFromTokenWithSecret_plugin_witness :
    base64DecodeString "%%%" = .error (GoError.other "illegal base64 data") ∧
    (getClaimsFromTokenWithSecret
      { sampleEnv with
        authZPluginSet := true
        ExtractClaims := fun _ _ => .ok [("sessionPolicy", ClaimValue.str "%%%")] }
      "tok" "rootsecret").1 = .ok [("sessionPolicy", ClaimValue.str "%%%")] ∧
    (getClaimsFromTokenWithSecret
      { sampleEnv with
        ExtractClaims := fun _ _ => .ok [("sessionPolicy", ClaimValue.str "%%%")] }
      "tok" "rootsecret").1 = .error GoError.errAuthentication :=
  ⟨by rfl,
    (getClaimsFromTokenWithSecret_plugin
      { sampleEnv with
        authZPluginSet := true
        ExtractClaims := fun _ _ => .ok [("sessionPolicy", ClaimValue.str "%%%")] }
      "tok" "rootsecret" [("sessionPolicy", ClaimValue.str "%%%")] (Or.inl rfl)).1 rfl,
    by rfl⟩

/-- The calls of `reqSignatureV4Verify` are calls of V4 verifiers. -/
theorem reqSignatureV4Verify_calls (env : Env) (r : Request) (region : String)
    (stype : serviceType) :
    ∀ c ∈ (reqSignatureV4Verify env r region stype).2,
      c.isPolicy = false ∧ c.isKeyExtraction = false := by
  intro c hc
  unfold reqSignatureV4Verify at hc
  dsimp only at hc
  split_ifs at hc <;> simp at hc <;> subst hc <;> exact ⟨rfl, rfl⟩

/-- The calls of `isReqAuthenticated` are those of `reqSignatureV4Verify`. -/
theorem isReqAuthenticated_calls_eq (env : Env) (r : Request) (region : String)
    (stype : serviceType) :
    (isReqAuthenticated env r region stype).2 = (reqSignatureV4Verify env r region stype).2 := by
  unfold isReqAuthenticated
  dsimp only
  repeat' (first | rfl | split)

/-- The calls of `isReqAuthenticatedV2` are calls of V2 verifiers. -/
theorem isReqAuthenticatedV2_calls (env : Env) (r : Request) :
    ∀ c ∈ (isReqAuthenticatedV2 env r).2, c.isPolicy = false ∧ c.isKeyExtraction = false := by
  intro c hc
  unfold isReqAuthenticatedV2 at hc
  split_ifs at hc <;> simp at hc <;> subst hc <;> exact ⟨rfl, rfl⟩

/-- The calls of `authenticateRequest`: those of the verifier of the scheme,
followed by the key extraction when the verifier accepts. -/
theorem authenticateRequest_calls (env : Env) (info : ReqInfo) (r : Request)
    (action : Action) :
    let a := getRequestAuthType env r
    let region :=
      if action = GetBucketLocationAction ∨ action = ListAllMyBucketsAction then ""
      else env.globalSiteRegion
    let q := isReqAuthenticated env a.2 region env.serviceS3
    let v := isReqAuthenticatedV2 env a.2
    (authenticateRequest env (some info) r action).2 =
      if a.1 = authTypePresignedV2 ∨ a.1 = authTypeSignedV2 then
        if v.1 ≠ ErrNone then v.2 else v.2 ++ [Call.getReqAccessKeyV2 a.2]
      else if a.1 = authTypeSigned ∨ a.1 = authTypePresigned then
        if q.1.1 ≠ ErrNone then q.2
        else q.2 ++ [Call.getReqAccessKeyV4 q.1.2 region env.serviceS3]
      else [] := by
  unfold authenticateRequest
  dsimp only
  generalize getRequestAuthType env r = a
  obtain ⟨t, r1⟩ := a
  generalize (if action = GetBucketLocationAction ∨ action = ListAllMyBucketsAction then ""
      else env.globalSiteRegion) = region
  generalize isReqAuthenticated env r1 region env.serviceS3 = q
  generalize isReqAuthenticatedV2 env r1 = v
  cases t <;> simp only [reduceCtorEq, or_self, or_false, false_or, if_true, if_false,
    true_or, or_true] <;> repeat' (first | rfl | split)

/-- No call of `authenticateRequest` is a policy evaluation. -/
theorem authenticateRequest_no_policy (env : Env) (reqInfo : Option ReqInfo) (r : Request)
    (action : Action) :
    ∀ c ∈ (authenticateRequest env reqInfo r action).2, c.isPolicy = false := by
  intro c hc
  cases reqInfo with
  | none => simp [authenticateRequest] at hc
  | some info =>
    have h := authenticateRequest_calls env info r action
    dsimp only at h
    generalize (if action = GetBucketLocationAction ∨ action = ListAllMyBucketsAction then ""
      else env.globalSiteRegion) = region at h
    rw [h] at hc
    split_ifs at hc
    · exact (isReqAuthenticatedV2_calls env _ c hc).1
    · rcases List.mem_append.mp hc with h | h
      · exact (isReqAuthenticatedV2_calls env _ c h).1
      · simp at h; subst h; rfl
    · rw [isReqAuthenticated_calls_eq] at hc
      exact (reqSignatureV4Verify_calls env _ _ _ c hc).1
    · rw [isReqAuthenticated_calls_eq] at hc
      rcases List.mem_append.mp hc with h | h
      · exact (reqSignatureV4Verify_calls env _ _ _ c h).1
      · simp at h; subst h; rfl
    · simp at hc

/-- The request `getRequestAuthType` leaves behind: its `Form` is the parsed
query when there is a URL. -/
theorem getRequestAuthType_snd (env : Env) (r : Request) :
    (getRequestAuthType env r).2 =
      match r.URL with
      | some u => { r with Form := (env.ParseQuery u.RawQuery).1 }
      | none => r := by
  unfold getRequestAuthType
  cases r.URL <;> simp only [apply_ite Prod.snd, ite_self]

/-- The type `getRequestAuthType` returns, as the chain of its tests on the
request it leaves behind. -/
theorem getRequestAuthType_fst (env : Env) (r : Request) :
    (getRequestAuthType env r).1 =
      if (match r.URL with
          | some u => (env.ParseQuery u.RawQuery).2.isSome
          | none => false) = true then authTypeUnknown
      else if isRequestSignatureV2 env (getRequestAuthType env r).2 then authTypeSignedV2
      else if isRequestPresignedSignatureV2 env (getRequestAuthType env r).2 then
        authTypePresignedV2
      else if isRequestSignStreamingV4 env (getRequestAuthType env r).2 then
        authTypeStreamingSigned
      else if isRequestSignatureV4 env (getRequestAuthType env r).2 then authTypeSigned
      else if isRequestPresignedSignatureV4 env (getRequestAuthType env r).2 then
        authTypePresigned
      else if isRequestJWT env (getRequestAuthType env r).2 then authTypeJWT
      else if isRequestPostPolicySignatureV4 env (getRequestAuthType env r).2 then
        authTypePostPolicy
      else if (getRequestAuthType env r).2.Form.has env.ActionKey then authTypeSTS
      else if !(getRequestAuthType env r).2.Header.has env.Authorization then
        authTypeAnonymous
      else authTypeUnknown := by
  rw [getRequestAuthType_snd]
  unfold getRequestAuthType
  cases r.URL <;> simp only [apply_ite Prod.fst]

set_option linter.unnecessarySeqFocus false in
/-- The chain of tests of `getRequestAuthType`, on truth values: what the
four signed types say about the tests. -/
theorem authTypeChain_signed (f b1 b2 b3 b4 b5 b6 b7 b8 b9 : Bool) (t : authType)
    (h : (if f = true then authTypeUnknown
      else if b1 = true then authTypeSignedV2
      else if b2 = true then authTypePresignedV2
      else if b3 = true then authTypeStreamingSigned
      else if b4 = true then authTypeSigned
      else if b5 = true then authTypePresigned
      else if b6 = true then authTypeJWT
      else if b7 = true then authTypePostPolicy
      else if b8 = true then authTypeSTS
      else if b9 = true then authTypeAnonymous
      else authTypeUnknown) = t) :
    (t = authTypeSignedV2 → b1 = true) ∧
    (t = authTypePresignedV2 → b1 = false) ∧
    (t = authTypeSigned → b4 = true) ∧
    (t = authTypePresigned → b4 = false ∧ b5 = true) := by
  subst h
  cases f <;> simp <;> cases b1 <;> simp <;> cases b2 <;> simp <;> cases b3 <;> simp <;>
    cases b4 <;> simp <;> cases b5 <;> simp <;> cases b6 <;> simp <;> cases b7 <;> simp <;>
    cases b8 <;> simp <;> cases b9 <;> simp

/-- What a classification as one of the four signed types says about the
request `getRequestAuthType` leaves behind. -/
theorem getRequestAuthType_signed_types (env : Env) (r : Request) :
    ((getRequestAuthType env r).1 = authTypeSignedV2 →
      isRequestSignatureV2 env (getRequestAuthType env r).2 = true) ∧
    ((getRequestAuthType env r).1 = authTypePresignedV2 →
      isRequestSignatureV2 env (getRequestAuthType env r).2 = false) ∧
    ((getRequestAuthType env r).1 = authTypeSigned →
      isRequestSignatureV4 env (getRequestAuthType env r).2 = true) ∧
    ((getRequestAuthType env r).1 = authTypePresigned →
      isRequestSignatureV4 env (getRequestAuthType env r).2 = false ∧
        isRequestPresignedSignatureV4 env (getRequestAuthType env r).2 = true) :=
  authTypeChain_signed _ _ _ _ _ _ _ _ _ _ _ (getRequestAuthType_fst env r).symm

/-- When `isReqAuthenticated` accepts, the signature verification accepted. -/
theorem isReqAuthenticated_ok_verify (env : Env) (r : Request) (region : String)
    (stype : serviceType) (h : (isReqAuthenticated env r region stype).1.1 = ErrNone) :
    (reqSignatureV4Verify env r region stype).1 = ErrNone := by
  unfold isReqAuthenticated at h
  dsimp only at h
  by_contra hne
  rw [if_pos hne] at h
  exact hne h

/-- Without a request record `authenticateRequest` refuses the request. -/
theorem authenticateRequest_none (env : Env) (r : Request) (action : Action) :
    authenticateRequest env none r action = ((ErrAccessDenied, none, r), []) := rfl

/-- The function `authenticateRequest` in terms of its switch. -/
theorem authenticateRequest_eq_switch (env : Env) (info : ReqInfo) (r : Request)
    (action : Action) :
    authenticateRequest env (some info) r action =
      if (authenticateSwitch env r action).1.2.2 ≠ ErrNone then
        (((authenticateSwitch env r action).1.2.2, some info,
          (authenticateSwitch env r action).2.1), (authenticateSwitch env r action).2.2)
      else if action = CreateBucketAction then
        match readAllLimit env (authenticateSwitch env r action).2.1.Body
            env.maxLocationConstraintSize with
        | .error _ =>
          ((ErrMalformedXML,
            some { info with
              Cred := (authenticateSwitch env r action).1.1
              Owner := (authenticateSwitch env r action).1.2.1 },
            (authenticateSwitch env r action).2.1), (authenticateSwitch env r action).2.2)
        | .ok payload =>
          if (env.parseLocationConstraint
              { (authenticateSwitch env r action).2.1 with Body := Body.reader payload }).2
              ≠ ErrNone then
            (((env.parseLocationConstraint
                { (authenticateSwitch env r action).2.1 with Body := Body.reader payload }).2,
              some { info with
                Cred := (authenticateSwitch env r action).1.1
                Owner := (authenticateSwitch env r action).1.2.1 },
              { (authenticateSwitch env r action).2.1 with Body := Body.reader payload }),
              (authenticateSwitch env r action).2.2)
          else
            ((ErrNone,
              some { info with
                Cred := (authenticateSwitch env r action).1.1
                Owner := (authenticateSwitch env r action).1.2.1
                Region := (env.parseLocationConstraint
                  { (authenticateSwitch env r action).2.1 with Body := Body.reader payload }).1 },
              { (authenticateSwitch env r action).2.1 with Body := Body.reader payload }),
              (authenticateSwitch env r action).2.2)
      else
        ((ErrNone,
          some { info with
            Cred := (authenticateSwitch env r action).1.1
            Owner := (authenticateSwitch env r action).1.2.1
            Region := "" },
          (authenticateSwitch env r action).2.1), (authenticateSwitch env r action).2.2) :=
  rfl

/-- What `authenticateRequest` returns, given its switch: the calls are those
of the switch; a code left by the switch is returned with the request record
untouched; on success the record holds the credential and owner flag of the
switch. -/
theorem authenticateRequest_of_switch (env : Env) (info : ReqInfo) (r : Request)
    (action : Action) :
    (authenticateRequest env (some info) r action).2 = (authenticateSwitch env r action).2.2 ∧
    ((authenticateSwitch env r action).1.2.2 ≠ ErrNone →
      authenticateRequest env (some info) r action =
        (((authenticateSwitch env r action).1.2.2, some info,
          (authenticateSwitch env r action).2.1), (authenticateSwitch env r action).2.2)) ∧
    ((authenticateRequest env (some info) r action).1.1 = ErrNone →
      (authenticateSwitch env r action).1.2.2 = ErrNone) ∧
    (∃ info', (authenticateRequest env (some info) r action).1.2.1 = some info' ∧
      ((authenticateRequest env (some info) r action).1.1 = ErrNone →
        info'.Cred = (authenticateSwitch env r action).1.1 ∧
        info'.Owner = (authenticateSwitch env r action).1.2.1)) := by
  rw [authenticateRequest_eq_switch]
  generalize authenticateSwitch env r action = sw
  obtain ⟨⟨cred, owner, s3Err⟩, r1, calls⟩ := sw
  dsimp only
  by_cases h1 : s3Err = ErrNone
  · subst h1
    by_cases h2 : action = CreateBucketAction
    · simp only [ne_eq, not_true_eq_false, if_false, h2, if_true]
      rcases hread : readAllLimit env r1.Body env.maxLocationConstraintSize with e | payload
      · simp
      · by_cases h3 : (env.parseLocationConstraint
            { r1 with Body := Body.reader payload }).2 = ErrNone
        · simp [h3]
        · simp [h3]
    · simp [h2]
  · simp [h1]

/-- The switch on a request classified Signed or Presigned. -/
theorem authenticateSwitch_v4 (env : Env) (r : Request) (action : Action)
    (ht : (getRequestAuthType env r).1 = authTypeSigned ∨
      (getRequestAuthType env r).1 = authTypePresigned) :
    let region :=
      if action = GetBucketLocationAction ∨ action = ListAllMyBucketsAction then ""
      else env.globalSiteRegion
    let q := isReqAuthenticated env (getRequestAuthType env r).2 region env.serviceS3
    authenticateSwitch env r action =
      if q.1.1 ≠ ErrNone then ((Credentials.zero, false, q.1.1), q.1.2, q.2)
      else
        (env.getReqAccessKeyV4 q.1.2 region env.serviceS3, q.1.2,
          q.2 ++ [Call.getReqAccessKeyV4 q.1.2 region env.serviceS3]) := by
  unfold authenticateSwitch
  dsimp only
  generalize getRequestAuthType env r = a at ht ⊢
  obtain ⟨t, r1⟩ := a
  dsimp only at ht ⊢
  rcases ht with ht | ht <;> subst ht <;> simp

/-- The switch on a request classified SignedV2 or PresignedV2. -/
theorem authenticateSwitch_v2 (env : Env) (r : Request) (action : Action)
    (ht : (getRequestAuthType env r).1 = authTypeSignedV2 ∨
      (getRequestAuthType env r).1 = authTypePresignedV2) :
    let v := isReqAuthenticatedV2 env (getRequestAuthType env r).2
    authenticateSwitch env r action =
      if v.1 ≠ ErrNone then ((Credentials.zero, false, v.1), (getRequestAuthType env r).2, v.2)
      else
        (env.getReqAccessKeyV2 (getRequestAuthType env r).2, (getRequestAuthType env r).2,
          v.2 ++ [Call.getReqAccessKeyV2 (getRequestAuthType env r).2]) := by
  unfold authenticateSwitch
  dsimp only
  generalize getRequestAuthType env r = a at ht ⊢
  obtain ⟨t, r1⟩ := a
  dsimp only at ht ⊢
  rcases ht with ht | ht <;> subst ht <;> simp

/-- The calls of `authorizeRequest`: evaluations of the identity policy for
the credential and owner flag of the request record, or, for an empty access
key, evaluations of the bucket policy. -/
theorem authorizeRequest_calls (env : Env) (info : ReqInfo) (r : Request) (action : Action) :
    ∀ c ∈ (authorizeRequest env (some info) r action).2,
      (∃ a : iampolicy.Args, c = Call.globalIAMSysIsAllowed a ∧
        a.AccountName = info.Cred.AccessKey ∧ a.Groups = info.Cred.Groups ∧
        a.IsOwner = info.Owner ∧ a.Claims = info.Cred.Claims) ∨
      (info.Cred.AccessKey = "" ∧ ∃ a : policy.Args, c = Call.globalPolicySysIsAllowed a) := by
  intro c hc
  unfold authorizeRequest at hc
  dsimp only at hc
  split_ifs at hc with h1 <;>
    simp only [List.mem_cons, List.mem_singleton, List.not_mem_nil, or_false] at hc
  all_goals first
    | (rcases hc with rfl | rfl <;> exact Or.inr ⟨h1.2, _, rfl⟩)
    | (rcases hc with rfl | rfl <;> exact Or.inl ⟨_, rfl, rfl, rfl, rfl, rfl⟩)

/-- C19: if `authenticateRequest` returns a code other than ErrNone,
`checkRequestAuthTypeCredential` returns that code, makes no call beyond those
of `authenticateRequest`, and evaluates neither the bucket policy nor the
identity policy. Inside `authenticateRequest` a signature verification that
fails ends the function with the code and the calls of the verification: the
access key is not extracted. -/
theorem checkRequestAuthTypeCredential_first_error (env : Env) (reqInfo : Option ReqInfo)
    (r : Request) (action : Action)
    (h : (authenticateRequest env reqInfo r action).1.1 ≠ ErrNone) :
    (checkRequestAuthTypeCredential env reqInfo r action).1.1.2.2
      = (authenticateRequest env reqInfo r action).1.1 ∧
    (checkRequestAuthTypeCredential env reqInfo r action).2
      = (authenticateRequest env reqInfo r action).2 ∧
    (∀ c ∈ (checkRequestAuthTypeCredential env reqInfo r action).2, c.isPolicy = false) ∧
    (((getRequestAuthType env r).1 = authTypeSigned ∨
        (getRequestAuthType env r).1 = authTypePresigned) →
      ∀ info, reqInfo = some info →
      (isReqAuthenticated env (getRequestAuthType env r).2
        (if action = GetBucketLocationAction ∨ action = ListAllMyBucketsAction then ""
          else env.globalSiteRegion) env.serviceS3).1.1 ≠ ErrNone →
      (authenticateRequest env reqInfo r action).1.1
        = (isReqAuthenticated env (getRequestAuthType env r).2
            (if action = GetBucketLocationAction ∨ action = ListAllMyBucketsAction then ""
              else env.globalSiteRegion) env.serviceS3).1.1 ∧
      ∀ c ∈ (authenticateRequest env reqInfo r action).2, c.isKeyExtraction = false) ∧
    (((getRequestAuthType env r).1 = authTypeSignedV2 ∨
        (getRequestAuthType env r).1 = authTypePresignedV2) →
      ∀ info, reqInfo = some info →
      (isReqAuthenticatedV2 env (getRequestAuthType env r).2).1 ≠ ErrNone →
      (authenticateRequest env reqInfo r action).1.1
        = (isReqAuthenticatedV2 env (getRequestAuthType env r).2).1 ∧
      ∀ c ∈ (authenticateRequest env reqInfo r action).2, c.isKeyExtraction = false) := by
  have hres : (checkRequestAuthTypeCredential env reqInfo r action).1.1.2.2
        = (authenticateRequest env reqInfo r action).1.1 ∧
      (checkRequestAuthTypeCredential env reqInfo r action).2
        = (authenticateRequest env reqInfo r action).2 := by
    cases reqInfo with
    | none => exact ⟨rfl, rfl⟩
    | some info =>
      obtain ⟨info', hinfo, _⟩ := (authenticateRequest_of_switch env info r action).2.2.2
      unfold checkRequestAuthTypeCredential
      dsimp only
      rw [hinfo]
      simp [h]
  refine ⟨hres.1, hres.2, ?_, ?_, ?_⟩
  · rw [hres.2]
    exact authenticateRequest_no_policy env reqInfo r action
  · intro ht info hinfo hq
    subst hinfo
    have hsw := authenticateSwitch_v4 env r action ht
    dsimp only at hsw
    rw [if_pos hq] at hsw
    rw [(authenticateRequest_of_switch env info r action).2.1 (by rw [hsw]; exact hq), hsw]
    refine ⟨rfl, fun c hc => ?_⟩
    rw [isReqAuthenticated_calls_eq] at hc
    exact (reqSignatureV4Verify_calls env _ _ _ c hc).2
  · intro ht info hinfo hv
    subst hinfo
    have hsw := authenticateSwitch_v2 env r action ht
    dsimp only at hsw
    rw [if_pos hv] at hsw
    rw [(authenticateRequest_of_switch env info r action).2.1 (by rw [hsw]; exact hv), hsw]
    exact ⟨rfl, fun c hc => (isReqAuthenticatedV2_calls env _ c hc).2⟩

/-- Witness of C19: a V4-signed request whose signature is refused gets the
code of the verifier, after the one call of the verifier. -/
theorem checkRequestAuthTypeCredential_first_error_witness :
    (authenticateRequest sampleEnv
      (some { Cred := Credentials.zero, Owner := false, Region := "", BucketName := "bucket",
              ObjectName := "object" })
      { plainRequest with Header := [("Authorization", ["AWS4-HMAC-SHA256 Credential=k"])] }
      "s3:GetObject").1.1 = ErrOther 1 ∧
    (checkRequestAuthTypeCredential sampleEnv
      (some { Cred := Credentials.zero, Owner := false, Region := "", BucketName := "bucket",
              ObjectName := "object" })
      { plainRequest with Header := [("Authorization", ["AWS4-HMAC-SHA256 Credential=k"])] }
      "s3:GetObject").1.1.2.2 = ErrOther 1 :=
  ⟨by decide,
    (checkRequestAuthTypeCredential_first_error sampleEnv
      (some { Cred := Credentials.zero, Owner := false, Region := "", BucketName := "bucket",
              ObjectName := "object" })
      { plainRequest with Header := [("Authorization", ["AWS4-HMAC-SHA256 Credential=k"])] }
      "s3:GetObject" (by decide)).1.trans (by decide)⟩

/-- When `checkRequestAuthTypeCredential` admits a request, the switch of
`authenticateRequest` left ErrNone, the credential and owner flag returned are
those of the switch, and every policy evaluation made for a non-empty access
key is an identity-policy evaluation for that credential and owner flag. -/
theorem checkRequestAuthTypeCredential_ok (env : Env) (info : ReqInfo) (r : Request)
    (action : Action)
    (hok : (checkRequestAuthTypeCredential env (some info) r action).1.1.2.2 = ErrNone) :
    (authenticateSwitch env r action).1.2.2 = ErrNone ∧
    (checkRequestAuthTypeCredential env (some info) r action).1.1.1
      = (authenticateSwitch env r action).1.1 ∧
    (checkRequestAuthTypeCredential env (some info) r action).1.1.2.1
      = (authenticateSwitch env r action).1.2.1 ∧
    ((authenticateSwitch env r action).1.1.AccessKey ≠ "" →
      ∀ c ∈ (checkRequestAuthTypeCredential env (some info) r action).2, c.isPolicy = true →
        ∃ a : iampolicy.Args, c = Call.globalIAMSysIsAllowed a ∧
          a.AccountName = (authenticateSwitch env r action).1.1.AccessKey ∧
          a.Groups = (authenticateSwitch env r action).1.1.Groups ∧
          a.IsOwner = (authenticateSwitch env r action).1.2.1 ∧
          a.Claims = (authenticateSwitch env r action).1.1.Claims) := by
  obtain ⟨hcalls, -, hswok, info', hinfo, hcred⟩ := authenticateRequest_of_switch env info r action
  have hnp := authenticateRequest_no_policy env (some info) r action
  have hau : (authenticateRequest env (some info) r action).1.1 = ErrNone := by
    by_contra hne
    unfold checkRequestAuthTypeCredential at hok
    dsimp only at hok
    rw [hinfo] at hok
    simp [hne] at hok
  obtain ⟨hc1, hc2⟩ := hcred hau
  unfold checkRequestAuthTypeCredential
  dsimp only
  rw [hinfo]
  simp only [hau, ne_eq, not_true_eq_false, if_false]
  refine ⟨hswok hau, hc1, hc2, fun hkey c hc hpol => ?_⟩
  rcases List.mem_append.mp hc with hc | hc
  · rw [hnp c hc] at hpol
    exact absurd hpol (by decide)
  · rcases authorizeRequest_calls env info' _ action c hc with ⟨a, ha, h1, h2, h3, h4⟩ | ⟨hk, _⟩
    · exact ⟨a, ha, by rw [h1, hc1], by rw [h2, hc1], by rw [h3, hc2], by rw [h4, hc1]⟩
    · rw [hc1] at hk
      exact absurd hk hkey

/-- C20: for a request classified Signed, Presigned, SignedV2 or PresignedV2
that `checkRequestAuthTypeCredential` admits, the signature verifier of the
scheme returned ErrNone for the request, the key extraction of the scheme
(getReqAccessKeyV4 or getReqAccessKeyV2) returned ErrNone, the credential and
owner flag returned are those it extracted and, the extracted access key being
non-empty, every policy evaluation made is an identity-policy evaluation whose
account name, groups, owner flag and claims are those extracted. -/
theorem checkRequestAuthTypeCredential_identity (env : Env) (info : ReqInfo) (r : Request)
    (action : Action)
    (hok : (checkRequestAuthTypeCredential env (some info) r action).1.1.2.2 = ErrNone) :
    let r1 := (getRequestAuthType env r).2
    let region :=
      if action = GetBucketLocationAction ∨ action = ListAllMyBucketsAction then ""
      else env.globalSiteRegion
    let res := checkRequestAuthTypeCredential env (some info) r action
    let fromKey : Credentials × Bool × APIErrorCode → Prop := fun k =>
      k.2.2 = ErrNone ∧ res.1.1.1 = k.1 ∧ res.1.1.2.1 = k.2.1 ∧
      (k.1.AccessKey ≠ "" → ∀ c ∈ res.2, c.isPolicy = true →
        ∃ a : iampolicy.Args, c = Call.globalIAMSysIsAllowed a ∧
          a.AccountName = k.1.AccessKey ∧ a.Groups = k.1.Groups ∧
          a.IsOwner = k.2.1 ∧ a.Claims = k.1.Claims)
    ((getRequestAuthType env r).1 = authTypeSigned →
      env.doesSignatureMatch (env.getContentSha256Cksum r1 env.serviceS3) r1 region
          env.serviceS3 = ErrNone ∧
        fromKey (env.getReqAccessKeyV4
          (isReqAuthenticated env r1 region env.serviceS3).1.2 region env.serviceS3)) ∧
    ((getRequestAuthType env r).1 = authTypePresigned →
      env.doesPresignedSignatureMatch (env.getContentSha256Cksum r1 env.serviceS3) r1 region
          env.serviceS3 = ErrNone ∧
        fromKey (env.getReqAccessKeyV4
          (isReqAuthenticated env r1 region env.serviceS3).1.2 region env.serviceS3)) ∧
    ((getRequestAuthType env r).1 = authTypeSignedV2 →
      env.doesSignV2Match r1 = ErrNone ∧ fromKey (env.getReqAccessKeyV2 r1)) ∧
    ((getRequestAuthType env r).1 = authTypePresignedV2 →
      env.doesPresignV2SignatureMatch r1 = ErrNone ∧ fromKey (env.getReqAccessKeyV2 r1)) := by
  obtain ⟨hsw, hcred, howner, hpol⟩ := checkRequestAuthTypeCredential_ok env info r action hok
  obtain ⟨hsV2, hpV2, hsV4, hpV4⟩ := getRequestAuthType_signed_types env r
  have v4 : ((getRequestAuthType env r).1 = authTypeSigned ∨
      (getRequestAuthType env r).1 = authTypePresigned) →
      (reqSignatureV4Verify env (getRequestAuthType env r).2
        (if action = GetBucketLocationAction ∨ action = ListAllMyBucketsAction then ""
          else env.globalSiteRegion) env.serviceS3).1 = ErrNone ∧
      authenticateSwitch env r action =
        (env.getReqAccessKeyV4
          (isReqAuthenticated env (getRequestAuthType env r).2
            (if action = GetBucketLocationAction ∨ action = ListAllMyBucketsAction then ""
              else env.globalSiteRegion) env.serviceS3).1.2
          (if action = GetBucketLocationAction ∨ action = ListAllMyBucketsAction then ""
            else env.globalSiteRegion) env.serviceS3,
          (isReqAuthenticated env (getRequestAuthType env r).2
            (if action = GetBucketLocationAction ∨ action = ListAllMyBucketsAction then ""
              else env.globalSiteRegion) env.serviceS3).1.2,
          (isReqAuthenticated env (getRequestAuthType env r).2
            (if action = GetBucketLocationAction ∨ action = ListAllMyBucketsAction then ""
              else env.globalSiteRegion) env.serviceS3).2 ++
            [Call.getReqAccessKeyV4
              (isReqAuthenticated env (getRequestAuthType env r).2
                (if action = GetBucketLocationAction ∨ action = ListAllMyBucketsAction then ""
                  else env.globalSiteRegion) env.serviceS3).1.2
              (if action = GetBucketLocationAction ∨ action = ListAllMyBucketsAction then ""
                else env.globalSiteRegion) env.serviceS3]) := by
    intro ht
    have h := authenticateSwitch_v4 env r action ht
    dsimp only at h
    by_cases hq : (isReqAuthenticated env (getRequestAuthType env r).2
        (if action = GetBucketLocationAction ∨ action = ListAllMyBucketsAction then ""
          else env.globalSiteRegion) env.serviceS3).1.1 = ErrNone
    · rw [if_neg (not_not.mpr hq)] at h
      exact ⟨isReqAuthenticated_ok_verify env _ _ _ hq, h⟩
    · rw [if_pos hq] at h
      rw [h] at hsw
      exact absurd hsw hq
  have v2 : ((getRequestAuthType env r).1 = authTypeSignedV2 ∨
      (getRequestAuthType env r).1 = authTypePresignedV2) →
      (isReqAuthenticatedV2 env (getRequestAuthType env r).2).1 = ErrNone ∧
      authenticateSwitch env r action =
        (env.getReqAccessKeyV2 (getRequestAuthType env r).2, (getRequestAuthType env r).2,
          (isReqAuthenticatedV2 env (getRequestAuthType env r).2).2 ++
            [Call.getReqAccessKeyV2 (getRequestAuthType env r).2]) := by
    intro ht
    have h := authenticateSwitch_v2 env r action ht
    dsimp only at h
    by_cases hv : (isReqAuthenticatedV2 env (getRequestAuthType env r).2).1 = ErrNone
    · rw [if_neg (not_not.mpr hv)] at h
      exact ⟨hv, h⟩
    · rw [if_pos hv] at h
      rw [h] at hsw
      exact absurd hsw hv
  dsimp only
  refine ⟨fun ht => ?_, fun ht => ?_, fun ht => ?_, fun ht => ?_⟩
  · obtain ⟨hver, heq⟩ := v4 (Or.inl ht)
    rw [heq] at hsw hcred howner hpol
    refine ⟨?_, hsw, hcred, howner, hpol⟩
    unfold reqSignatureV4Verify at hver
    simpa [hsV4 ht] using hver
  · obtain ⟨hver, heq⟩ := v4 (Or.inr ht)
    rw [heq] at hsw hcred howner hpol
    refine ⟨?_, hsw, hcred, howner, hpol⟩
    unfold reqSignatureV4Verify at hver
    simpa [(hpV4 ht).1, (hpV4 ht).2] using hver
  · obtain ⟨hver, heq⟩ := v2 (Or.inl ht)
    rw [heq] at hsw hcred howner hpol
    refine ⟨?_, hsw, hcred, howner, hpol⟩
    unfold isReqAuthenticatedV2 at hver
    simpa [hsV2 ht] using hver
  · obtain ⟨hver, heq⟩ := v2 (Or.inr ht)
    rw [heq] at hsw hcred howner hpol
    refine ⟨?_, hsw, hcred, howner, hpol⟩
    unfold isReqAuthenticatedV2 at hver
    simpa [hpV2 ht] using hver

/-- Witness of C20: a V4-signed request whose signature verifies and whose
access key is extracted as `user` is admitted with that credential. -/
theorem checkRequestAuthTypeCredential_identity_witness :
    (checkRequestAuthTypeCredential
      { sampleEnv with
        doesSignatureMatch := fun _ _ _ _ => ErrNone
        getReqAccessKeyV4 := fun _ _ _ =>
          ({ Credentials.zero with AccessKey := "user" }, false, ErrNone)
        globalIAMSysIsAllowed := fun _ => true }
      (some { Cred := Credentials.zero, Owner := false, Region := "", BucketName := "bucket",
              ObjectName := "object" })
      { plainRequest with Header := [("Authorization", ["AWS4-HMAC-SHA256 Credential=k"])] }
      "s3:GetObject").1.1.2.2 = ErrNone ∧
    (checkRequestAuthTypeCredential
      { sampleEnv with
        doesSignatureMatch := fun _ _ _ _ => ErrNone
        getReqAccessKeyV4 := fun _ _ _ =>
          ({ Credentials.zero with AccessKey := "user" }, false, ErrNone)
        globalIAMSysIsAllowed := fun _ => true }
      (some { Cred := Credentials.zero, Owner := false, Region := "", BucketName := "bucket",
              ObjectName := "object" })
      { plainRequest with Header := [("Authorization", ["AWS4-HMAC-SHA256 Credential=k"])] }
      "s3:GetObject").1.1.1 = { Credentials.zero with AccessKey := "user" } :=
  ⟨by decide,
    ((checkRequestAuthTypeCredential_identity
      { sampleEnv with
        doesSignatureMatch := fun _ _ _ _ => ErrNone
        getReqAccessKeyV4 := fun _ _ _ =>
          ({ Credentials.zero with AccessKey := "user" }, false, ErrNone)
        globalIAMSysIsAllowed := fun _ => true }
      { Cred := Credentials.zero, Owner := false, Region := "", BucketName := "bucket",
        ObjectName := "object" }
      { plainRequest with Header := [("Authorization", ["AWS4-HMAC-SHA256 Credential=k"])] }
      "s3:GetObject" (by decide)).1 (by decide)).2.2.1⟩

/-- A key whose first value is not empty is present. -/
theorem Values.has_of_Get_ne (m : Values) (key : String) (h : m.Get key ≠ "") :
    m.has key = true := by
  unfold Values.Get at h
  unfold Values.has
  cases hl : m.lookup key with
  | none => simp [hl] at h
  | some vs => rfl

/-- The failing input of C21: a request with a V4 Authorization header, hence
classified Signed, that also carries an X-Amz-Credential query parameter. It
is not skip-marked, its signature verifies, its Content-MD5 is well formed and
its x-amz-content-sha256 header holds the hex encoding of 32 bytes; yet the
reader `isReqAuthenticated` installs has an empty expected SHA-256, taken from
the absent query parameter, not the digest of the header. -/
theorem isReqAuthenticated_signed_query_counterexample :
    (getRequestAuthType { sampleEnv with doesSignatureMatch := fun _ _ _ _ => ErrNone }
      { plainRequest with
        URL := some { RawQuery := "X-Amz-Credential=k" }
        Header := [("Authorization", ["AWS4-HMAC-SHA256 Credential=k"]),
                   ("X-Amz-Content-Sha256",
                    ["e3b0c44298fc1c149afbf4c8996fb92427ae41e4649b934ca495991b7852b855"])]
        Body := Body.reader [104, 105] }).1 = authTypeSigned ∧
    (hexDecodeString
      "e3b0c44298fc1c149afbf4c8996fb92427ae41e4649b934ca495991b7852b855").map List.length
      = some 32 ∧
    (isReqAuthenticated { sampleEnv with doesSignatureMatch := fun _ _ _ _ => ErrNone }
      (getRequestAuthType { sampleEnv with doesSignatureMatch := fun _ _ _ _ => ErrNone }
        { plainRequest with
          URL := some { RawQuery := "X-Amz-Credential=k" }
          Header := [("Authorization", ["AWS4-HMAC-SHA256 Credential=k"]),
                     ("X-Amz-Content-Sha256",
                      ["e3b0c44298fc1c149afbf4c8996fb92427ae41e4649b934ca495991b7852b855"])]
          Body := Body.reader [104, 105] }).2
      "us-east-1" "s3").1.1 = ErrNone ∧
    (isReqAuthenticated { sampleEnv with doesSignatureMatch := fun _ _ _ _ => ErrNone }
      (getRequestAuthType { sampleEnv with doesSignatureMatch := fun _ _ _ _ => ErrNone }
        { plainRequest with
          URL := some { RawQuery := "X-Amz-Credential=k" }
          Header := [("Authorization", ["AWS4-HMAC-SHA256 Credential=k"]),
                     ("X-Amz-Content-Sha256",
                      ["e3b0c44298fc1c149afbf4c8996fb92427ae41e4649b934ca495991b7852b855"])]
          Body := Body.reader [104, 105] }).2
      "us-east-1" "s3").1.2.Body = Body.hashReader (Body.reader [104, 105]) (-1) "" "" (-1) := by
  decide

/-- The header digest of `isReqAuthenticated`: for a request classified Signed
that carries no X-Amz-Credential query parameter and is not skip-marked, whose
signature verifies, whose Content-MD5 header is well formed and whose
x-amz-content-sha256 header holds the hex encoding of a 32-byte digest,
`isReqAuthenticated` calls the signature verifier only and, when
`hash.NewReader` builds a reader over the body for the entity tag of the
Content-MD5 and the hex encoding of that digest as expected SHA-256, returns
ErrNone with that reader as the body of the request. -/
theorem isReqAuthenticated_signed_body (env : Env) (r0 : Request) (region : String)
    (stype : serviceType) (clientETag digest : List Nat) (reader : Body)
    (hsigned : (getRequestAuthType env r0).1 = authTypeSigned)
    (hquery : (getRequestAuthType env r0).2.Form.has env.AmzCredential = false)
    (hskip : env.skipContentSha256Cksum (getRequestAuthType env r0).2 = false)
    (hsig : env.doesSignatureMatch
      (env.getContentSha256Cksum (getRequestAuthType env r0).2 stype)
      (getRequestAuthType env r0).2 region stype = ErrNone)
    (hmd5 : env.FromContentMD5 (getRequestAuthType env r0).2.Header = .ok clientETag)
    (hhex : hexDecodeString ((getRequestAuthType env r0).2.Header.Get env.AmzContentSha256)
      = some digest)
    (hlen : digest.length = 32)
    (hnew : env.NewReader (getRequestAuthType env r0).2.Body (-1) (env.ETagString clientETag)
      (hexEncodeToString digest) (-1) = .ok reader) :
    isReqAuthenticated env (getRequestAuthType env r0).2 region stype =
      ((ErrNone, { (getRequestAuthType env r0).2 with Body := reader }),
        [Call.doesSignatureMatch
          (env.getContentSha256Cksum (getRequestAuthType env r0).2 stype)
          (getRequestAuthType env r0).2 region stype]) := by
  have hv4 := (getRequestAuthType_signed_types env r0).2.2.1 hsigned
  generalize (getRequestAuthType env r0).2 = r at hquery hskip hsig hmd5 hhex hnew hv4 ⊢
  have hget : r.Header.Get env.AmzContentSha256 ≠ "" := by
    intro h0
    rw [h0] at hhex
    have hd : digest = [] := by
      have h1 : hexDecodeString "" = some [] := rfl
      rw [h1] at hhex
      exact (Option.some.inj hhex).symm
    rw [hd] at hlen
    simp at hlen
  have hhas := Values.has_of_Get_ne _ _ hget
  have hne : ¬ digest.length = 0 := by rw [hlen]; decide
  have hpre : isRequestPresignedSignatureV4 env r = false := hquery
  unfold isReqAuthenticated reqSignatureV4Verify
  simp only [hv4, if_true, hsig, ne_eq, not_true_eq_false, if_false, hmd5, hskip, hpre,
    Bool.not_false, Bool.and_false, Bool.true_and, hhas, hhex, hne, hnew, Bool.false_eq_true]

/-- An instance of the header digest: a V4-signed request without query whose
x-amz-content-sha256 header holds a digest gets a reader that expects this
digest. -/
theorem isReqAuthenticated_signed_body_witness :
    (isReqAuthenticated { sampleEnv with doesSignatureMatch := fun _ _ _ _ => ErrNone }
      (getRequestAuthType { sampleEnv with doesSignatureMatch := fun _ _ _ _ => ErrNone }
        { plainRequest with
          Header := [("Authorization", ["AWS4-HMAC-SHA256 Credential=k"]),
                     ("X-Amz-Content-Sha256",
                      ["e3b0c44298fc1c149afbf4c8996fb92427ae41e4649b934ca495991b7852b855"])]
          Body := Body.reader [104, 105] }).2
      "us-east-1" "s3").1.2.Body =
      Body.hashReader (Body.reader [104, 105]) (-1) ""
        "e3b0c44298fc1c149afbf4c8996fb92427ae41e4649b934ca495991b7852b855" (-1) :=
  (congrArg (fun x => x.1.2.Body)
    (isReqAuthenticated_signed_body
      { sampleEnv with doesSignatureMatch := fun _ _ _ _ => ErrNone }
      { plainRequest with
        Header := [("Authorization", ["AWS4-HMAC-SHA256 Credential=k"]),
                   ("X-Amz-Content-Sha256",
                    ["e3b0c44298fc1c149afbf4c8996fb92427ae41e4649b934ca495991b7852b855"])]
        Body := Body.reader [104, 105] }
      "us-east-1" "s3" []
      [227, 176, 196, 66, 152, 252, 28, 20, 154, 251, 244, 200, 153, 111, 185, 36,
       39, 174, 65, 228, 100, 155, 147, 76, 164, 149, 153, 27, 120, 82, 184, 85]
      (Body.hashReader (Body.reader [104, 105]) (-1) ""
        "e3b0c44298fc1c149afbf4c8996fb92427ae41e4649b934ca495991b7852b855" (-1))
      (by decide) (by decide) (by decide) (by decide) rfl (by decide) (by decide)
      rfl)).trans (by decide)

/-- C21: the expected SHA-256 of a request classified Signed that carries an
X-Amz-Credential query parameter. When the request is not skip-marked, its
signature verifies and its Content-MD5 header is well formed,
`isReqAuthenticated` takes the digest from the X-Amz-Content-Sha256 query
parameter, whatever the x-amz-content-sha256 header holds: without that
parameter the reader is built with the empty expected SHA-256 and installed
with ErrNone; with it, the reader is built with the digest the first value of
the parameter decodes to, and a value that is not hexadecimal is refused with
ErrContentSHA256Mismatch. -/
theorem isReqAuthenticated_signed_query_digest (env : Env) (r0 : Request) (region : String)
    (stype : serviceType) (clientETag : List Nat)
    (hsigned : (getRequestAuthType env r0).1 = authTypeSigned)
    (hquery : (getRequestAuthType env r0).2.Form.has env.AmzCredential = true)
    (hskip : env.skipContentSha256Cksum (getRequestAuthType env r0).2 = false)
    (hsig : env.doesSignatureMatch
      (env.getContentSha256Cksum (getRequestAuthType env r0).2 stype)
      (getRequestAuthType env r0).2 region stype = ErrNone)
    (hmd5 : env.FromContentMD5 (getRequestAuthType env r0).2.Header = .ok clientETag) :
    (∀ reader,
      ((getRequestAuthType env r0).2.Form.lookup env.AmzContentSha256 = none ∨
        (getRequestAuthType env r0).2.Form.lookup env.AmzContentSha256 = some []) →
      env.NewReader (getRequestAuthType env r0).2.Body (-1) (env.ETagString clientETag)
        (hexEncodeToString []) (-1) = .ok reader →
      isReqAuthenticated env (getRequestAuthType env r0).2 region stype =
        ((ErrNone, { (getRequestAuthType env r0).2 with Body := reader }),
          [Call.doesSignatureMatch
            (env.getContentSha256Cksum (getRequestAuthType env r0).2 stype)
            (getRequestAuthType env r0).2 region stype])) ∧
    (∀ sha256Sum rest digest reader,
      (getRequestAuthType env r0).2.Form.lookup env.AmzContentSha256
        = some (sha256Sum :: rest) →
      hexDecodeString sha256Sum = some digest →
      env.NewReader (getRequestAuthType env r0).2.Body (-1) (env.ETagString clientETag)
        (hexEncodeToString digest) (-1) = .ok reader →
      isReqAuthenticated env (getRequestAuthType env r0).2 region stype =
        ((ErrNone, { (getRequestAuthType env r0).2 with Body := reader }),
          [Call.doesSignatureMatch
            (env.getContentSha256Cksum (getRequestAuthType env r0).2 stype)
            (getRequestAuthType env r0).2 region stype])) ∧
    (∀ sha256Sum rest,
      (getRequestAuthType env r0).2.Form.lookup env.AmzContentSha256
        = some (sha256Sum :: rest) →
      hexDecodeString sha256Sum = none →
      isReqAuthenticated env (getRequestAuthType env r0).2 region stype =
        ((ErrContentSHA256Mismatch, (getRequestAuthType env r0).2),
          [Call.doesSignatureMatch
            (env.getContentSha256Cksum (getRequestAuthType env r0).2 stype)
            (getRequestAuthType env r0).2 region stype])) := by
  have hv4 := (getRequestAuthType_signed_types env r0).2.2.1 hsigned
  generalize (getRequestAuthType env r0).2 = r at hquery hskip hsig hmd5 hv4 ⊢
  have hpre : isRequestPresignedSignatureV4 env r = true := hquery
  refine ⟨?_, ?_, ?_⟩
  · intro reader hl hnew
    unfold isReqAuthenticated reqSignatureV4Verify
    rcases hl with hl | hl <;>
      simp only [hv4, if_true, hsig, ne_eq, not_true_eq_false, if_false, hmd5, hskip, hpre,
        Bool.not_false, Bool.and_self, hl, hnew]
  · intro sha256Sum rest digest reader hl hhex hnew
    unfold isReqAuthenticated reqSignatureV4Verify
    simp only [hv4, if_true, hsig, ne_eq, not_true_eq_false, if_false, hmd5, hskip, hpre,
      Bool.not_false, Bool.and_self, hl, hhex, hnew]
  · intro sha256Sum rest hl hhex
    unfold isReqAuthenticated reqSignatureV4Verify
    simp only [hv4, if_true, hsig, ne_eq, not_true_eq_false, if_false, hmd5, hskip, hpre,
      Bool.not_false, Bool.and_self, hl, hhex]

/-- Witness of C21: the request `GET /?X-Amz-Credential=k` with a V4
Authorization header, an x-amz-content-sha256 header that holds a digest and
the body `hi` gets a reader with the empty expected SHA-256. -/
theorem isReqAuthenticated_signed_query_digest_witness :
    (isReqAuthenticated { sampleEnv with doesSignatureMatch := fun _ _ _ _ => ErrNone }
      (getRequestAuthType { sampleEnv with doesSignatureMatch := fun _ _ _ _ => ErrNone }
        { plainRequest with
          URL := some { RawQuery := "X-Amz-Credential=k" }
          Header := [("Authorization", ["AWS4-HMAC-SHA256 Credential=k"]),
                     ("X-Amz-Content-Sha256",
                      ["e3b0c44298fc1c149afbf4c8996fb92427ae41e4649b934ca495991b7852b855"])]
          Body := Body.reader [104, 105] }).2
      "us-east-1" "s3").1 =
      (ErrNone,
        { Method := "GET", URL := some { RawQuery := "X-Amz-Credential=k" },
          Header := [("Authorization", ["AWS4-HMAC-SHA256 Credential=k"]),
                     ("X-Amz-Content-Sha256",
                      ["e3b0c44298fc1c149afbf4c8996fb92427ae41e4649b934ca495991b7852b855"])],
          Form := [("X-Amz-Credential", ["k"])],
          Body := Body.hashReader (Body.reader [104, 105]) (-1) "" "" (-1) }) :=
  (congrArg Prod.fst
    ((isReqAuthenticated_signed_query_digest
      { sampleEnv with doesSignatureMatch := fun _ _ _ _ => ErrNone }
      { plainRequest with
        URL := some { RawQuery := "X-Amz-Credential=k" }
        Header := [("Authorization", ["AWS4-HMAC-SHA256 Credential=k"]),
                   ("X-Amz-Content-Sha256",
                    ["e3b0c44298fc1c149afbf4c8996fb92427ae41e4649b934ca495991b7852b855"])]
        Body := Body.reader [104, 105] }
      "us-east-1" "s3" []
      (by decide) (by decide) (by decide) (by decide) rfl).1
      (Body.hashReader (Body.reader [104, 105]) (-1) "" "" (-1))
      (Or.inl (by decide)) rfl)).trans (by decide)

/-- The classification of a request leaves its body alone. -/
theorem getRequestAuthType_body (env : Env) (r : Request) :
    (getRequestAuthType env r).2.Body = r.Body := by
  rw [getRequestAuthType_snd]
  cases r.URL <;> rfl

/-- The request `isReqAuthenticated` leaves behind is the request it was
given, or that request with the reader `hash.NewReader` built around its
body. -/
theorem isReqAuthenticated_request (env : Env) (r : Request) (region : String)
    (stype : serviceType) :
    (isReqAuthenticated env r region stype).1.2 = r ∨
    ∃ md5Hex sha256Hex reader,
      env.NewReader r.Body (-1) md5Hex sha256Hex (-1) = .ok reader ∧
      (isReqAuthenticated env r region stype).1.2 = { r with Body := reader } := by
  unfold isReqAuthenticated
  dsimp only
  by_cases h1 : (reqSignatureV4Verify env r region stype).1 ≠ ErrNone
  · rw [if_pos h1]
    exact Or.inl rfl
  · rw [if_neg h1]
    cases env.FromContentMD5 r.Header with
    | error e => exact Or.inl rfl
    | ok clientETag =>
      dsimp only
      split
      · exact Or.inl rfl
      · split
        · exact Or.inl rfl
        · next reader hnew => exact Or.inr ⟨_, _, _, hnew, rfl⟩

/-- The body after the switch of `authenticateRequest` is the body of the
request, or the reader `hash.NewReader` built around it. -/
theorem authenticateSwitch_body (env : Env) (r : Request) (action : Action) :
    (authenticateSwitch env r action).2.1.Body = r.Body ∨
    ∃ md5Hex sha256Hex,
      env.NewReader r.Body (-1) md5Hex sha256Hex (-1) =
        .ok (authenticateSwitch env r action).2.1.Body := by
  have hb := getRequestAuthType_body env r
  unfold authenticateSwitch
  dsimp only
  generalize getRequestAuthType env r = a at hb ⊢
  obtain ⟨t, r1⟩ := a
  dsimp only at hb ⊢
  by_cases h1 : t = authTypeUnknown ∨ t = authTypeStreamingSigned
  · rw [if_pos h1]
    exact Or.inl hb
  · rw [if_neg h1]
    by_cases h2 : t = authTypePresignedV2 ∨ t = authTypeSignedV2
    · rw [if_pos h2]
      split_ifs <;> exact Or.inl hb
    · rw [if_neg h2]
      by_cases h3 : t = authTypeSigned ∨ t = authTypePresigned
      · rw [if_pos h3]
        generalize (if action = GetBucketLocationAction ∨ action = ListAllMyBucketsAction
          then "" else env.globalSiteRegion) = region
        have hq := isReqAuthenticated_request env r1 region env.serviceS3
        generalize isReqAuthenticated env r1 region env.serviceS3 = q at hq ⊢
        obtain ⟨⟨qe, qr⟩, qc⟩ := q
        dsimp only at hq ⊢
        have hres : qr.Body = r.Body ∨
            ∃ md5Hex sha256Hex, env.NewReader r.Body (-1) md5Hex sha256Hex (-1) = .ok qr.Body := by
          rcases hq with hq | ⟨m, s, reader, hnew, hq⟩
          · rw [hq]
            exact Or.inl hb
          · rw [hq]
            rw [hb] at hnew
            exact Or.inr ⟨m, s, hnew⟩
        split_ifs <;> exact hres
      · rw [if_neg h3]
        exact Or.inl hb

/-- A successful bounded read of a body yields its first bytes, when a
successful read of a `hash.Reader` does. -/
theorem readAllLimit_ok (env : Env) (body : Body) (n : Nat) (payload : List Nat)
    (hread : ∀ b k p, env.readHashReader b k = .ok p → p = b.data.take k)
    (h : readAllLimit env body n = .ok payload) : payload = body.data.take n := by
  cases body with
  | reader data =>
    unfold readAllLimit at h
    exact (Except.ok.inj h).symm
  | hashReader src size md5Hex sha256Hex actualSize =>
    unfold readAllLimit at h
    exact hread _ _ _ h

/-- C22: let a reader of `hash.NewReader` hold the bytes of the body it wraps
and a successful read of it yield its first bytes. With a request record, when
`authenticateRequest` admits a request with action CreateBucket, the body it
leaves is a fresh reader over the bytes that were buffered, the first
min(n, maxLocationConstraintSize) bytes of the n-byte body, so a body no
longer than the bound keeps its contents; for any other action, admitted or
not, the body left is the body of the request or the reader wrapped around
it, not read. -/
theorem authenticateRequest_createBucket_body (env : Env) (info : ReqInfo) (r : Request)
    (action : Action)
    (hnew : ∀ src size md5Hex sha256Hex actualSize reader,
      env.NewReader src size md5Hex sha256Hex actualSize = .ok reader → reader.data = src.data)
    (hread : ∀ b k p, env.readHashReader b k = .ok p → p = b.data.take k) :
    (action = CreateBucketAction →
      (authenticateRequest env (some info) r action).1.1 = ErrNone →
      (authenticateRequest env (some info) r action).1.2.2.Body =
        Body.reader (r.Body.data.take env.maxLocationConstraintSize) ∧
      (authenticateRequest env (some info) r action).1.2.2.Body.data.length =
        min env.maxLocationConstraintSize r.Body.data.length ∧
      (r.Body.data.length ≤ env.maxLocationConstraintSize →
        (authenticateRequest env (some info) r action).1.2.2.Body.data = r.Body.data)) ∧
    (action ≠ CreateBucketAction →
      (authenticateRequest env (some info) r action).1.2.2.Body = r.Body ∨
      ∃ md5Hex sha256Hex,
        env.NewReader r.Body (-1) md5Hex sha256Hex (-1) =
          .ok (authenticateRequest env (some info) r action).1.2.2.Body) := by
  have hb := authenticateSwitch_body env r action
  have hdata : (authenticateSwitch env r action).2.1.Body.data = r.Body.data := by
    rcases hb with hb | ⟨m, s, hb⟩
    · rw [hb]
    · exact hnew _ _ _ _ _ _ hb
  rw [authenticateRequest_eq_switch]
  generalize authenticateSwitch env r action = sw at hb hdata ⊢
  obtain ⟨⟨cred, owner, s3Err⟩, r1, calls⟩ := sw
  dsimp only at hb hdata ⊢
  by_cases h1 : s3Err = ErrNone
  · subst h1
    simp only [ne_eq, not_true_eq_false, if_false]
    constructor
    · intro ha
      subst ha
      simp only [if_true]
      cases hrd : readAllLimit env r1.Body env.maxLocationConstraintSize with
      | error e =>
        intro hok
        simp at hok
      | ok payload =>
        have hp := readAllLimit_ok env r1.Body _ payload hread hrd
        rw [hdata] at hp
        subst hp
        intro _
        dsimp only
        split_ifs <;>
          exact ⟨rfl, by simp [Body.data, List.length_take],
            fun hle => by simp [Body.data, List.take_of_length_le hle]⟩
    · intro ha
      simp only [ha, if_false]
      exact hb
  · simp only [ne_eq, h1, not_false_eq_true, if_true]
    exact ⟨fun _ hok => hok.elim, fun _ => hb⟩

/-- Witness of C22: an anonymous CreateBucket request with a body of six bytes
and a bound of four keeps the first four bytes. -/
theorem authenticateRequest_createBucket_body_witness :
    (authenticateRequest { sampleEnv with maxLocationConstraintSize := 4 }
      (some { Cred := Credentials.zero, Owner := false, Region := "", BucketName := "bucket",
              ObjectName := "" })
      { plainRequest with Method := "PUT", Body := Body.reader [60, 97, 47, 62, 10, 10] }
      CreateBucketAction).1.2.2.Body = Body.reader [60, 97, 47, 62] :=
  ((authenticateRequest_createBucket_body { sampleEnv with maxLocationConstraintSize := 4 }
    { Cred := Credentials.zero, Owner := false, Region := "", BucketName := "bucket",
      ObjectName := "" }
    { plainRequest with Method := "PUT", Body := Body.reader [60, 97, 47, 62, 10, 10] }
    CreateBucketAction
    (fun _ _ _ _ _ _ h => by cases h; rfl)
    (fun _ _ _ h => by cases h; rfl)).1 rfl (by decide)).1.trans (by decide)

/-- The switch of `authenticateRequest` on a request classified Unknown or
StreamingSigned. -/
theorem authenticateSwitch_unsupported (env : Env) (r : Request) (action : Action)
    (ht : (getRequestAuthType env r).1 = authTypeUnknown ∨
      (getRequestAuthType env r).1 = authTypeStreamingSigned) :
    authenticateSwitch env r action =
      ((Credentials.zero, false, ErrSignatureVersionNotSupported),
        (getRequestAuthType env r).2, []) := by
  unfold authenticateSwitch
  dsimp only
  generalize getRequestAuthType env r = a at ht ⊢
  obtain ⟨t, r1⟩ := a
  dsimp only at ht ⊢
  rcases ht with ht | ht <;> subst ht <;> simp

/-- The switch of `authenticateRequest` on a request classified Anonymous,
JWT, STS or PostPolicy. -/
theorem authenticateSwitch_unsigned (env : Env) (r : Request) (action : Action)
    (ht : (getRequestAuthType env r).1 = authTypeAnonymous ∨
      (getRequestAuthType env r).1 = authTypeJWT ∨
      (getRequestAuthType env r).1 = authTypeSTS ∨
      (getRequestAuthType env r).1 = authTypePostPolicy) :
    authenticateSwitch env r action =
      ((Credentials.zero, false, ErrNone), (getRequestAuthType env r).2, []) := by
  unfold authenticateSwitch
  dsimp only
  generalize getRequestAuthType env r = a at ht ⊢
  obtain ⟨t, r1⟩ := a
  dsimp only at ht ⊢
  rcases ht with ht | ht | ht | ht <;> subst ht <;> simp

/-- The function `isPutActionAllowed` in terms of its switch. -/
theorem isPutActionAllowed_eq_switch (env : Env) (reqInfo : ReqInfo) (atype : authType)
    (bucketName objectName : String) (r : Request) (action : Action)
    (hu : atype ≠ authTypeUnknown) :
    isPutActionAllowed env reqInfo atype bucketName objectName r action =
      if (putActionSwitch env atype r).1.2.2 ≠ ErrNone then
        (((putActionSwitch env atype r).1.2.2, reqInfo), (putActionSwitch env atype r).2)
      else if action = PutObjectRetentionAction ∧ r.Header.Get env.AmzObjectLockMode = "" ∧
          r.Header.Get env.AmzObjectLockRetainUntilDate = "" then
        ((ErrNone,
          { reqInfo with
            Cred := (putActionSwitch env atype r).1.1
            Owner := (putActionSwitch env atype r).1.2.1
            Region := env.globalSiteRegion }), (putActionSwitch env atype r).2)
      else if (putActionSwitch env atype r).1.1.AccessKey = "" then
        ((if env.globalPolicySysIsAllowed
              { AccountName := (putActionSwitch env atype r).1.1.AccessKey
                Groups := (putActionSwitch env atype r).1.1.Groups
                Action := action
                BucketName := bucketName
                ConditionValues := env.getConditionValues r "" "" []
                IsOwner := false
                ObjectName := objectName } = true then ErrNone else ErrAccessDenied,
          { reqInfo with
            Cred := (putActionSwitch env atype r).1.1
            Owner := (putActionSwitch env atype r).1.2.1
            Region := env.globalSiteRegion }),
          (putActionSwitch env atype r).2 ++
            [Call.globalPolicySysIsAllowed
              { AccountName := (putActionSwitch env atype r).1.1.AccessKey
                Groups := (putActionSwitch env atype r).1.1.Groups
                Action := action
                BucketName := bucketName
                ConditionValues := env.getConditionValues r "" "" []
                IsOwner := false
                ObjectName := objectName }])
      else
        ((if env.globalIAMSysIsAllowed
              { AccountName := (putActionSwitch env atype r).1.1.AccessKey
                Groups := (putActionSwitch env atype r).1.1.Groups
                Action := action
                BucketName := bucketName
                ConditionValues := env.getConditionValues r ""
                  (putActionSwitch env atype r).1.1.AccessKey
                  (putActionSwitch env atype r).1.1.Claims
                IsOwner := (putActionSwitch env atype r).1.2.1
                ObjectName := objectName
                Claims := (putActionSwitch env atype r).1.1.Claims } = true then ErrNone
            else ErrAccessDenied,
          { reqInfo with
            Cred := (putActionSwitch env atype r).1.1
            Owner := (putActionSwitch env atype r).1.2.1
            Region := env.globalSiteRegion }),
          (putActionSwitch env atype r).2 ++
            [Call.globalIAMSysIsAllowed
              { AccountName := (putActionSwitch env atype r).1.1.AccessKey
                Groups := (putActionSwitch env atype r).1.1.Groups
                Action := action
                BucketName := bucketName
                ConditionValues := env.getConditionValues r ""
                  (putActionSwitch env atype r).1.1.AccessKey
                  (putActionSwitch env atype r).1.1.Claims
                IsOwner := (putActionSwitch env atype r).1.2.1
                ObjectName := objectName
                Claims := (putActionSwitch env atype r).1.1.Claims }]) := by
  have hs : (if atype = authTypeSignedV2 ∨ atype = authTypePresignedV2 then
        (env.getReqAccessKeyV2 r, [Call.getReqAccessKeyV2 r])
      else if atype = authTypeStreamingSigned ∨ atype = authTypePresigned ∨
          atype = authTypeSigned then
        (env.getReqAccessKeyV4 r env.globalSiteRegion env.serviceS3,
          [Call.getReqAccessKeyV4 r env.globalSiteRegion env.serviceS3])
      else ((Credentials.zero, false, ErrNone), [])) = putActionSwitch env atype r := rfl
  unfold isPutActionAllowed
  dsimp only
  rw [if_neg hu, hs]
  generalize putActionSwitch env atype r = sw
  split_ifs <;> rfl

/-- The calls of the switch of `isPutActionAllowed` are key extractions. -/
theorem putActionSwitch_calls (env : Env) (atype : authType) (r : Request) :
    ∀ c ∈ (putActionSwitch env atype r).2, c.isPolicy = false ∧ c.isVerifier = false := by
  intro c hc
  unfold putActionSwitch at hc
  split_ifs at hc <;> simp at hc <;> subst hc <;> exact ⟨rfl, rfl⟩

/-- C23: for an auth type other than Unknown whose key extraction succeeds,
`isPutActionAllowed` with the action PutObjectRetention and both the
x-amz-object-lock-mode and the x-amz-object-lock-retain-until-date header
empty or absent returns ErrNone without any evaluation of the bucket policy
or of the identity policy, whatever the extracted credential is (an empty one
included); when the short-circuit does not apply, a policy is evaluated. -/
theorem isPutActionAllowed_retention_shortcut (env : Env) (reqInfo : ReqInfo)
    (atype : authType) (bucketName objectName : String) (r : Request) (action : Action)
    (hu : atype ≠ authTypeUnknown) (hext : (putActionSwitch env atype r).1.2.2 = ErrNone) :
    ((action = PutObjectRetentionAction ∧ r.Header.Get env.AmzObjectLockMode = "" ∧
        r.Header.Get env.AmzObjectLockRetainUntilDate = "") →
      (isPutActionAllowed env reqInfo atype bucketName objectName r action).1.1 = ErrNone ∧
      ∀ c ∈ (isPutActionAllowed env reqInfo atype bucketName objectName r action).2,
        c.isPolicy = false) ∧
    (¬(action = PutObjectRetentionAction ∧ r.Header.Get env.AmzObjectLockMode = "" ∧
        r.Header.Get env.AmzObjectLockRetainUntilDate = "") →
      ∃ c ∈ (isPutActionAllowed env reqInfo atype bucketName objectName r action).2,
        c.isPolicy = true) := by
  have hcalls := putActionSwitch_calls env atype r
  rw [isPutActionAllowed_eq_switch env reqInfo atype bucketName objectName r action hu]
  generalize putActionSwitch env atype r = sw at hext hcalls ⊢
  obtain ⟨⟨cred, owner, s3Err⟩, calls⟩ := sw
  dsimp only at hext hcalls ⊢
  subst hext
  constructor
  · intro hs
    rw [if_neg (by simp), if_pos hs]
    exact ⟨rfl, fun c hc => (hcalls c hc).1⟩
  · intro hs
    rw [if_neg (by simp), if_neg hs]
    split_ifs <;> exact ⟨_, List.mem_append_right _ (List.mem_singleton_self _), rfl⟩

/-- Witness of C23: an anonymous PutObjectRetention request without the two
headers is let through although every policy denies. -/
theorem isPutActionAllowed_retention_shortcut_witness :
    (isPutActionAllowed sampleEnv
      { Cred := Credentials.zero, Owner := false, Region := "", BucketName := "bucket",
        ObjectName := "object" }
      authTypeAnonymous "bucket" "object" plainRequest PutObjectRetentionAction).1.1 = ErrNone ∧
    ∃ c ∈ (isPutActionAllowed sampleEnv
        { Cred := Credentials.zero, Owner := false, Region := "", BucketName := "bucket",
          ObjectName := "object" }
        authTypeAnonymous "bucket" "object"
        { plainRequest with Header := [("X-Amz-Object-Lock-Mode", ["GOVERNANCE"])] }
        PutObjectRetentionAction).2, c.isPolicy = true :=
  ⟨((isPutActionAllowed_retention_shortcut sampleEnv
      { Cred := Credentials.zero, Owner := false, Region := "", BucketName := "bucket",
        ObjectName := "object" }
      authTypeAnonymous "bucket" "object" plainRequest PutObjectRetentionAction
      (by decide) (by decide)).1 (by decide)).1,
    (isPutActionAllowed_retention_shortcut sampleEnv
      { Cred := Credentials.zero, Owner := false, Region := "", BucketName := "bucket",
        ObjectName := "object" }
      authTypeAnonymous "bucket" "object"
      { plainRequest with Header := [("X-Amz-Object-Lock-Mode", ["GOVERNANCE"])] }
      PutObjectRetentionAction (by decide) (by decide)).2 (by decide)⟩

/-- Counterexample to C24: four requests for which key extraction succeeds and
the retention short-circuit does not apply, on which `isPutActionAllowed` and
`authorizeRequest` with the same credential, owner flag, action, bucket and
object disagree. An anonymous ListBucketVersions under a bucket policy that
allows ListBucket only is denied by the first and admitted by the fallback of
the second. An anonymous ListAllMyBuckets under a bucket policy that allows
everything and an identity policy that allows nothing is admitted by the
first, which asks the bucket policy, and denied by the second. A credential
with an empty access key and a group, under a bucket policy that allows
members of a group only, is admitted by the first, which passes the groups,
and denied by the second. An anonymous PutObject for a record with a region,
under a bucket policy that allows that region only, is denied by the first,
which passes an empty region, and admitted by the second. -/
theorem isPutActionAllowed_authorizeRequest_counterexample :
    ((isPutActionAllowed
        { sampleEnv with
          globalPolicySysIsAllowed := fun a => decide (a.Action = ListBucketAction) }
        { Cred := Credentials.zero, Owner := false, Region := "", BucketName := "bucket",
          ObjectName := "object" }
        authTypeAnonymous "bucket" "object" plainRequest ListBucketVersionsAction).1.1
        = ErrAccessDenied ∧
      (authorizeRequest
        { sampleEnv with
          globalPolicySysIsAllowed := fun a => decide (a.Action = ListBucketAction) }
        (some { Cred := Credentials.zero, Owner := false, Region := "", BucketName := "bucket",
                ObjectName := "object" })
        plainRequest ListBucketVersionsAction).1 = ErrNone) ∧
    ((isPutActionAllowed { sampleEnv with globalPolicySysIsAllowed := fun _ => true }
        { Cred := Credentials.zero, Owner := false, Region := "", BucketName := "bucket",
          ObjectName := "object" }
        authTypeAnonymous "bucket" "object" plainRequest ListAllMyBucketsAction).1.1
        = ErrNone ∧
      (authorizeRequest { sampleEnv with globalPolicySysIsAllowed := fun _ => true }
        (some { Cred := Credentials.zero, Owner := false, Region := "", BucketName := "bucket",
                ObjectName := "object" })
        plainRequest ListAllMyBucketsAction).1 = ErrAccessDenied) ∧
    ((putActionSwitch
        { sampleEnv with
          getReqAccessKeyV4 := fun _ _ _ =>
            ({ Credentials.zero with Groups := ["staff"] }, false, ErrNone)
          globalPolicySysIsAllowed := fun a => decide (a.Groups ≠ []) }
        authTypeSigned plainRequest).1 =
        ({ Credentials.zero with Groups := ["staff"] }, false, ErrNone) ∧
      (isPutActionAllowed
        { sampleEnv with
          getReqAccessKeyV4 := fun _ _ _ =>
            ({ Credentials.zero with Groups := ["staff"] }, false, ErrNone)
          globalPolicySysIsAllowed := fun a => decide (a.Groups ≠ []) }
        { Cred := Credentials.zero, Owner := false, Region := "", BucketName := "bucket",
          ObjectName := "object" }
        authTypeSigned "bucket" "object" plainRequest "s3:PutObject").1.1 = ErrNone ∧
      (authorizeRequest
        { sampleEnv with
          getReqAccessKeyV4 := fun _ _ _ =>
            ({ Credentials.zero with Groups := ["staff"] }, false, ErrNone)
          globalPolicySysIsAllowed := fun a => decide (a.Groups ≠ []) }
        (some { Cred := { Credentials.zero with Groups := ["staff"] }, Owner := false,
                Region := "", BucketName := "bucket", ObjectName := "object" })
        plainRequest "s3:PutObject").1 = ErrAccessDenied) ∧
    ((isPutActionAllowed
        { sampleEnv with
          getConditionValues := fun _ region _ _ => [("LocationConstraint", [region])]
          globalPolicySysIsAllowed := fun a =>
            decide (a.ConditionValues.Get "LocationConstraint" = "eu-west-1") }
        { Cred := Credentials.zero, Owner := false, Region := "eu-west-1",
          BucketName := "bucket", ObjectName := "object" }
        authTypeAnonymous "bucket" "object" plainRequest "s3:PutObject").1.1
        = ErrAccessDenied ∧
      (authorizeRequest
        { sampleEnv with
          getConditionValues := fun _ region _ _ => [("LocationConstraint", [region])]
          globalPolicySysIsAllowed := fun a =>
            decide (a.ConditionValues.Get "LocationConstraint" = "eu-west-1") }
        (some { Cred := Credentials.zero, Owner := false, Region := "eu-west-1",
                BucketName := "bucket", ObjectName := "object" })
        plainRequest "s3:PutObject").1 = ErrNone) := by
  decide

/-- C24, amended: for an auth type other than Unknown whose key extraction
succeeds, when the retention short-circuit does not apply,
`isPutActionAllowed` makes one policy evaluation after the key extraction, of
the action itself, and returns ErrNone when it allows and AccessDenied
otherwise: for an empty access key, ListAllMyBuckets included, an evaluation
of the bucket policy with the groups of the credential and the condition
values of an empty region, otherwise an evaluation of the identity policy;
there is no second evaluation for ListBucketVersions. The code and the policy
calls are those of `authorizeRequest` on a request record with the extracted
credential and owner flag, the bucket and the object, when the action is not
ListBucketVersions and, in case the access key is empty, the action is not
ListAllMyBuckets, the credential has no groups and the region of the record is
empty. -/
theorem isPutActionAllowed_eq_authorizeRequest (env : Env) (reqInfo : ReqInfo)
    (atype : authType) (bucketName objectName region : String) (r : Request)
    (action : Action)
    (hu : atype ≠ authTypeUnknown) (hext : (putActionSwitch env atype r).1.2.2 = ErrNone)
    (hshort : ¬(action = PutObjectRetentionAction ∧ r.Header.Get env.AmzObjectLockMode = "" ∧
        r.Header.Get env.AmzObjectLockRetainUntilDate = "")) :
    ((putActionSwitch env atype r).1.1.AccessKey = "" →
      isPutActionAllowed env reqInfo atype bucketName objectName r action =
        ((if env.globalPolicySysIsAllowed
              { AccountName := ""
                Groups := (putActionSwitch env atype r).1.1.Groups
                Action := action
                BucketName := bucketName
                ConditionValues := env.getConditionValues r "" "" []
                IsOwner := false
                ObjectName := objectName } = true then ErrNone else ErrAccessDenied,
          { reqInfo with
            Cred := (putActionSwitch env atype r).1.1
            Owner := (putActionSwitch env atype r).1.2.1
            Region := env.globalSiteRegion }),
          (putActionSwitch env atype r).2 ++
            [Call.globalPolicySysIsAllowed
              { AccountName := ""
                Groups := (putActionSwitch env atype r).1.1.Groups
                Action := action
                BucketName := bucketName
                ConditionValues := env.getConditionValues r "" "" []
                IsOwner := false
                ObjectName := objectName }])) ∧
    ((putActionSwitch env atype r).1.1.AccessKey ≠ "" →
      isPutActionAllowed env reqInfo atype bucketName objectName r action =
        ((if env.globalIAMSysIsAllowed
              { AccountName := (putActionSwitch env atype r).1.1.AccessKey
                Groups := (putActionSwitch env atype r).1.1.Groups
                Action := action
                BucketName := bucketName
                ConditionValues := env.getConditionValues r ""
                  (putActionSwitch env atype r).1.1.AccessKey
                  (putActionSwitch env atype r).1.1.Claims
                IsOwner := (putActionSwitch env atype r).1.2.1
                ObjectName := objectName
                Claims := (putActionSwitch env atype r).1.1.Claims } = true then ErrNone
            else ErrAccessDenied,
          { reqInfo with
            Cred := (putActionSwitch env atype r).1.1
            Owner := (putActionSwitch env atype r).1.2.1
            Region := env.globalSiteRegion }),
          (putActionSwitch env atype r).2 ++
            [Call.globalIAMSysIsAllowed
              { AccountName := (putActionSwitch env atype r).1.1.AccessKey
                Groups := (putActionSwitch env atype r).1.1.Groups
                Action := action
                BucketName := bucketName
                ConditionValues := env.getConditionValues r ""
                  (putActionSwitch env atype r).1.1.AccessKey
                  (putActionSwitch env atype r).1.1.Claims
                IsOwner := (putActionSwitch env atype r).1.2.1
                ObjectName := objectName
                Claims := (putActionSwitch env atype r).1.1.Claims }])) ∧
    (action ≠ ListBucketVersionsAction →
      ((putActionSwitch env atype r).1.1.AccessKey = "" →
        action ≠ ListAllMyBucketsAction ∧ (putActionSwitch env atype r).1.1.Groups = [] ∧
          region = "") →
      (isPutActionAllowed env reqInfo atype bucketName objectName r action).1.1 =
        (authorizeRequest env
          (some { Cred := (putActionSwitch env atype r).1.1
                  Owner := (putActionSwitch env atype r).1.2.1
                  Region := region
                  BucketName := bucketName
                  ObjectName := objectName }) r action).1 ∧
      (isPutActionAllowed env reqInfo atype bucketName objectName r action).2 =
        (putActionSwitch env atype r).2 ++
          (authorizeRequest env
            (some { Cred := (putActionSwitch env atype r).1.1
                    Owner := (putActionSwitch env atype r).1.2.1
                    Region := region
                    BucketName := bucketName
                    ObjectName := objectName }) r action).2) := by
  rw [isPutActionAllowed_eq_switch env reqInfo atype bucketName objectName r action hu]
  generalize putActionSwitch env atype r = sw at hext ⊢
  obtain ⟨⟨cred, owner, s3Err⟩, calls⟩ := sw
  dsimp only at hext ⊢
  subst hext
  rw [if_neg (by simp), if_neg hshort]
  refine ⟨?_, ?_, ?_⟩
  · intro hkey
    rw [if_pos hkey, hkey]
  · intro hkey
    rw [if_neg hkey]
  · intro hlv hanon
    unfold authorizeRequest
    dsimp only
    by_cases hkey : cred.AccessKey = ""
    · obtain ⟨hla, hgroups, hregion⟩ := hanon hkey
      have hc : action ≠ ListAllMyBucketsAction ∧ cred.AccessKey = "" := ⟨hla, hkey⟩
      rw [if_pos hkey, if_pos hc, hgroups, hregion, if_neg hlv]
      split_ifs <;> exact ⟨rfl, rfl⟩
    · have hc : ¬(action ≠ ListAllMyBucketsAction ∧ cred.AccessKey = "") := fun h => hkey h.2
      rw [if_neg hkey, if_neg hc, if_neg hlv]
      split_ifs <;> exact ⟨rfl, rfl⟩

/-- Witness of C24: an anonymous PutObject request under a bucket policy that
allows PutObject gets ErrNone from both functions, after one evaluation of
the bucket policy. -/
theorem isPutActionAllowed_eq_authorizeRequest_witness :
    (isPutActionAllowed
      { sampleEnv with globalPolicySysIsAllowed := fun a => decide (a.Action = "s3:PutObject") }
      { Cred := Credentials.zero, Owner := false, Region := "", BucketName := "bucket",
        ObjectName := "object" }
      authTypeAnonymous "bucket" "object" plainRequest "s3:PutObject").1.1 = ErrNone ∧
    (authorizeRequest
      { sampleEnv with globalPolicySysIsAllowed := fun a => decide (a.Action = "s3:PutObject") }
      (some { Cred := Credentials.zero, Owner := false, Region := "", BucketName := "bucket",
              ObjectName := "object" })
      plainRequest "s3:PutObject").1 = ErrNone :=
  ⟨by decide,
    ((isPutActionAllowed_eq_authorizeRequest
      { sampleEnv with globalPolicySysIsAllowed := fun a => decide (a.Action = "s3:PutObject") }
      { Cred := Credentials.zero, Owner := false, Region := "", BucketName := "bucket",
        ObjectName := "object" }
      authTypeAnonymous "bucket" "object" "" plainRequest "s3:PutObject"
      (by decide) (by decide) (by decide)).2.2 (by decide)
      (fun _ => ⟨by decide, rfl, rfl⟩)).1.symm.trans (by decide)⟩

/-- C25: with a request record, for auth type Unknown `isPutActionAllowed`
returns SignatureVersionNotSupported and makes no call at all, so it extracts
no credential and evaluates no policy; `authenticateRequest` on a request
classified Unknown or StreamingSigned, and `validateSignature` for these two
types, return SignatureVersionNotSupported and make no call either, so they
invoke no verifier. -/
theorem unknown_type_not_supported (env : Env) :
    (∀ (reqInfo : ReqInfo) (bucketName objectName : String) (r : Request) (action : Action),
      isPutActionAllowed env reqInfo authTypeUnknown bucketName objectName r action =
        ((ErrSignatureVersionNotSupported, reqInfo), [])) ∧
    (∀ (info : ReqInfo) (r : Request) (action : Action),
      ((getRequestAuthType env r).1 = authTypeUnknown ∨
        (getRequestAuthType env r).1 = authTypeStreamingSigned) →
      authenticateRequest env (some info) r action =
        ((ErrSignatureVersionNotSupported, some info, (getRequestAuthType env r).2), [])) ∧
    (∀ (atype : authType) (r : Request),
      (atype = authTypeUnknown ∨ atype = authTypeStreamingSigned) →
      validateSignature env atype r =
        (((Credentials.zero, false, ErrSignatureVersionNotSupported), r), [])) := by
  refine ⟨?_, ?_, ?_⟩
  · intro reqInfo bucketName objectName r action
    unfold isPutActionAllowed
    simp
  · intro info r action ht
    have hsw := authenticateSwitch_unsupported env r action ht
    have hne : (authenticateSwitch env r action).1.2.2 ≠ ErrNone := by rw [hsw]; simp
    rw [(authenticateRequest_of_switch env info r action).2.1 hne, hsw]
  · intro atype r ht
    unfold validateSignature
    rw [if_pos ht]

/-- Witness of C25: a request with an Authorization header of no known scheme
is classified Unknown and refused; so is a streaming-signed PUT. -/
theorem unknown_type_not_supported_witness :
    (authenticateRequest sampleEnv
      (some { Cred := Credentials.zero, Owner := false, Region := "", BucketName := "bucket",
              ObjectName := "object" })
      { plainRequest with Header := [("Authorization", ["Basic dXNlcg=="])] }
      "s3:GetObject").1.1 = ErrSignatureVersionNotSupported ∧
    (authenticateRequest sampleEnv
      (some { Cred := Credentials.zero, Owner := false, Region := "", BucketName := "bucket",
              ObjectName := "object" })
      { plainRequest with
        Method := "PUT"
        Header := [("X-Amz-Content-Sha256", ["STREAMING-AWS4-HMAC-SHA256-PAYLOAD"])] }
      "s3:PutObject").2 = [] :=
  ⟨congrArg (fun x => x.1.1)
      ((unknown_type_not_supported sampleEnv).2.1
        { Cred := Credentials.zero, Owner := false, Region := "", BucketName := "bucket",
          ObjectName := "object" }
        { plainRequest with Header := [("Authorization", ["Basic dXNlcg=="])] }
        "s3:GetObject" (Or.inl (by decide))),
    congrArg Prod.snd
      ((unknown_type_not_supported sampleEnv).2.1
        { Cred := Credentials.zero, Owner := false, Region := "", BucketName := "bucket",
          ObjectName := "object" }
        { plainRequest with
          Method := "PUT"
          Header := [("X-Amz-Content-Sha256", ["STREAMING-AWS4-HMAC-SHA256-PAYLOAD"])] }
        "s3:PutObject" (Or.inr (by decide)))⟩

/-- C26: with an empty access key `isPutRetentionAllowed` returns
AccessDenied and evaluates no policy, whatever the retention mode, the bypass
flag and the policies are. -/
theorem isPutRetentionAllowed_empty_key (env : Env) (bucketName objectName : String)
    (retDays : Int) (retDate : Time) (retMode : RetMode) (byPassSet : Bool) (r : Request)
    (cred : Credentials) (owner : Bool) (hkey : cred.AccessKey = "") :
    isPutRetentionAllowed env bucketName objectName retDays retDate retMode byPassSet r
      cred owner = (ErrAccessDenied, []) := by
  simp [isPutRetentionAllowed, hkey]

/-- Witness of C26: mode Governance, the bypass flag set and an identity
policy that allows everything. -/
theorem isPutRetentionAllowed_empty_key_witness :
    isPutRetentionAllowed { sampleEnv with globalIAMSysIsAllowed := fun _ => true }
      "bucket" "object" 1 0 RetGovernance true plainRequest Credentials.zero true
      = (ErrAccessDenied, []) :=
  isPutRetentionAllowed_empty_key { sampleEnv with globalIAMSysIsAllowed := fun _ => true }
    "bucket" "object" 1 0 RetGovernance true plainRequest Credentials.zero true rfl

/-- Counterexample to C27: a request classified SignedV2 that carries an
x-amz-content-sha256 header, whose V2 signature verifies, whose access key is
extracted and whose identity policy allows every action, is refused by
`checkAdminRequestAuth` with AccessDenied. -/
theorem checkAdminRequestAuth_signedV2_counterexample :
    (getRequestAuthType
      { sampleEnv with
        doesSignV2Match := fun _ => ErrNone
        getReqAccessKeyV2 := fun _ =>
          ({ Credentials.zero with AccessKey := "admin" }, true, ErrNone)
        globalIAMSysIsAllowed := fun _ => true }
      { plainRequest with
        Header := [("Authorization", ["AWS admin:c2lnbmF0dXJl"]),
                   ("X-Amz-Content-Sha256", ["UNSIGNED-PAYLOAD"])] }).1 = authTypeSignedV2 ∧
    (isReqAuthenticatedV2
      { sampleEnv with
        doesSignV2Match := fun _ => ErrNone
        getReqAccessKeyV2 := fun _ =>
          ({ Credentials.zero with AccessKey := "admin" }, true, ErrNone)
        globalIAMSysIsAllowed := fun _ => true }
      { plainRequest with
        Header := [("Authorization", ["AWS admin:c2lnbmF0dXJl"]),
                   ("X-Amz-Content-Sha256", ["UNSIGNED-PAYLOAD"])] }).1 = ErrNone ∧
    (checkAdminRequestAuth
      { sampleEnv with
        doesSignV2Match := fun _ => ErrNone
        getReqAccessKeyV2 := fun _ =>
          ({ Credentials.zero with AccessKey := "admin" }, true, ErrNone)
        globalIAMSysIsAllowed := fun _ => true }
      { plainRequest with
        Header := [("Authorization", ["AWS admin:c2lnbmF0dXJl"]),
                   ("X-Amz-Content-Sha256", ["UNSIGNED-PAYLOAD"])] }
      "admin:ServerInfo" "").1.2.1 = ErrAccessDenied := by
  decide

/-- C27, amended: `checkAdminRequestAuth` admits V4-signed requests only. It
returns ErrNone exactly when the request carries an x-amz-content-sha256
header, is classified Signed, its access key is extracted, `isReqAuthenticated`
accepts it and the identity policy allows the admin action for the extracted
credential; so a request classified SignedV2, like a Presigned, JWT or
anonymous one, is not admitted. -/
theorem checkAdminRequestAuth_admits_iff (env : Env) (r : Request) (action : Action)
    (region : String) :
    ((checkAdminRequestAuth env r action region).1.2.1 = ErrNone ↔
      (r.Header.has env.AmzContentSha256 = true ∧
        (getRequestAuthType env r).1 = authTypeSigned ∧
        (env.getReqAccessKeyV4 (getRequestAuthType env r).2 region env.serviceS3).2.2
          = ErrNone ∧
        (isReqAuthenticated env (getRequestAuthType env r).2 region env.serviceS3).1.1
          = ErrNone ∧
        env.globalIAMSysIsAllowed
          { AccountName :=
              (env.getReqAccessKeyV4 (getRequestAuthType env r).2 region
                env.serviceS3).1.AccessKey
            Groups :=
              (env.getReqAccessKeyV4 (getRequestAuthType env r).2 region env.serviceS3).1.Groups
            Action := action
            BucketName := ""
            ConditionValues :=
              env.getConditionValues
                (isReqAuthenticated env (getRequestAuthType env r).2 region env.serviceS3).1.2
                ""
                (env.getReqAccessKeyV4 (getRequestAuthType env r).2 region
                  env.serviceS3).1.AccessKey
                (env.getReqAccessKeyV4 (getRequestAuthType env r).2 region
                  env.serviceS3).1.Claims
            IsOwner :=
              (env.getReqAccessKeyV4 (getRequestAuthType env r).2 region env.serviceS3).2.1
            ObjectName := ""
            Claims :=
              (env.getReqAccessKeyV4 (getRequestAuthType env r).2 region
                env.serviceS3).1.Claims } = true)) ∧
    ((getRequestAuthType env r).1 ≠ authTypeSigned →
      (checkAdminRequestAuth env r action region).1.2.1 = ErrAccessDenied) := by
  unfold checkAdminRequestAuth validateAdminSignature
  by_cases hh : r.Header.has env.AmzContentSha256 = true
  · simp only [hh, if_true]
    generalize getRequestAuthType env r = a
    obtain ⟨t, r1⟩ := a
    dsimp only
    by_cases ht : t = authTypeSigned
    · subst ht
      simp only [if_true, true_and]
      generalize env.getReqAccessKeyV4 r1 region env.serviceS3 = k
      obtain ⟨cred, owner, e⟩ := k
      generalize isReqAuthenticated env r1 region env.serviceS3 = q
      obtain ⟨⟨qe, qr⟩, qc⟩ := q
      dsimp only
      by_cases he : e = ErrNone
      · subst he
        by_cases hq : qe = ErrNone
        · subst hq
          simp
          split_ifs <;> simp_all
        · simp [hq]
      · simp [he]
    · simp [ht]
  · simp [hh]

/-- Witness of C27: a V4-signed admin request with an x-amz-content-sha256
header, a signature that verifies and an allowing identity policy is
admitted. -/
theorem checkAdminRequestAuth_admits_iff_witness :
    (getRequestAuthType
      { sampleEnv with
        doesSignatureMatch := fun _ _ _ _ => ErrNone
        getReqAccessKeyV4 := fun _ _ _ =>
          ({ Credentials.zero with AccessKey := "admin" }, true, ErrNone)
        globalIAMSysIsAllowed := fun _ => true }
      { plainRequest with
        Header := [("Authorization", ["AWS4-HMAC-SHA256 Credential=admin"]),
                   ("X-Amz-Content-Sha256",
                    ["e3b0c44298fc1c149afbf4c8996fb92427ae41e4649b934ca495991b7852b855"])] }).1 = authTypeSigned ∧
    (checkAdminRequestAuth
      { sampleEnv with
        doesSignatureMatch := fun _ _ _ _ => ErrNone
        getReqAccessKeyV4 := fun _ _ _ =>
          ({ Credentials.zero with AccessKey := "admin" }, true, ErrNone)
        globalIAMSysIsAllowed := fun _ => true }
      { plainRequest with
        Header := [("Authorization", ["AWS4-HMAC-SHA256 Credential=admin"]),
                   ("X-Amz-Content-Sha256",
                    ["e3b0c44298fc1c149afbf4c8996fb92427ae41e4649b934ca495991b7852b855"])] }
      "admin:ServerInfo" "").1.2.1 = ErrNone :=
  ⟨by decide,
    (checkAdminRequestAuth_admits_iff
      { sampleEnv with
        doesSignatureMatch := fun _ _ _ _ => ErrNone
        getReqAccessKeyV4 := fun _ _ _ =>
          ({ Credentials.zero with AccessKey := "admin" }, true, ErrNone)
        globalIAMSysIsAllowed := fun _ => true }
      { plainRequest with
        Header := [("Authorization", ["AWS4-HMAC-SHA256 Credential=admin"]),
                   ("X-Amz-Content-Sha256",
                    ["e3b0c44298fc1c149afbf4c8996fb92427ae41e4649b934ca495991b7852b855"])] }
      "admin:ServerInfo" "").1.2 (by decide)⟩

/-- Appending the images of the elements that pass a test, one element at a
time, appends the images of the filtered list. -/
theorem foldl_append_filter_map {α β : Type} (p : α → Bool) (f : α → β) (l : List α)
    (init : List β) :
    l.foldl (fun acc v => if p v = true then acc ++ [f v] else acc) init =
      init ++ (l.filter p).map f := by
  induction l generalizing init with
  | nil => simp
  | cons a l ih =>
    rw [List.foldl_cons, ih]
    by_cases h : p a = true
    · simp [h]
    · simp [h]

/-- C28: `getMissingSiteNames` returns, in the order of the current sites,
the names of exactly those current sites whose deployment ID is in the old set
and not in the new set; it returns no name when the new set contains the old
set, and none when there are no current sites. -/
theorem getMissingSiteNames_spec (oldDeps newDeps : List String) (currSites : List PeerInfo) :
    getMissingSiteNames oldDeps newDeps currSites =
      (currSites.filter
        (fun s => decide (s.DeploymentID ∈ oldDeps ∧ s.DeploymentID ∉ newDeps))).map
        (fun s => s.Name) ∧
    ((∀ d ∈ oldDeps, d ∈ newDeps) → getMissingSiteNames oldDeps newDeps currSites = []) ∧
    getMissingSiteNames oldDeps newDeps [] = [] := by
  have heq : getMissingSiteNames oldDeps newDeps currSites =
      (currSites.filter
        (fun s => decide (s.DeploymentID ∈ oldDeps ∧ s.DeploymentID ∉ newDeps))).map
        (fun s => s.Name) := by
    unfold getMissingSiteNames
    dsimp only
    rw [foldl_append_filter_map
      (fun v => (oldDeps.filter (fun d => !newDeps.contains d)).contains v.DeploymentID)
      (fun v => v.Name) currSites []]
    rw [List.nil_append]
    congr 1
    apply List.filter_congr
    intro s _
    simp [List.mem_filter]
  refine ⟨heq, ?_, rfl⟩
  intro hsub
  rw [heq, List.map_eq_nil_iff, List.filter_eq_nil_iff]
  intro s _
  simp only [decide_eq_true_eq, not_and, not_not]
  exact hsub _

/-- Witness of C28: the three cases of `TestGetMissingSiteNames`. -/
theorem getMissingSiteNames_spec_witness :
    getMissingSiteNames ["dep1", "dep2", "dep3"] ["dep1"]
      [{ Endpoint := "b33s1:9000", Name := "b33s1", DeploymentID := "dep1" },
       { Endpoint := "b33s2:9000", Name := "b33s2", DeploymentID := "dep2" },
       { Endpoint := "b33s3:9000", Name := "b33s3", DeploymentID := "dep3" }]
      = ["b33s2", "b33s3"] ∧
    getMissingSiteNames ["dep1", "dep2", "dep3"] ["dep1", "dep2", "dep3", "dep4"]
      [{ Endpoint := "b33s1:9000", Name := "b33s1", DeploymentID := "dep1" },
       { Endpoint := "b33s2:9000", Name := "b33s2", DeploymentID := "dep2" },
       { Endpoint := "b33s3:9000", Name := "b33s3", DeploymentID := "dep3" }] = [] ∧
    getMissingSiteNames [] ["dep1", "dep2", "dep3", "dep4"] [] = [] :=
  ⟨by decide,
    (getMissingSiteNames_spec ["dep1", "dep2", "dep3"] ["dep1", "dep2", "dep3", "dep4"]
      [{ Endpoint := "b33s1:9000", Name := "b33s1", DeploymentID := "dep1" },
       { Endpoint := "b33s2:9000", Name := "b33s2", DeploymentID := "dep2" },
       { Endpoint := "b33s3:9000", Name := "b33s3", DeploymentID := "dep3" }]).2.1
      (by decide),
    (getMissingSiteNames_spec [] ["dep1", "dep2", "dep3", "dep4"] []).2.2⟩

/-- C29: with a request record, for a request classified Anonymous, JWT, STS
or PostPolicy and an action other than CreateBucket, `authenticateRequest`
makes no call, so invokes no signature verifier, and returns ErrNone leaving
the empty credential and owner = false in the record;
`checkRequestAuthTypeCredential` then returns the empty credential,
owner = false and the code and calls of `authorizeRequest` for the empty
credential, as for an anonymous request; `validateSignature` returns the
empty credential, owner = false and ErrNone for these four types. -/
theorem authenticateRequest_unsigned_types (env : Env) (info : ReqInfo) (r : Request)
    (action : Action)
    (ht : (getRequestAuthType env r).1 = authTypeAnonymous ∨
      (getRequestAuthType env r).1 = authTypeJWT ∨
      (getRequestAuthType env r).1 = authTypeSTS ∨
      (getRequestAuthType env r).1 = authTypePostPolicy)
    (ha : action ≠ CreateBucketAction) :
    authenticateRequest env (some info) r action =
      ((ErrNone, some { info with Cred := Credentials.zero, Owner := false, Region := "" },
        (getRequestAuthType env r).2), []) ∧
    checkRequestAuthTypeCredential env (some info) r action =
      (((Credentials.zero, false,
          (authorizeRequest env
            (some { info with Cred := Credentials.zero, Owner := false, Region := "" })
            (getRequestAuthType env r).2 action).1),
        some { info with Cred := Credentials.zero, Owner := false, Region := "" },
        (getRequestAuthType env r).2),
        (authorizeRequest env
          (some { info with Cred := Credentials.zero, Owner := false, Region := "" })
          (getRequestAuthType env r).2 action).2) ∧
    (∀ (atype : authType) (r2 : Request),
      (atype = authTypeAnonymous ∨ atype = authTypeJWT ∨ atype = authTypeSTS ∨
        atype = authTypePostPolicy) →
      validateSignature env atype r2 = (((Credentials.zero, false, ErrNone), r2), [])) := by
  have hsw := authenticateSwitch_unsigned env r action ht
  have hau : authenticateRequest env (some info) r action =
      ((ErrNone, some { info with Cred := Credentials.zero, Owner := false, Region := "" },
        (getRequestAuthType env r).2), []) := by
    rw [authenticateRequest_eq_switch, hsw]
    simp [ha]
  refine ⟨hau, ?_, ?_⟩
  · unfold checkRequestAuthTypeCredential
    rw [hau]
    simp
  · intro atype r2 h
    unfold validateSignature
    rcases h with h | h | h | h <;> subst h <;> simp

/-- Witness of C29: a request with a bearer token is classified JWT, passes
`authenticateRequest` with the empty credential, and is then denied by the
bucket policy like an anonymous request. -/
theorem authenticateRequest_unsigned_types_witness :
    (authenticateRequest sampleEnv
      (some { Cred := { Credentials.zero with AccessKey := "user" }, Owner := true,
              Region := "", BucketName := "bucket", ObjectName := "object" })
      { plainRequest with Header := [("Authorization", ["Bearer token"])] }
      "s3:GetObject").1.2.1 =
      some { Cred := Credentials.zero, Owner := false, Region := "", BucketName := "bucket",
             ObjectName := "object" } ∧
    (checkRequestAuthTypeCredential sampleEnv
      (some { Cred := { Credentials.zero with AccessKey := "user" }, Owner := true,
              Region := "", BucketName := "bucket", ObjectName := "object" })
      { plainRequest with Header := [("Authorization", ["Bearer token"])] }
      "s3:GetObject").1.1 = (Credentials.zero, false, ErrAccessDenied) :=
  ⟨congrArg (fun x => x.1.2.1)
      (authenticateRequest_unsigned_types sampleEnv
        { Cred := { Credentials.zero with AccessKey := "user" }, Owner := true,
          Region := "", BucketName := "bucket", ObjectName := "object" }
        { plainRequest with Header := [("Authorization", ["Bearer token"])] }
        "s3:GetObject" (Or.inr (Or.inl (by decide))) (by decide)).1,
    by decide⟩

/-- C30: for a resolved credential with an empty access key and the action
ListAllMyBuckets, `authorizeRequest` makes one call, an evaluation of the
identity policy for the empty account name, and returns ErrNone when it allows
the action and AccessDenied otherwise; the bucket policy is not consulted. -/
theorem authorizeRequest_listAllMyBuckets_anonymous (env : Env) (reqInfo : ReqInfo)
    (r : Request) (hkey : reqInfo.Cred.AccessKey = "") :
    let args : iampolicy.Args :=
      { AccountName := "", Groups := reqInfo.Cred.Groups, Action := ListAllMyBucketsAction,
        BucketName := reqInfo.BucketName,
        ConditionValues := env.getConditionValues r "" "" reqInfo.Cred.Claims,
        IsOwner := reqInfo.Owner, ObjectName := reqInfo.ObjectName,
        Claims := reqInfo.Cred.Claims }
    authorizeRequest env (some reqInfo) r ListAllMyBucketsAction =
      (if env.globalIAMSysIsAllowed args = true then ErrNone else ErrAccessDenied,
        [Call.globalIAMSysIsAllowed args]) := by
  have hne : ListAllMyBucketsAction ≠ ListBucketVersionsAction := by decide
  unfold authorizeRequest
  simp only [hkey, ne_eq, not_true_eq_false, false_and, if_false, hne]
  split_ifs <;> rfl

/-- Witness of C30: a bucket policy that allows everything does not admit an
anonymous ListAllMyBuckets request. -/
theorem authorizeRequest_listAllMyBuckets_anonymous_witness :
    (authorizeRequest { sampleEnv with globalPolicySysIsAllowed := fun _ => true }
      (some { Cred := Credentials.zero, Owner := false, Region := "", BucketName := "",
              ObjectName := "" })
      plainRequest ListAllMyBucketsAction).1 = ErrAccessDenied :=
  (congrArg Prod.fst
    (authorizeRequest_listAllMyBuckets_anonymous
      { sampleEnv with globalPolicySysIsAllowed := fun _ => true }
      { Cred := Credentials.zero, Owner := false, Region := "", BucketName := "",
        ObjectName := "" }
      plainRequest rfl)).trans (by decide)

/-- A list of tags that are not all empty holds a non-empty tag. -/
theorem allEmpty_false (tags : List String) (h : allEmpty tags = false) :
    ∃ tag ∈ tags, tag ≠ "" := by
  induction tags with
  | nil => simp [allEmpty] at h
  | cons tag rest ih =>
    unfold allEmpty at h
    by_cases ht : tag.length ≠ 0
    · refine ⟨tag, List.mem_cons_self _ _, ?_⟩
      intro h0
      rw [h0] at ht
      exact ht rfl
    · rw [if_neg ht] at h
      obtain ⟨t, hm, hne⟩ := ih h
      exact ⟨t, List.mem_cons_of_mem _ hm, hne⟩

/-- After the clean-up the part tags of an object are nil or hold a non-empty
tag. -/
theorem cleanPartETags_tags (j : xlMetaV2Version) (obj : xlMetaV2Object)
    (h : (cleanPartETags j).ObjectV2 = some obj) :
    obj.PartETags = none ∨ ∃ tags, obj.PartETags = some tags ∧ ∃ tag ∈ tags, tag ≠ "" := by
  unfold cleanPartETags at h
  cases hobj : j.ObjectV2 with
  | none =>
    rw [hobj] at h
    dsimp only at h
    rw [hobj] at h
    cases h
  | some obj0 =>
    rw [hobj] at h
    dsimp only at h
    by_cases he : allEmpty (obj0.PartETags.getD []) = true
    · rw [if_pos he] at h
      dsimp only at h
      cases h
      exact Or.inl rfl
    · rw [if_neg he, hobj] at h
      cases h
      cases ht : obj.PartETags with
      | none => exact Or.inl rfl
      | some tags =>
        rw [ht] at he
        exact Or.inr ⟨tags, rfl, allEmpty_false tags (by simpa using he)⟩

/-- C31: for a version `v` above `xlMetaVersion`, `unmarshalV` returns the
input bytes with an error and leaves the receiver as it was. For any other
`v`, whenever `unmarshalV` returns, with or without an error of the decoder,
an object record that is not nil has part tags that are nil or hold a
non-empty tag, and the bytes and the error returned are those of the decoder;
it returns unless the decoder succeeds with the type of a delete marker, `v`
is below 2 and the delete-marker record is nil. -/
theorem unmarshalV_partETags (env : MetaEnv) (j : xlMetaV2Version) (v : Nat)
    (bts : List Nat) :
    (v > env.xlMetaVersion →
      j.unmarshalV env v bts =
        some (j, bts, some (GoError.other ("unknown xlMetaVersion: " ++ toString v)))) ∧
    (v ≤ env.xlMetaVersion →
      (∀ j1 o err, j.unmarshalV env v bts = some (j1, o, err) →
        (o, err) = (env.UnmarshalMsg (clearPartIndices j) bts).2 ∧
        ∀ obj, j1.ObjectV2 = some obj →
          obj.PartETags = none ∨
            ∃ tags, obj.PartETags = some tags ∧ ∃ tag ∈ tags, tag ≠ "") ∧
      (j.unmarshalV env v bts = none ↔
        ((env.UnmarshalMsg (clearPartIndices j) bts).2.2 = none ∧
          (env.UnmarshalMsg (clearPartIndices j) bts).1.Type_ = env.DeleteType ∧ v < 2 ∧
          (env.UnmarshalMsg (clearPartIndices j) bts).1.DeleteMarker = none))) := by
  constructor
  · intro hv
    unfold xlMetaV2Version.unmarshalV
    rw [if_pos hv]
  · intro hv
    have hnot : ¬ v > env.xlMetaVersion := Nat.not_lt.mpr hv
    unfold xlMetaV2Version.unmarshalV
    rw [if_neg hnot]
    dsimp only
    generalize env.UnmarshalMsg (clearPartIndices j) bts = u
    obtain ⟨j2, o2, err2⟩ := u
    dsimp only
    by_cases hc : err2 = none ∧ j2.Type_ = env.DeleteType ∧ v < 2
    · rw [if_pos hc]
      cases hdm : j2.DeleteMarker with
      | none =>
        simp [hc.1, hc.2.1, hc.2.2]
      | some dm =>
        dsimp only
        constructor
        · intro j1 o err h
          cases h
          exact ⟨rfl, fun obj hobj => cleanPartETags_tags _ obj hobj⟩
        · simp
    · rw [if_neg hc]
      dsimp only
      constructor
      · intro j1 o err h
        cases h
        exact ⟨rfl, fun obj hobj => cleanPartETags_tags _ obj hobj⟩
      · constructor
        · intro h
          cases h
        · intro h
          exact absurd ⟨h.1, h.2.1, h.2.2.1⟩ hc

/-- Witness of C31: a version above `xlMetaVersion` is refused with the
receiver untouched; an object decoded with two empty part tags is left with
nil part tags; so is the object of a failed decoding. -/
theorem unmarshalV_partETags_witness :
    xlMetaV2Version.unmarshalV sampleMetaEnv
      { Type_ := 1, ObjectV2 := some { PartETags := some [""], PartIndices := some [[1]] },
        DeleteMarker := none } 3 [1, 0] =
      some ({ Type_ := 1,
              ObjectV2 := some { PartETags := some [""], PartIndices := some [[1]] },
              DeleteMarker := none }, [1, 0],
            some (GoError.other "unknown xlMetaVersion: 3")) ∧
    xlMetaV2Version.unmarshalV sampleMetaEnv
      { Type_ := 0, ObjectV2 := none, DeleteMarker := none } 1 [1, 0] =
      some ({ Type_ := 1, ObjectV2 := some { PartETags := none, PartIndices := none },
              DeleteMarker := none }, [0], none) ∧
    xlMetaV2Version.unmarshalV sampleMetaEnv
      { Type_ := 0, ObjectV2 := none, DeleteMarker := none } 2 [] =
      some ({ Type_ := 0, ObjectV2 := some { PartETags := none, PartIndices := none },
              DeleteMarker := none }, [],
            some (GoError.other "msgp: too few bytes left to read object")) ∧
    xlMetaV2Version.unmarshalV sampleMetaEnv
      { Type_ := 0, ObjectV2 := none, DeleteMarker := none } 1 [2] = none :=
  ⟨((unmarshalV_partETags sampleMetaEnv
      { Type_ := 1, ObjectV2 := some { PartETags := some [""], PartIndices := some [[1]] },
        DeleteMarker := none } 3 [1, 0]).1 (by decide)).trans (by decide),
    by decide, by decide,
    ((unmarshalV_partETags sampleMetaEnv
      { Type_ := 0, ObjectV2 := none, DeleteMarker := none } 1 [2]).2 (by decide)).2.2
      ⟨rfl, rfl, by decide, rfl⟩⟩

/-- A product of two `uint64` is below 2 ^ 64. -/
theorem mulUint64_lt (a b : Nat) : mulUint64 a b < 2 ^ 64 :=
  Nat.mod_lt _ (by decide)

/-- The difference of two `uint64` does not wrap around when the second is at
most the first. -/
theorem subUint64_of_le (a b : Nat) (hb : b ≤ a) (ha : a < 2 ^ 64) :
    subUint64 a b = a - b := by
  unfold subUint64
  omega

/-- C32: when `GetInfo` returns without error, `statfs` succeeded and the
`Info` has Total = Bsize * (Blocks - (Bfree - Bavail)) and Free = Bsize * Bavail
in 64-bit unsigned arithmetic, Free ≤ Total, and Used = Total - Free as
natural numbers, so without wrap-around. After a successful `statfs`, `GetInfo`
returns without error when the computed Free is at most Total, and returns an
error with Used left at zero when the computed Free exceeds Total. -/
theorem GetInfo_used (env : DiskEnv) (path : String) :
    (∀ info, GetInfo env path = (info, none) →
      info.Free ≤ info.Total ∧ info.Used = info.Total - info.Free ∧
      info.Used + info.Free = info.Total ∧ info.Total < 2 ^ 64 ∧
      ∃ s, env.Statfs path = .ok s ∧
        info.Total =
          mulUint64 s.Bsize (subUint64 s.Blocks (subUint64 s.Bfree (toUint64 s.Bavail))) ∧
        info.Free = mulUint64 s.Bsize (toUint64 s.Bavail)) ∧
    (∀ s, env.Statfs path = .ok s →
      (mulUint64 s.Bsize (toUint64 s.Bavail) ≤
          mulUint64 s.Bsize (subUint64 s.Blocks (subUint64 s.Bfree (toUint64 s.Bavail))) →
        (GetInfo env path).2 = none) ∧
      (mulUint64 s.Bsize (toUint64 s.Bavail) >
          mulUint64 s.Bsize (subUint64 s.Blocks (subUint64 s.Bfree (toUint64 s.Bavail))) →
        (GetInfo env path).2 ≠ none ∧ (GetInfo env path).1.Used = 0 ∧
        (GetInfo env path).1.Free = mulUint64 s.Bsize (toUint64 s.Bavail) ∧
        (GetInfo env path).1.Total =
          mulUint64 s.Bsize (subUint64 s.Blocks (subUint64 s.Bfree (toUint64 s.Bavail))))) := by
  constructor
  · intro info h
    unfold GetInfo at h
    cases hs : env.Statfs path with
    | error err =>
      rw [hs] at h
      simp at h
    | ok s =>
      rw [hs] at h
      dsimp only at h
      have hlt :=
        mulUint64_lt s.Bsize (subUint64 s.Blocks (subUint64 s.Bfree (toUint64 s.Bavail)))
      by_cases hf : mulUint64 s.Bsize (toUint64 s.Bavail) >
          mulUint64 s.Bsize (subUint64 s.Blocks (subUint64 s.Bfree (toUint64 s.Bavail)))
      · rw [if_pos hf] at h
        simp at h
      · rw [if_neg hf] at h
        have hle := Nat.not_lt.mp hf
        have hi := (Prod.mk.inj h).1
        subst hi
        dsimp only
        rw [subUint64_of_le _ _ hle hlt]
        exact ⟨hle, rfl, Nat.sub_add_cancel hle, hlt, s, rfl, rfl, rfl⟩
  · intro s hs
    unfold GetInfo
    rw [hs]
    dsimp only
    constructor
    · intro hle
      rw [if_neg (Nat.not_lt.mpr hle)]
    · intro hf
      rw [if_pos hf]
      exact ⟨by simp, rfl, rfl, rfl⟩

/-- Witness of C32: a file system of 1000 blocks of 4096 bytes with 400 free
and 300 available blocks has 900 blocks in total, of which 600 are used; a
result with a negative count of available blocks gives an error. -/
theorem GetInfo_used_witness :
    GetInfo sampleDiskEnv "/" =
      ({ Total := 3686400, Free := 1228800, Used := 2457600, Files := 50, Ffree := 20,
         FSType := "ufs" }, none) ∧
    (GetInfo sampleDiskEnv "/corrupt").2 ≠ none ∧
    (GetInfo sampleDiskEnv "/corrupt").1.Used = 0 :=
  ⟨by decide,
    ((GetInfo_used sampleDiskEnv "/corrupt").2
      { Bsize := 4096, Blocks := 1000, Bfree := 5, Bavail := -10, Files := 50,
        Ffree := 20, Fstypename := [117, 102, 115] } rfl).2 (by decide) |>.1,
    ((GetInfo_used sampleDiskEnv "/corrupt").2
      { Bsize := 4096, Blocks := 1000, Bfree := 5, Bavail := -10, Files := 50,
        Ffree := 20, Fstypename := [117, 102, 115] } rfl).2 (by decide) |>.2.1⟩

end B33s
